import Mathlib

/-!
Real-time rendering demos: command traces and their properties.

The demos of this repository are straight-line programs that issue calls to
GLFW, OpenGL and Dear ImGui.  Each program is embedded as a function from the
values its environment supplies (key states, GUI edits, status words returned
by the driver, names returned by `glGen*`) to the list of calls it issues, in
program order.  Floating-point arguments that play no role in the ordering of
calls (matrices, colours, times) are not recorded in the calls.

Small interpreters give the calls their OpenGL meaning: which framebuffer is
bound, which textures are bound to the texture units, which storage each
attachment has.
-/

namespace RealTime

/-! ## Objects -/

/-- Framebuffer objects; `default` is framebuffer name 0. -/
inductive Fbo where
  | default
  | framebuffer
  | gBuffer
  | ppFBO
  deriving DecidableEq, Repr

/-- Texture objects.  `material` stands for the textures a `Model` owns. -/
inductive Tex where
  | textureColorbuffer
  | gPosition
  | gNormal
  | gAlbedoSpec
  | ppColorBuffer
  | cubeTexture
  | material
  deriving DecidableEq, Repr

/-- Renderbuffer objects. -/
inductive Rbo where
  | rbo
  | rboDepth
  | rboPP
  deriving DecidableEq, Repr

/-- Shader programs of the demos. -/
inductive Shader where
  | modelShader
  | screenShader
  | filterShader
  | nightVisionShader
  | invertColorShader
  | vintageShader
  | sobelShader
  | shaderGeometryPass
  | shaderLightingPass
  | shaderLightBox
  | shaderDebug
  | shaderVignette
  | raytracingShader
  | skyboxShader
  | myShader
  | shaderProgram
  deriving DecidableEq, Repr

/-- Models loaded by the demos. -/
inductive Mdl where
  | myModel
  | skyboxCube
  deriving DecidableEq, Repr

/-- Capabilities passed to `glEnable` and `glDisable`. -/
inductive Cap where
  | depthTest
  | blend
  | cullFace
  | textureCubeMapSeamless
  deriving DecidableEq, Repr

/-- Targets of `glBindFramebuffer`. -/
inductive FboTarget where
  | framebuffer
  | readFramebuffer
  | drawFramebuffer
  deriving DecidableEq, Repr

/-- Primitive modes of the draw calls. -/
inductive Prim where
  | triangles
  | triangleStrip
  deriving DecidableEq, Repr

/-- Polygon rasterisation modes. -/
inductive PolyMode where
  | fill
  | line
  deriving DecidableEq, Repr

/-- Attachment points of a framebuffer object. -/
inductive Attachment where
  | color (i : Nat)
  | depth
  | depthStencil
  deriving DecidableEq, Repr

/-- Output streams of the C++ runtime. -/
inductive Stream where
  | cout
  | cerr
  deriving DecidableEq, Repr

/-- The value of `GL_FRAMEBUFFER_COMPLETE`. -/
def GL_FRAMEBUFFER_COMPLETE : Nat := 0x8CD5

/-! ## Calls -/

/-- One call issued by a demo. -/
inductive Cmd where
  | glfwInit
  | glfwWindowHint (hint : String)
  | glfwCreateWindow (w h : Int) (title : String)
  | glfwMakeContextCurrent
  | gladLoadGLLoader
  | glfwTerminate
  | glfwSetCallback (which : String)
  | glfwGetTime
  | glfwPollEvents
  | glfwSwapBuffers
  | glfwGetKey (key : String)
  | glfwSetWindowShouldClose
  | glfwGetFramebufferSize
  | print (s : Stream) (msg : String)
  | imgui (call : String)
  | widget (label : String)
  | imguiRenderDrawData
  | stbiSetFlip
  | shaderLoad (sh : Shader)
  | shaderReload (sh : Shader)
  | modelLoad (m : Mdl)
  | assets (call : String)
  | modelDraw (m : Mdl) (sh : Shader)
  | useProgram (sh : Shader)
  | setInt (sh : Shader) (name : String) (v : Int)
  | uniform (sh : Shader) (name : String)
  | viewport (x y w h : Int)
  | enable (c : Cap)
  | disable (c : Cap)
  | depthFunc (f : String)
  | blendFunc
  | cullFace
  | polygonMode (m : PolyMode)
  | clearColor
  | clear (color depth stencil : Bool)
  | genFramebuffers (f : Fbo)
  | bindFramebuffer (t : FboTarget) (f : Fbo)
  | genTextures (t : Tex)
  | activeTexture (unit : Nat)
  | bindTexture (t : Tex)
  | bindTextureCubeMap (t : Tex)
  | texImage2D (format : String) (w h : Int)
  | texParameteri
  | framebufferTexture2D (a : Attachment) (t : Tex)
  | drawBuffers (n : Nat)
  | genRenderbuffers (r : Rbo)
  | bindRenderbuffer (r : Rbo)
  | renderbufferStorage (format : String) (w h : Int)
  | framebufferRenderbuffer (a : Attachment) (r : Rbo)
  | checkFramebufferStatus
  | blitFramebuffer (sx0 sy0 sx1 sy1 dx0 dy0 dx1 dy1 : Int) (color depth stencil : Bool)
  | genVertexArrays (name : Nat)
  | genBuffers (name : Nat)
  | bindVertexArray (name : Nat)
  | bindBuffer (target : String) (name : Nat)
  | bufferData (target : String) (bytes : Nat)
  | enableVertexAttribArray (i : Nat)
  | vertexAttribPointer (i size stride offset : Nat)
  | drawArrays (p : Prim) (first count : Nat)
  | drawElements (p : Prim) (count : Nat)
  | deleteVertexArrays (name : Nat)
  | deleteBuffers (name : Nat)
  | createShader (kind : String)
  | shaderSource
  | compileShader
  | getShaderiv
  | getShaderInfoLog
  | createProgram
  | attachShader
  | linkProgram
  | getProgramiv
  | getProgramInfoLog
  | deleteShader
  | deleteProgram
  | getUniformLocation (name : String)
  deriving Repr

/-! ## Program globals -/

/-- File-scope variables of a demo together with the names the driver hands
out: the `k`-th call of `glGenVertexArrays` or `glGenBuffers` of a run writes
`names k`. -/
structure Globals where
  SCR_WIDTH : Int
  SCR_HEIGHT : Int
  quadVAO : Nat
  quadVBO : Nat
  cubeVAO : Nat
  cubeVBO : Nat
  -- the globals `window` (non-null) and `gui` of util/window.h
  window : Bool
  gui : Bool
  -- the local `activeShader` of the post-processing demo
  activeShader : Shader
  names : Nat → Nat
  generated : Nat

/-- Vertex data of `renderQuad`: five floats per vertex, position then
texture coordinate. -/
def quadVertices (K : Type) [Field K] : List K :=
  [ -1,  1, 0,  0, 1,
    -1, -1, 0,  0, 0,
     1,  1, 0,  1, 1,
     1, -1, 0,  1, 0 ]

/-- Size in bytes of a C `float`. -/
def sizeofFloat : Nat := 4

/-- The function `renderQuad`, the same in the post-processing, deferred and
ray-tracing demos: on a zero `quadVAO` it creates and fills the vertex array
and buffer, then it draws four vertices as a triangle strip. -/
def renderQuad (g : Globals) : List Cmd × Globals :=
  let r : List Cmd × Globals :=
    if g.quadVAO = 0 then
      let vao := g.names g.generated
      let vbo := g.names (g.generated + 1)
      ([ .genVertexArrays vao,
         .genBuffers vbo,
         .bindVertexArray vao,
         .bindBuffer "GL_ARRAY_BUFFER" vbo,
         .bufferData "GL_ARRAY_BUFFER" (20 * sizeofFloat),
         .enableVertexAttribArray 0,
         .vertexAttribPointer 0 3 (5 * sizeofFloat) 0,
         .enableVertexAttribArray 1,
         .vertexAttribPointer 1 2 (5 * sizeofFloat) (3 * sizeofFloat) ],
       { g with quadVAO := vao, quadVBO := vbo, generated := g.generated + 2 })
    else ([], g)
  (r.1 ++ [ .bindVertexArray r.2.quadVAO,
            .drawArrays .triangleStrip 0 4,
            .bindVertexArray 0 ], r.2)

/-- The function `renderCube` of the deferred demos: on a zero `cubeVAO` it
creates and fills the vertex array and buffer (36 vertices of eight floats),
then it draws 36 vertices as triangles. -/
def renderCube (g : Globals) : List Cmd × Globals :=
  let r : List Cmd × Globals :=
    if g.cubeVAO = 0 then
      let vao := g.names g.generated
      let vbo := g.names (g.generated + 1)
      ([ .genVertexArrays vao,
         .genBuffers vbo,
         .bindBuffer "GL_ARRAY_BUFFER" vbo,
         .bufferData "GL_ARRAY_BUFFER" (288 * sizeofFloat),
         .bindVertexArray vao,
         .enableVertexAttribArray 0,
         .vertexAttribPointer 0 3 (8 * sizeofFloat) 0,
         .enableVertexAttribArray 1,
         .vertexAttribPointer 1 3 (8 * sizeofFloat) (3 * sizeofFloat),
         .enableVertexAttribArray 2,
         .vertexAttribPointer 2 2 (8 * sizeofFloat) (6 * sizeofFloat),
         .bindBuffer "GL_ARRAY_BUFFER" 0,
         .bindVertexArray 0 ],
       { g with cubeVAO := vao, cubeVBO := vbo, generated := g.generated + 2 })
    else ([], g)
  (r.1 ++ [ .bindVertexArray r.2.cubeVAO,
            .drawArrays .triangles 0 36,
            .bindVertexArray 0 ], r.2)

/-- The function `processInput` of the camera demos: the escape key requests
closing the window; the four movement keys only move the camera. -/
def processInput (escPressed : Bool) : List Cmd :=
  [.glfwGetKey "GLFW_KEY_ESCAPE"] ++
  (if escPressed then [.glfwSetWindowShouldClose] else []) ++
  [ .glfwGetKey "GLFW_KEY_W", .glfwGetKey "GLFW_KEY_S",
    .glfwGetKey "GLFW_KEY_A", .glfwGetKey "GLFW_KEY_D" ]

/-- The framebuffer-size lambda registered by the post-processing and
deferred demos: a size with both components positive is stored in
`SCR_WIDTH` and `SCR_HEIGHT` and becomes the viewport.  The function
`framebuffer_size_callback` of the ray-tracing and environment-mapping demos
makes the same call and the same two assignments. -/
def sizeLambda (g : Globals) (wh : Int × Int) : List Cmd × Globals :=
  if 0 < wh.1 ∧ 0 < wh.2 then
    ([.viewport 0 0 wh.1 wh.2], { g with SCR_WIDTH := wh.1, SCR_HEIGHT := wh.2 })
  else ([], g)

/-- Delivery, in order, of the framebuffer-size events pending at a call of
`glfwPollEvents`. -/
def deliverSizes : List (Int × Int) → Globals → List Cmd × Globals
  | [], g => ([], g)
  | wh :: rest, g =>
    let r := sizeLambda g wh
    let r2 := deliverSizes rest r.2
    (r.1 ++ r2.1, r2.2)

/-- What the environment supplies during one iteration of a render loop. -/
structure FrameInput where
  -- Framebuffer-size events delivered by `glfwPollEvents`.
  sizes : List (Int × Int)
  -- Whether the escape key is down.
  escPressed : Bool
  -- Whether the button "reload shaders" was clicked.
  reloadClicked : Bool
  -- Index chosen in the combo box "postprocessing".
  postProcessingMode : Fin 6
  -- Values of the check boxes after the GUI has run.
  showWireframe : Bool
  rotateModel : Bool
  animateLights : Bool
  displayGBuffers : Bool
  animateLight : Bool
  -- Value of the slider "number of lights".
  numLights : Nat
  -- Whether the combo boxes "model" and "environment" changed their value.
  modelChanged : Bool
  skyboxChanged : Bool
  -- Size reported by `glfwGetFramebufferSize`.
  display : Int × Int

/-- The globals as the loader leaves them before `main` of a camera demo
starts: the screen size as written in the source, every object name zero. -/
def Globals.start (w h : Int) (names : Nat → Nat) : Globals :=
  { SCR_WIDTH := w, SCR_HEIGHT := h, quadVAO := 0, quadVBO := 0, cubeVAO := 0,
    cubeVBO := 0, window := false, gui := false, activeShader := .screenShader,
    names := names, generated := 0 }

/-- What the environment answers during start-up. -/
structure InitEnv where
  -- `glfwInit` succeeded
  glfwOk : Bool
  -- `glfwCreateWindow` returned a window
  windowOk : Bool
  -- `gladLoadGLLoader` succeeded, in `InitWindow` and in `main`
  gladOk : Bool
  gladOk2 : Bool
  -- values returned by the calls of `glCheckFramebufferStatus`, in order
  status1 : Nat
  status2 : Nat

/-- The function `InitWindow` of util/window.h (the hint made only on Apple
systems is left out).  It returns the calls and the `int` result. -/
def InitWindow (e : InitEnv) (g : Globals) (width height : Int) (appname : String) :
    (List Cmd × Int) × Globals :=
  let hints : List Cmd :=
    [ .glfwInit,
      .glfwWindowHint "GLFW_CLIENT_API",
      .glfwWindowHint "GLFW_CONTEXT_VERSION_MAJOR",
      .glfwWindowHint "GLFW_CONTEXT_VERSION_MINOR",
      .glfwWindowHint "GLFW_OPENGL_PROFILE",
      .glfwWindowHint "GLFW_SAMPLES",
      .glfwWindowHint "GLFW_RED_BITS",
      .glfwWindowHint "GLFW_GREEN_BITS",
      .glfwWindowHint "GLFW_BLUE_BITS",
      .glfwWindowHint "GLFW_ALPHA_BITS",
      .glfwWindowHint "GLFW_STENCIL_BITS",
      .glfwWindowHint "GLFW_DEPTH_BITS",
      .glfwWindowHint "GLFW_RESIZABLE",
      .glfwWindowHint "GLFW_SCALE_TO_MONITOR",
      .glfwCreateWindow width height appname ]
  if e.windowOk = false then
    ((hints ++ [.print .cout "Failed to create GLFW window", .glfwTerminate], -1),
      { g with window := false })
  else if e.gladOk = false then
    ((hints ++ [.glfwMakeContextCurrent, .gladLoadGLLoader,
        .print .cout "Failed to initialize GLAD"], -1), { g with window := true })
  else
    ((hints ++ [.glfwMakeContextCurrent, .gladLoadGLLoader], 0), { g with window := true })

/-- The function `InitWindowAndGUI` of util/window.h.  On success the C++
function ends without a `return`; the result 0 stands for the value no caller
reads.  The demos that pass a fourth argument use an overload that is not
among the sources; the argument only selects whether the window may be
resized and is not recorded. -/
def InitWindowAndGUI (e : InitEnv) (g : Globals) (width height : Int) (appname : String) :
    (List Cmd × Int) × Globals :=
  let r := InitWindow e g width height appname
  if 0 ≤ r.1.2 then
    ((r.1.1 ++ [ .imgui "IMGUI_CHECKVERSION", .imgui "ImGui::CreateContext",
        .imgui "ImGui::GetIO", .imgui "ImGui::StyleColorsDark",
        .imgui "ImGui_ImplGlfw_InitForOpenGL", .imgui "ImGui_ImplOpenGL3_Init" ], 0),
      { r.2 with gui := true })
  else ((r.1.1, -1), r.2)

namespace Postprocessing

/-- The map `postProShader`, in the order of its keys. -/
def postProShader : Fin 6 → Shader
  | 0 => .screenShader
  | 1 => .invertColorShader
  | 2 => .vintageShader
  | 3 => .nightVisionShader
  | 4 => .filterShader
  | 5 => .sobelShader

/-- The framebuffer configuration of `main`: one colour texture and one
depth-stencil renderbuffer, then the completeness check. -/
def framebufferSetup (e : InitEnv) (g : Globals) : List Cmd :=
  [ .genFramebuffers .framebuffer,
    .bindFramebuffer .framebuffer .framebuffer,
    .genTextures .textureColorbuffer,
    .bindTexture .textureColorbuffer,
    .texImage2D "GL_RGB" g.SCR_WIDTH g.SCR_HEIGHT,
    .texParameteri,
    .texParameteri,
    .framebufferTexture2D (.color 0) .textureColorbuffer,
    .genRenderbuffers .rbo,
    .bindRenderbuffer .rbo,
    .renderbufferStorage "GL_DEPTH24_STENCIL8" g.SCR_WIDTH g.SCR_HEIGHT,
    .framebufferRenderbuffer .depthStencil .rbo,
    .checkFramebufferStatus ] ++
  (if e.status1 ≠ GL_FRAMEBUFFER_COMPLETE then
    [.print .cout "ERROR::FRAMEBUFFER:: Framebuffer is not complete!"] else []) ++
  [ .bindFramebuffer .framebuffer .default ]

/-- The GUI block of the render loop; it runs only when `gui` is set and
returns the shader the combo box selects. -/
def guiBlock (i : FrameInput) (g : Globals) : List Cmd × Globals :=
  if g.gui then
    let active := postProShader i.postProcessingMode
    ([ .imgui "ImGui_ImplOpenGL3_NewFrame", .imgui "ImGui_ImplGlfw_NewFrame",
       .imgui "ImGui::NewFrame", .imgui "ImGui::Begin", .imgui "ImGui::Text",
       .widget "clear color", .widget "rotate model", .widget "postprocessing",
       .useProgram active, .setInt active "screenTexture" 0,
       .widget "kernel size", .widget "show wireframe", .widget "reload shaders" ] ++
     (if i.reloadClicked then
        [ .shaderReload .modelShader, .useProgram .modelShader,
          .setInt .modelShader "texture1" 0,
          .shaderReload active, .useProgram active, .setInt active "screenTexture" 0 ]
      else []) ++
     [ .imgui "ImGui::End", .imgui "ImGui::Render" ],
     { g with activeShader := active })
  else ([], g)

/-- The drawing part of one iteration of the render loop, from the comment
"render" to `glfwSwapBuffers`. -/
def render (i : FrameInput) (g : Globals) : List Cmd × Globals :=
  let q := renderQuad g
  ([ .bindFramebuffer .framebuffer .framebuffer,
     .enable .depthTest,
     .clearColor,
     .clear true true false,
     .useProgram .modelShader ] ++
   [ .uniform .modelShader "model", .uniform .modelShader "view",
     .uniform .modelShader "projection",
     .modelDraw .myModel .modelShader,
     .bindFramebuffer .framebuffer .default,
     .disable .depthTest,
     .clearColor,
     .clear true false false ] ++
   (if i.showWireframe then [.polygonMode .line] else []) ++
   [ .useProgram g.activeShader,
     .uniform g.activeShader "kernelSize",
     .uniform g.activeShader "randomNumber",
     .uniform g.activeShader "timer",
     .bindTexture .textureColorbuffer ] ++
   q.1 ++
   [ .polygonMode .fill ] ++
   (if g.gui then [.imguiRenderDrawData] else []) ++
   [ .glfwSwapBuffers ], q.2)

/-- One iteration of the render loop of `main`. -/
def frame (i : FrameInput) (g : Globals) : List Cmd × Globals :=
  let d := deliverSizes i.sizes g
  let u := guiBlock i d.2
  let r := render i u.2
  ([.glfwGetTime, .glfwPollEvents] ++ d.1 ++ processInput i.escPressed ++ u.1 ++ r.1, r.2)

/-- The render loop: one iteration per element of the input, ended early by
the escape key, which sets the window's close flag. -/
def loop : List FrameInput → Globals → List Cmd × Globals
  | [], g => ([], g)
  | i :: rest, g =>
    let r := frame i g
    if i.escPressed then r
    else
      let r2 := loop rest r.2
      (r.1 ++ r2.1, r2.2)

/-- The part of `main` that precedes the framebuffer configuration. -/
def startup (e : InitEnv) (g : Globals) : List Cmd × Globals :=
  let w := InitWindowAndGUI e g g.SCR_WIDTH g.SCR_HEIGHT "postprocessing"
  let g1 := w.2
  (w.1.1 ++
   [ .viewport 0 0 g1.SCR_WIDTH g1.SCR_HEIGHT,
     .print .cout "SCR_WIDTH SCR_HEIGHT",
     .glfwSetCallback "cursor pos", .glfwSetCallback "mouse button",
     .glfwSetCallback "scroll", .glfwSetCallback "framebuffer size",
     .enable .depthTest,
     .shaderLoad .modelShader, .shaderLoad .screenShader,
     .shaderLoad .filterShader, .shaderLoad .nightVisionShader,
     .shaderLoad .invertColorShader, .shaderLoad .vintageShader,
     .shaderLoad .sobelShader,
     .modelLoad .myModel,
     .useProgram .modelShader, .setInt .modelShader "texture1" 0,
     .useProgram .screenShader, .setInt .screenShader "screenTexture" 0 ],
   { g1 with activeShader := .screenShader })

/-- Everything `main` does before its render loop. -/
def prelude (e : InitEnv) (names : Nat → Nat) : List Cmd × Globals :=
  let s := startup e (Globals.start 1024 720 names)
  (s.1 ++ framebufferSetup e s.2, s.2)

/-- The program `main` of the post-processing demo: the calls it issues and
its exit status, for a run whose render loop receives the given inputs. -/
def main (e : InitEnv) (names : Nat → Nat) (frames : List FrameInput) : List Cmd × Int :=
  let s := prelude e names
  let l := loop frames s.2
  (s.1 ++ l.1 ++ [.glfwTerminate], 0)


end Postprocessing

namespace Deferred

/-- Number of entries pushed onto `objectPositions`. -/
def objectCount : Nat := 9

/-- The constant `NR_LIGHTS`, the size of `lightPositions`. -/
def NR_LIGHTS : Nat := 128

/-- Configuration of the g-buffer framebuffer in `main`: three colour
textures, the depth renderbuffer, then the completeness check. -/
def gBufferSetup (e : InitEnv) (g : Globals) (msg : String) : List Cmd :=
  [ .genFramebuffers .gBuffer,
    .bindFramebuffer .framebuffer .gBuffer,
    .genTextures .gPosition,
    .bindTexture .gPosition,
    .texImage2D "GL_RGBA16F" g.SCR_WIDTH g.SCR_HEIGHT,
    .texParameteri,
    .texParameteri,
    .framebufferTexture2D (.color 0) .gPosition,
    .genTextures .gNormal,
    .bindTexture .gNormal,
    .texImage2D "GL_RGBA16F" g.SCR_WIDTH g.SCR_HEIGHT,
    .texParameteri,
    .texParameteri,
    .framebufferTexture2D (.color 1) .gNormal,
    .genTextures .gAlbedoSpec,
    .bindTexture .gAlbedoSpec,
    .texImage2D "GL_RGBA" g.SCR_WIDTH g.SCR_HEIGHT,
    .texParameteri,
    .texParameteri,
    .framebufferTexture2D (.color 2) .gAlbedoSpec,
    .drawBuffers 3,
    .genRenderbuffers .rboDepth,
    .bindRenderbuffer .rboDepth,
    .renderbufferStorage "GL_DEPTH_COMPONENT" g.SCR_WIDTH g.SCR_HEIGHT,
    .framebufferRenderbuffer .depth .rboDepth,
    .checkFramebufferStatus ] ++
  (if e.status1 ≠ GL_FRAMEBUFFER_COMPLETE then [.print .cout msg] else []) ++
  [ .bindFramebuffer .framebuffer .default ]

/-- Configuration of the post-processing framebuffer in `main` of the
vignette version: one colour texture, a depth-stencil renderbuffer, then the
completeness check. -/
def ppSetup (e : InitEnv) (g : Globals) : List Cmd :=
  [ .genFramebuffers .ppFBO,
    .bindFramebuffer .framebuffer .ppFBO,
    .genTextures .ppColorBuffer,
    .bindTexture .ppColorBuffer,
    .texImage2D "GL_RGBA" g.SCR_WIDTH g.SCR_HEIGHT,
    .texParameteri,
    .texParameteri,
    .framebufferTexture2D (.color 0) .ppColorBuffer,
    .genRenderbuffers .rboPP,
    .bindRenderbuffer .rboPP,
    .renderbufferStorage "GL_DEPTH24_STENCIL8" g.SCR_WIDTH g.SCR_HEIGHT,
    .framebufferRenderbuffer .depthStencil .rboPP,
    .checkFramebufferStatus ] ++
  (if e.status2 ≠ GL_FRAMEBUFFER_COMPLETE then
    [.print .cout "Postprocessing framebuffer not complete!"] else []) ++
  [ .bindFramebuffer .framebuffer .default ]

/-- The configuration of both render targets, as `main` of the vignette
version makes it. -/
def targets (e : InitEnv) (g : Globals) : List Cmd :=
  gBufferSetup e g "GBuffer Framebuffer not complete!" ++ ppSetup e g

/-- The calls that bind the three g-buffer textures to units 0, 1 and 2. -/
def bindGBufferTextures : List Cmd :=
  [ .activeTexture 0, .bindTexture .gPosition,
    .activeTexture 1, .bindTexture .gNormal,
    .activeTexture 2, .bindTexture .gAlbedoSpec ]

/-- The calls that tell the lighting shader which units its samplers read. -/
def lightingSamplers : List Cmd :=
  [ .useProgram .shaderLightingPass,
    .setInt .shaderLightingPass "gPosition" 0,
    .setInt .shaderLightingPass "gNormal" 1,
    .setInt .shaderLightingPass "gAlbedoSpec" 2 ]

/-- The GUI block of the render loop of the vignette version. -/
def guiBlock (i : FrameInput) (g : Globals) : List Cmd :=
  if g.gui then
    [ .imgui "ImGui_ImplOpenGL3_NewFrame", .imgui "ImGui_ImplGlfw_NewFrame",
      .imgui "ImGui::NewFrame", .imgui "ImGui::Begin", .imgui "ImGui::Text",
      .widget "gamma", .widget "animate lights", .widget "number of lights",
      .widget "lightbox alpha", .widget "display GBuffers" ] ++
    (if i.displayGBuffers then [.widget "show GBuffer"] else []) ++
    [ .widget "Vignette", .widget "Vignette Strength", .widget "reload shaders" ] ++
    (if i.reloadClicked then
      [ .shaderReload .shaderGeometryPass, .shaderReload .shaderLightingPass,
        .shaderReload .shaderLightBox, .shaderReload .shaderDebug,
        .shaderReload .shaderVignette ] ++ lightingSamplers
     else []) ++
    [ .imgui "ImGui::End", .imgui "ImGui::Render" ]
  else []

/-- The loop over `objectPositions` of the geometry pass, `n` iterations. -/
def objectDraws : Nat → List Cmd
  | 0 => []
  | n + 1 =>
    [ .uniform .shaderGeometryPass "model",
      .modelDraw .myModel .shaderGeometryPass ] ++ objectDraws n

/-- The geometry pass, from binding `gBuffer` to binding framebuffer 0. -/
def geometryPass : List Cmd :=
  [ .bindFramebuffer .framebuffer .gBuffer,
    .clear true true false,
    .useProgram .shaderGeometryPass,
    .uniform .shaderGeometryPass "projection",
    .uniform .shaderGeometryPass "view" ] ++
  objectDraws objectCount ++
  [ .bindFramebuffer .framebuffer .default ]

/-- The branch taken when `displayGBuffers` is set. -/
def debugPass (g : Globals) : List Cmd × Globals :=
  let q := renderQuad g
  ([.useProgram .shaderDebug] ++ bindGBufferTextures ++
   [.uniform .shaderDebug "fboAttachment"] ++ q.1, q.2)

/-- The loop that sends position and colour of every light: the iterations
`k`, `k + 1`, ... up to `k + n - 1`. -/
def lightUniforms : Nat → Nat → List Cmd
  | _, 0 => []
  | k, n + 1 =>
    [ .uniform .shaderLightingPass ("lights[" ++ toString k ++ "].Position"),
      .uniform .shaderLightingPass ("lights[" ++ toString k ++ "].Color") ] ++
    lightUniforms (k + 1) n

/-- The lighting quad: the g-buffer textures are bound, the uniforms are
sent, then `renderQuad` is called. -/
def lightingQuad (i : FrameInput) (g : Globals) : List Cmd × Globals :=
  let q := renderQuad g
  ([.useProgram .shaderLightingPass] ++ bindGBufferTextures ++
   lightUniforms 0 NR_LIGHTS ++
   [ .uniform .shaderLightingPass "viewPos",
     .setInt .shaderLightingPass "numLights" i.numLights,
     .uniform .shaderLightingPass "gamma" ] ++ q.1, q.2)

/-- The loop that draws one cube per light, `n` iterations. -/
def lightBoxLoop : Nat → Globals → List Cmd × Globals
  | 0, g => ([], g)
  | n + 1, g =>
    let c := renderCube g
    let r := lightBoxLoop n c.2
    ([ .uniform .shaderLightBox "model", .uniform .shaderLightBox "lightColor" ] ++
      c.1 ++ r.1, r.2)

/-- The light boxes of the vignette version, from `glEnable(GL_BLEND)` to
`glDisable(GL_BLEND)`. -/
def lightBoxes (i : FrameInput) (g : Globals) : List Cmd × Globals :=
  let r := lightBoxLoop i.numLights g
  ([ .enable .blend, .blendFunc, .enable .cullFace,
     .useProgram .shaderLightBox,
     .uniform .shaderLightBox "projection",
     .uniform .shaderLightBox "view",
     .uniform .shaderLightBox "alpha" ] ++ r.1 ++ [.disable .blend], r.2)

/-- The vignette pass: the quad is drawn to framebuffer 0 with
`ppColorBuffer` bound to unit 0. -/
def vignettePass (g : Globals) : List Cmd × Globals :=
  let q := renderQuad g
  ([ .clear true false false,
     .useProgram .shaderVignette,
     .activeTexture 0,
     .bindTexture .ppColorBuffer,
     .uniform .shaderVignette "vignetteOn",
     .uniform .shaderVignette "vignetteStrength" ] ++ q.1, q.2)

/-- The branch taken when `displayGBuffers` is not set: lighting and light
boxes into `ppFBO`, then the vignette pass. -/
def shadedPasses (i : FrameInput) (g : Globals) : List Cmd × Globals :=
  let l := lightingQuad i g
  let b := lightBoxes i l.2
  let v := vignettePass b.2
  ([ .bindFramebuffer .framebuffer .ppFBO, .clear true true false ] ++ l.1 ++ b.1 ++
   [ .bindFramebuffer .framebuffer .default ] ++ v.1, v.2)

/-- The drawing part of one iteration of the render loop, from the comment
"render" to `glfwSwapBuffers`. -/
def render (i : FrameInput) (g : Globals) : List Cmd × Globals :=
  let p := if i.displayGBuffers then debugPass g else shadedPasses i g
  ([ .clearColor, .clear true true false ] ++ geometryPass ++ p.1 ++
   (if g.gui then [.imguiRenderDrawData] else []) ++ [.glfwSwapBuffers], p.2)

/-- One iteration of the render loop of `main`. -/
def frame (i : FrameInput) (g : Globals) : List Cmd × Globals :=
  let d := deliverSizes i.sizes g
  let r := render i d.2
  ([.glfwGetTime, .glfwPollEvents] ++ d.1 ++ processInput i.escPressed ++
    guiBlock i d.2 ++ r.1, r.2)

/-- The render loop: one iteration per element of the input, ended early by
the escape key, which sets the window's close flag. -/
def loop : List FrameInput → Globals → List Cmd × Globals
  | [], g => ([], g)
  | i :: rest, g =>
    let r := frame i g
    if i.escPressed then r
    else
      let r2 := loop rest r.2
      (r.1 ++ r2.1, r2.2)

/-- The part of `main` up to the second loading of the OpenGL functions. -/
def startup (e : InitEnv) (g : Globals) : List Cmd × Globals :=
  let w := InitWindowAndGUI e g g.SCR_WIDTH g.SCR_HEIGHT "deferred"
  let g1 := w.2
  (w.1.1 ++
   [ .viewport 0 0 g1.SCR_WIDTH g1.SCR_HEIGHT,
     .glfwSetCallback "cursor pos", .glfwSetCallback "mouse button",
     .glfwSetCallback "scroll", .glfwSetCallback "framebuffer size",
     .gladLoadGLLoader ], g1)

/-- The part of `main` between the loading of the OpenGL functions and the
configuration of the framebuffers. -/
def resources : List Cmd :=
  [ .enable .depthTest,
    .shaderLoad .shaderGeometryPass, .shaderLoad .shaderLightingPass,
    .shaderLoad .shaderLightBox, .shaderLoad .shaderDebug,
    .shaderLoad .shaderVignette,
    .stbiSetFlip,
    .modelLoad .myModel ]

/-- Everything `main` does before its render loop when the second loading
of the OpenGL functions succeeds. -/
def prelude (e : InitEnv) (names : Nat → Nat) : List Cmd × Globals :=
  let s := startup e (Globals.start 1280 720 names)
  (s.1 ++ resources ++ targets e s.2 ++ lightingSamplers, s.2)

/-- The program `main` of the deferred demo with the vignette pass: the calls
it issues and its exit status, for a run whose render loop receives the given
inputs. -/
def main (e : InitEnv) (names : Nat → Nat) (frames : List FrameInput) : List Cmd × Int :=
  if e.gladOk2 = false then
    ((startup e (Globals.start 1280 720 names)).1 ++
      [.print .cout "Failed to initialize GLAD"], -1)
  else
    let s := prelude e names
    let l := loop frames s.2
    (s.1 ++ l.1 ++ [.glfwTerminate], 0)


end Deferred

namespace DeferredOrig

/-- The GUI block of the render loop of the original deferred demo. -/
def guiBlock (i : FrameInput) (g : Globals) : List Cmd :=
  if g.gui then
    [ .imgui "ImGui_ImplOpenGL3_NewFrame", .imgui "ImGui_ImplGlfw_NewFrame",
      .imgui "ImGui::NewFrame", .imgui "ImGui::Begin", .imgui "ImGui::Text",
      .widget "gamma", .widget "animate lights", .widget "number of lights",
      .widget "lightbox alpha", .widget "display GBuffers" ] ++
    (if i.displayGBuffers then [.widget "show GBuffer"] else []) ++
    [ .widget "reload shaders" ] ++
    (if i.reloadClicked then
      [ .shaderReload .shaderGeometryPass, .shaderReload .shaderLightingPass ] ++
        Deferred.lightingSamplers
     else []) ++
    [ .imgui "ImGui::End", .imgui "ImGui::Render" ]
  else []

/-- The copy of the depth buffer of `gBuffer` to framebuffer 0. -/
def depthBlit (g : Globals) : List Cmd :=
  [ .bindFramebuffer .readFramebuffer .gBuffer,
    .bindFramebuffer .drawFramebuffer .default,
    .blitFramebuffer 0 0 g.SCR_WIDTH g.SCR_HEIGHT 0 0 g.SCR_WIDTH g.SCR_HEIGHT
      false true false,
    .bindFramebuffer .framebuffer .default ]

/-- The light boxes, from `glEnable(GL_BLEND)` to `glDisable(GL_BLEND)`. -/
def lightBoxes (i : FrameInput) (g : Globals) : List Cmd × Globals :=
  let r := Deferred.lightBoxLoop i.numLights g
  ([ .enable .blend, .blendFunc, .enable .cullFace, .cullFace,
     .useProgram .shaderLightBox,
     .uniform .shaderLightBox "projection",
     .uniform .shaderLightBox "view",
     .uniform .shaderLightBox "alpha" ] ++ r.1 ++ [.disable .blend], r.2)

/-- The branch taken when `displayGBuffers` is not set: the lighting quad,
the depth copy and the light boxes, all into framebuffer 0. -/
def shadedPasses (i : FrameInput) (g : Globals) : List Cmd × Globals :=
  let l := Deferred.lightingQuad i g
  let b := lightBoxes i l.2
  ([ .clear true true false ] ++ l.1 ++ depthBlit g ++ b.1, b.2)

/-- The drawing part of one iteration of the render loop. -/
def render (i : FrameInput) (g : Globals) : List Cmd × Globals :=
  let p := if i.displayGBuffers then Deferred.debugPass g else shadedPasses i g
  ([ .clearColor, .clear true true false ] ++ Deferred.geometryPass ++ p.1 ++
   (if g.gui then [.imguiRenderDrawData] else []) ++ [.glfwSwapBuffers], p.2)

/-- One iteration of the render loop of `main`. -/
def frame (i : FrameInput) (g : Globals) : List Cmd × Globals :=
  let d := deliverSizes i.sizes g
  let r := render i d.2
  ([.glfwGetTime, .glfwPollEvents] ++ d.1 ++ processInput i.escPressed ++
    guiBlock i d.2 ++ r.1, r.2)

/-- The render loop: one iteration per element of the input, ended early by
the escape key, which sets the window's close flag. -/
def loop : List FrameInput → Globals → List Cmd × Globals
  | [], g => ([], g)
  | i :: rest, g =>
    let r := frame i g
    if i.escPressed then r
    else
      let r2 := loop rest r.2
      (r.1 ++ r2.1, r2.2)

/-- The part of `main` between the loading of the OpenGL functions and the
configuration of the framebuffer. -/
def resources : List Cmd :=
  [ .enable .depthTest,
    .shaderLoad .shaderGeometryPass, .shaderLoad .shaderLightingPass,
    .shaderLoad .shaderLightBox, .shaderLoad .shaderDebug,
    .stbiSetFlip,
    .modelLoad .myModel ]

/-- The configuration of the only render target of the original demo. -/
def targets (e : InitEnv) (g : Globals) : List Cmd :=
  Deferred.gBufferSetup e g "Framebuffer not complete!"

/-- Everything `main` does before its render loop when the second loading
of the OpenGL functions succeeds. -/
def prelude (e : InitEnv) (names : Nat → Nat) : List Cmd × Globals :=
  let s := Deferred.startup e (Globals.start 1280 720 names)
  (s.1 ++ resources ++ targets e s.2 ++ Deferred.lightingSamplers, s.2)

/-- The program `main` of the original deferred demo. -/
def main (e : InitEnv) (names : Nat → Nat) (frames : List FrameInput) : List Cmd × Int :=
  if e.gladOk2 = false then
    ((Deferred.startup e (Globals.start 1280 720 names)).1 ++
      [.print .cout "Failed to initialize GLAD"], -1)
  else
    let s := prelude e names
    let l := loop frames s.2
    (s.1 ++ l.1 ++ [.glfwTerminate], 0)

end DeferredOrig

namespace Raytracing

/-- The GUI block of the render loop; `ImGui::Render` is called in an `if`
of its own. -/
def guiBlock (i : FrameInput) (g : Globals) : List Cmd :=
  (if g.gui then
    [ .imgui "ImGui_ImplOpenGL3_NewFrame", .imgui "ImGui_ImplGlfw_NewFrame",
      .imgui "ImGui::NewFrame", .imgui "ImGui::Begin", .imgui "ImGui::Text",
      .widget "ray depth", .widget "animate light", .widget "reload shaders" ] ++
    (if i.reloadClicked then
      [ .shaderReload .raytracingShader, .useProgram .raytracingShader ] else []) ++
    [ .imgui "ImGui::End" ]
   else []) ++
  (if g.gui then [.imgui "ImGui::Render"] else [])

/-- One iteration of the render loop of `main`. -/
def frame (i : FrameInput) (g : Globals) : List Cmd × Globals :=
  let d := deliverSizes i.sizes g
  let q := renderQuad d.2
  ([.glfwGetTime, .glfwPollEvents] ++ d.1 ++ processInput i.escPressed ++
    guiBlock i d.2 ++
    [ .glfwGetFramebufferSize,
      .viewport 0 0 i.display.1 i.display.2,
      .clearColor,
      .clear true true true,
      .enable .depthTest,
      .disable .blend,
      .uniform .raytracingShader "projection",
      .uniform .raytracingShader "view",
      .uniform .raytracingShader "camPos",
      .uniform .raytracingShader "maxDepth",
      .uniform .raytracingShader "viewportSize" ] ++
    (if i.animateLight then [.glfwGetTime] else []) ++
    [ .uniform .raytracingShader "lightPosition" ] ++
    q.1 ++
    (if d.2.gui then [.imguiRenderDrawData] else []) ++
    [ .glfwSwapBuffers ], q.2)

end Raytracing

namespace Envmapping

/-- The GUI block of the render loop. -/
def guiBlock (i : FrameInput) (g : Globals) : List Cmd :=
  if g.gui then
    [ .imgui "ImGui_ImplOpenGL3_NewFrame", .imgui "ImGui_ImplGlfw_NewFrame",
      .imgui "ImGui::NewFrame", .imgui "ImGui::Begin", .imgui "ImGui::Text",
      .widget "model" ] ++
    (if i.modelChanged then [.modelLoad .myModel] else []) ++
    [ .widget "rotate model", .widget "environment" ] ++
    (if i.skyboxChanged then [.bindTextureCubeMap .cubeTexture] else []) ++
    [ .widget "reflect/refract", .widget "reload shaders" ] ++
    (if i.reloadClicked then
      [ .shaderReload .myShader, .useProgram .myShader, .setInt .myShader "cubeTex" 0,
        .shaderReload .skyboxShader, .useProgram .skyboxShader,
        .setInt .skyboxShader "skybox" 0 ]
     else []) ++
    [ .imgui "ImGui::End", .imgui "ImGui::Render" ]
  else []

/-- One iteration of the main loop of `main`. -/
def frame (i : FrameInput) (g : Globals) : List Cmd × Globals :=
  let d := deliverSizes i.sizes g
  ([.glfwGetTime, .glfwPollEvents] ++ d.1 ++ processInput i.escPressed ++
    guiBlock i d.2 ++
    [ .clearColor,
      .clear true true false ] ++
    (if i.rotateModel then [.glfwGetTime] else []) ++
    [ .useProgram .myShader,
      .uniform .myShader "projection",
      .uniform .myShader "view",
      .uniform .myShader "model",
      .uniform .myShader "cameraPos",
      .uniform .myShader "mode",
      .modelDraw .myModel .myShader,
      .depthFunc "GL_LEQUAL",
      .useProgram .skyboxShader,
      .uniform .skyboxShader "projection",
      .uniform .skyboxShader "view",
      .modelDraw .skyboxCube .skyboxShader,
      .depthFunc "GL_LESS" ] ++
    (if d.2.gui then [.imguiRenderDrawData] else []) ++
    [ .glfwSwapBuffers ], d.2)

end Envmapping

/-- The struct `Vertex` of the two panda programs: position and colour. -/
structure Vertex where
  x : ℚ
  y : ℚ
  r : ℚ
  g : ℚ
  b : ℚ
  deriving DecidableEq

/-- Size in bytes of a `Vertex`, five floats. -/
def sizeofVertex : Nat := 5 * sizeofFloat

/-- Size in bytes of an `unsigned int`. -/
def sizeofUInt : Nat := 4

/-- What the environment answers during start-up of a panda program. -/
structure PandaEnv where
  -- `glfwInit`, `glfwCreateWindow` and `gladLoadGLLoader` succeeded
  glfwOk : Bool
  windowOk : Bool
  gladOk : Bool
  -- the two shaders compiled and the program linked
  vertexOk : Bool
  fragmentOk : Bool
  linkOk : Bool
  -- names written by `glGenVertexArrays` and `glGenBuffers`, in call order
  names : Nat → Nat

/-- The function `framebuffer_size_callback`, the same in both panda
programs: the new size becomes the viewport. -/
def Panda.framebuffer_size_callback (wh : Int × Int) : List Cmd :=
  [.viewport 0 0 wh.1 wh.2]

/-- The function `processInput`, the same in both panda programs. -/
def Panda.processInput (escPressed : Bool) : List Cmd :=
  [.glfwGetKey "GLFW_KEY_ESCAPE"] ++
  (if escPressed then [.glfwSetWindowShouldClose] else [])

namespace Panda

/-- The table `vertices` of the static panda, in source order. -/
def vertices : List Vertex :=
  [
    ⟨0.0, 0.80, 1.0, 1.0, 1.0⟩,
    ⟨-0.25, 0.65, 1.0, 1.0, 1.0⟩,
    ⟨-0.30, 0.50, 1.0, 1.0, 1.0⟩,
    ⟨0.00, 0.45, 1.0, 1.0, 1.0⟩,
    ⟨0.30, 0.50, 1.0, 1.0, 1.0⟩,
    ⟨0.25, 0.65, 1.0, 1.0, 1.0⟩,
    ⟨-0.25, 0.80, 0.0, 0.0, 0.0⟩,
    ⟨-0.40, 0.85, 0.0, 0.0, 0.0⟩,
    ⟨-0.25, 0.65, 0.0, 0.0, 0.0⟩,
    ⟨0.25, 0.80, 0.0, 0.0, 0.0⟩,
    ⟨0.40, 0.85, 0.0, 0.0, 0.0⟩,
    ⟨0.25, 0.65, 0.0, 0.0, 0.0⟩,
    ⟨-0.15, 0.60, 0.0, 0.0, 0.0⟩,
    ⟨-0.22, 0.55, 0.0, 0.0, 0.0⟩,
    ⟨-0.08, 0.55, 0.0, 0.0, 0.0⟩,
    ⟨0.15, 0.60, 0.0, 0.0, 0.0⟩,
    ⟨0.22, 0.55, 0.0, 0.0, 0.0⟩,
    ⟨0.08, 0.55, 0.0, 0.0, 0.0⟩,
    ⟨0.00, 0.52, 0.0, 0.0, 0.0⟩,
    ⟨-0.03, 0.50, 0.0, 0.0, 0.0⟩,
    ⟨0.03, 0.50, 0.0, 0.0, 0.0⟩,
    ⟨-0.20, 0.45, 1.0, 1.0, 1.0⟩,
    ⟨0.20, 0.45, 1.0, 1.0, 1.0⟩,
    ⟨0.35, 0.00, 1.0, 1.0, 1.0⟩,
    ⟨0.20, -0.30, 1.0, 1.0, 1.0⟩,
    ⟨-0.20, -0.30, 1.0, 1.0, 1.0⟩,
    ⟨-0.35, 0.00, 1.0, 1.0, 1.0⟩,
    ⟨-0.20, 0.45, 0.0, 0.0, 0.0⟩,
    ⟨-0.35, 0.40, 0.0, 0.0, 0.0⟩,
    ⟨-0.40, 0.15, 0.0, 0.0, 0.0⟩,
    ⟨-0.25, 0.20, 0.0, 0.0, 0.0⟩,
    ⟨0.20, 0.45, 0.0, 0.0, 0.0⟩,
    ⟨0.35, 0.40, 0.0, 0.0, 0.0⟩,
    ⟨0.40, 0.15, 0.0, 0.0, 0.0⟩,
    ⟨0.25, 0.20, 0.0, 0.0, 0.0⟩,
    ⟨-0.20, -0.30, 0.0, 0.0, 0.0⟩,
    ⟨-0.20, -0.55, 0.0, 0.0, 0.0⟩,
    ⟨-0.10, -0.55, 0.0, 0.0, 0.0⟩,
    ⟨-0.10, -0.30, 0.0, 0.0, 0.0⟩,
    ⟨0.20, -0.30, 0.0, 0.0, 0.0⟩,
    ⟨0.20, -0.55, 0.0, 0.0, 0.0⟩,
    ⟨0.10, -0.55, 0.0, 0.0, 0.0⟩,
    ⟨0.10, -0.30, 0.0, 0.0, 0.0⟩ ]

/-- The table `indices` of the static panda, in source order. -/
def indices : List Nat :=
  [ 0, 1, 2,
    0, 2, 3,
    0, 3, 4,
    0, 4, 5,
    6, 7, 8,
    9, 10, 11,
    12, 13, 14,
    15, 16, 17,
    18, 19, 20,
    21, 22, 23,
    21, 23, 24,
    21, 24, 25,
    21, 25, 26,
    27, 28, 29,
    27, 29, 30,
    31, 32, 33,
    31, 33, 34,
    35, 36, 37,
    35, 37, 38,
    39, 40, 41,
    39, 41, 42 ]

/-- The function `initShaders`. -/
def initShaders : List Cmd :=
  [ .createShader "GL_VERTEX_SHADER", .shaderSource, .compileShader,
    .createShader "GL_FRAGMENT_SHADER", .shaderSource, .compileShader,
    .createProgram, .attachShader, .attachShader, .linkProgram,
    .deleteShader, .deleteShader ]

/-- The function `initBuffers`; `vao`, `vbo` and `ebo` are the names the
driver writes. -/
def initBuffers (vao vbo ebo : Nat) : List Cmd :=
  [ .genVertexArrays vao,
    .bindVertexArray vao,
    .genBuffers vbo,
    .bindBuffer "GL_ARRAY_BUFFER" vbo,
    .bufferData "GL_ARRAY_BUFFER" (vertices.length * sizeofVertex),
    .vertexAttribPointer 0 2 sizeofVertex 0,
    .enableVertexAttribArray 0,
    .vertexAttribPointer 1 3 sizeofVertex (2 * sizeofFloat),
    .enableVertexAttribArray 1,
    .genBuffers ebo,
    .bindBuffer "GL_ELEMENT_ARRAY_BUFFER" ebo,
    .bufferData "GL_ELEMENT_ARRAY_BUFFER" (indices.length * sizeofUInt),
    .bindVertexArray 0,
    .bindBuffer "GL_ARRAY_BUFFER" 0,
    .bindBuffer "GL_ELEMENT_ARRAY_BUFFER" 0 ]

/-- The function `renderScene`. -/
def renderScene (vao : Nat) : List Cmd :=
  [ .useProgram .shaderProgram,
    .bindVertexArray vao,
    .drawElements .triangles indices.length ]

/-- One iteration of the render loop of `main`; the events are handled by
`glfwPollEvents` at its end. -/
def frame (vao : Nat) (i : FrameInput) : List Cmd :=
  Panda.processInput i.escPressed ++
  [ .clearColor, .clear true false false ] ++
  renderScene vao ++
  [ .glfwSwapBuffers, .glfwPollEvents ] ++
  i.sizes.flatMap Panda.framebuffer_size_callback

/-- The render loop: one iteration per element of the input, ended early by
the escape key, which sets the window's close flag. -/
def loop (vao : Nat) : List FrameInput → List Cmd
  | [] => []
  | i :: rest => frame vao i ++ (if i.escPressed then [] else loop vao rest)

/-- The program `main` of the static panda: the calls it issues and its exit
status. -/
def main (e : PandaEnv) (frames : List FrameInput) : List Cmd × Int :=
  if e.glfwOk = false then
    ([.glfwInit, .print .cerr "Failed to initialize GLFW"], -1)
  else
    let hints : List Cmd :=
      [ .glfwInit,
        .glfwWindowHint "GLFW_CONTEXT_VERSION_MAJOR",
        .glfwWindowHint "GLFW_CONTEXT_VERSION_MINOR",
        .glfwWindowHint "GLFW_OPENGL_PROFILE",
        .glfwCreateWindow 800 600 "Low-Poly Panda" ]
    if e.windowOk = false then
      (hints ++ [.print .cerr "Failed to create GLFW window", .glfwTerminate], -1)
    else
      let ctx : List Cmd :=
        hints ++ [ .glfwMakeContextCurrent, .glfwSetCallback "framebuffer size",
          .gladLoadGLLoader ]
      if e.gladOk = false then
        (ctx ++ [.print .cerr "Failed to initialize GLAD"], -1)
      else
        (ctx ++ [.viewport 0 0 800 600] ++ initShaders ++
          initBuffers (e.names 0) (e.names 1) (e.names 2) ++
          loop (e.names 0) frames ++
          [ .deleteVertexArrays (e.names 0), .deleteBuffers (e.names 1),
            .deleteBuffers (e.names 2), .glfwTerminate ], 0)

end Panda

namespace AnimatedPanda

/-- The table `headVertices`. -/
def headVertices : List Vertex :=
  [
    ⟨0.0, 0.80, 1.0, 1.0, 1.0⟩,
    ⟨-0.25, 0.65, 1.0, 1.0, 1.0⟩,
    ⟨-0.30, 0.50, 1.0, 1.0, 1.0⟩,
    ⟨0.00, 0.45, 1.0, 1.0, 1.0⟩,
    ⟨0.30, 0.50, 1.0, 1.0, 1.0⟩,
    ⟨0.25, 0.65, 1.0, 1.0, 1.0⟩ ]

/-- The table `leftEarVertices`. -/
def leftEarVertices : List Vertex :=
  [
    ⟨-0.25, 0.80, 0.0, 0.0, 0.0⟩,
    ⟨-0.40, 0.85, 0.0, 0.0, 0.0⟩,
    ⟨-0.25, 0.65, 0.0, 0.0, 0.0⟩ ]

/-- The table `rightEarVertices`. -/
def rightEarVertices : List Vertex :=
  [
    ⟨0.25, 0.80, 0.0, 0.0, 0.0⟩,
    ⟨0.40, 0.85, 0.0, 0.0, 0.0⟩,
    ⟨0.25, 0.65, 0.0, 0.0, 0.0⟩ ]

/-- The table `leftEyeVertices`. -/
def leftEyeVertices : List Vertex :=
  [
    ⟨-0.15, 0.60, 0.0, 0.0, 0.0⟩,
    ⟨-0.22, 0.55, 0.0, 0.0, 0.0⟩,
    ⟨-0.08, 0.55, 0.0, 0.0, 0.0⟩ ]

/-- The table `rightEyeVertices`. -/
def rightEyeVertices : List Vertex :=
  [
    ⟨0.15, 0.60, 0.0, 0.0, 0.0⟩,
    ⟨0.22, 0.55, 0.0, 0.0, 0.0⟩,
    ⟨0.08, 0.55, 0.0, 0.0, 0.0⟩ ]

/-- The table `noseVertices`. -/
def noseVertices : List Vertex :=
  [
    ⟨0.0, 0.52, 0.0, 0.0, 0.0⟩,
    ⟨-0.03, 0.50, 0.0, 0.0, 0.0⟩,
    ⟨0.03, 0.50, 0.0, 0.0, 0.0⟩ ]

/-- The table `bodyVertices`. -/
def bodyVertices : List Vertex :=
  [
    ⟨-0.20, 0.45, 1.0, 1.0, 1.0⟩,
    ⟨0.20, 0.45, 1.0, 1.0, 1.0⟩,
    ⟨0.35, 0.00, 1.0, 1.0, 1.0⟩,
    ⟨0.20, -0.30, 1.0, 1.0, 1.0⟩,
    ⟨-0.20, -0.30, 1.0, 1.0, 1.0⟩,
    ⟨-0.35, 0.00, 1.0, 1.0, 1.0⟩ ]

/-- The table `leftArmVertices`. -/
def leftArmVertices : List Vertex :=
  [
    ⟨-0.20, 0.45, 0.0, 0.0, 0.0⟩,
    ⟨-0.35, 0.40, 0.0, 0.0, 0.0⟩,
    ⟨-0.40, 0.15, 0.0, 0.0, 0.0⟩,
    ⟨-0.25, 0.20, 0.0, 0.0, 0.0⟩ ]

/-- The table `rightArmVertices`. -/
def rightArmVertices : List Vertex :=
  [
    ⟨0.20, 0.45, 0.0, 0.0, 0.0⟩,
    ⟨0.35, 0.40, 0.0, 0.0, 0.0⟩,
    ⟨0.40, 0.15, 0.0, 0.0, 0.0⟩,
    ⟨0.25, 0.20, 0.0, 0.0, 0.0⟩ ]

/-- The table `leftLegVertices`. -/
def leftLegVertices : List Vertex :=
  [
    ⟨-0.20, -0.30, 0.0, 0.0, 0.0⟩,
    ⟨-0.20, -0.55, 0.0, 0.0, 0.0⟩,
    ⟨-0.10, -0.55, 0.0, 0.0, 0.0⟩,
    ⟨-0.10, -0.30, 0.0, 0.0, 0.0⟩ ]

/-- The table `rightLegVertices`. -/
def rightLegVertices : List Vertex :=
  [
    ⟨0.20, -0.30, 0.0, 0.0, 0.0⟩,
    ⟨0.20, -0.55, 0.0, 0.0, 0.0⟩,
    ⟨0.10, -0.55, 0.0, 0.0, 0.0⟩,
    ⟨0.10, -0.30, 0.0, 0.0, 0.0⟩ ]

/-- The table `headIndices`. -/
def headIndices : List Nat :=
  [ 0, 1, 2, 0, 2, 3, 0, 3, 4, 0, 4, 5 ]

/-- The table `leftEarIndices`. -/
def leftEarIndices : List Nat :=
  [ 0, 1, 2 ]

/-- The table `rightEarIndices`. -/
def rightEarIndices : List Nat :=
  [ 0, 1, 2 ]

/-- The table `leftEyeIndices`. -/
def leftEyeIndices : List Nat :=
  [ 0, 1, 2 ]

/-- The table `rightEyeIndices`. -/
def rightEyeIndices : List Nat :=
  [ 0, 1, 2 ]

/-- The table `noseIndices`. -/
def noseIndices : List Nat :=
  [ 0, 1, 2 ]

/-- The table `bodyIndices`. -/
def bodyIndices : List Nat :=
  [ 0, 1, 2, 0, 2, 3, 0, 3, 4, 0, 4, 5 ]

/-- The table `leftArmIndices`. -/
def leftArmIndices : List Nat :=
  [ 0, 1, 2, 0, 2, 3 ]

/-- The table `rightArmIndices`. -/
def rightArmIndices : List Nat :=
  [ 0, 1, 2, 0, 2, 3 ]

/-- The table `leftLegIndices`. -/
def leftLegIndices : List Nat :=
  [ 0, 1, 2, 0, 2, 3 ]

/-- The table `rightLegIndices`. -/
def rightLegIndices : List Nat :=
  [ 0, 1, 2, 0, 2, 3 ]
/-- The function `createShaderProgram`; a failed compilation or link is
reported on `cerr` and the function goes on. -/
def createShaderProgram (e : PandaEnv) : List Cmd :=
  [ .createShader "GL_VERTEX_SHADER", .shaderSource, .compileShader, .getShaderiv ] ++
  (if e.vertexOk = false then
    [.getShaderInfoLog, .print .cerr "ERROR: Vertex shader failed:"] else []) ++
  [ .createShader "GL_FRAGMENT_SHADER", .shaderSource, .compileShader, .getShaderiv ] ++
  (if e.fragmentOk = false then
    [.getShaderInfoLog, .print .cerr "ERROR: Fragment shader failed:"] else []) ++
  [ .createProgram, .attachShader, .attachShader, .linkProgram, .getProgramiv ] ++
  (if e.linkOk = false then
    [.getProgramInfoLog, .print .cerr "ERROR: Shader program linking failed:"] else []) ++
  [ .deleteShader, .deleteShader ]

/-- The function `setupVAO`; `vao`, `vbo` and `ebo` are the names the driver
writes. -/
def setupVAO (vao vbo ebo : Nat) (verts : List Vertex) (inds : List Nat) : List Cmd :=
  [ .genVertexArrays vao,
    .genBuffers vbo,
    .genBuffers ebo,
    .bindVertexArray vao,
    .bindBuffer "GL_ARRAY_BUFFER" vbo,
    .bufferData "GL_ARRAY_BUFFER" (verts.length * sizeofVertex),
    .bindBuffer "GL_ELEMENT_ARRAY_BUFFER" ebo,
    .bufferData "GL_ELEMENT_ARRAY_BUFFER" (inds.length * sizeofUInt),
    .vertexAttribPointer 0 2 sizeofVertex 0,
    .enableVertexAttribArray 0,
    .vertexAttribPointer 1 3 sizeofVertex (2 * sizeofFloat),
    .enableVertexAttribArray 1,
    .bindVertexArray 0 ]

/-- The parts in the order in which `main` sets up their vertex arrays:
head, ears, eyes, nose, body, arms, legs. -/
def parts : List (List Vertex × List Nat) :=
  [ (headVertices, headIndices), (leftEarVertices, leftEarIndices),
    (rightEarVertices, rightEarIndices), (leftEyeVertices, leftEyeIndices),
    (rightEyeVertices, rightEyeIndices), (noseVertices, noseIndices),
    (bodyVertices, bodyIndices), (leftArmVertices, leftArmIndices),
    (rightArmVertices, rightArmIndices), (leftLegVertices, leftLegIndices),
    (rightLegVertices, rightLegIndices) ]

/-- The vertex array of the `k`-th part set up: its name is the first of the
three names generated by the `k`-th call of `setupVAO`. -/
def vaoOf (e : PandaEnv) (k : Nat) : Nat := e.names (3 * k)

/-- The eleven calls of `setupVAO`, from the `k`-th on. -/
def setupAll (e : PandaEnv) : Nat → List (List Vertex × List Nat) → List Cmd
  | _, [] => []
  | k, p :: rest =>
    setupVAO (e.names (3 * k)) (e.names (3 * k + 1)) (e.names (3 * k + 2)) p.1 p.2 ++
    setupAll e (k + 1) rest

/-- The deletion of the objects of the parts, from the `k`-th on. -/
def deleteAll (e : PandaEnv) : Nat → List (List Vertex × List Nat) → List Cmd
  | _, [] => []
  | k, _ :: rest =>
    [ .deleteVertexArrays (e.names (3 * k)), .deleteBuffers (e.names (3 * k + 1)),
      .deleteBuffers (e.names (3 * k + 2)) ] ++ deleteAll e (k + 1) rest

/-- Drawing one part with the model matrix already sent. -/
def drawPart (e : PandaEnv) (k : Nat) (inds : List Nat) : List Cmd :=
  [ .bindVertexArray (vaoOf e k), .drawElements .triangles inds.length ]

/-- Sending a model matrix. -/
def sendModel : List Cmd := [.uniform .shaderProgram "model"]

/-- One iteration of the animation loop of `main`; the events are handled by
`glfwPollEvents` at its end. -/
def frame (e : PandaEnv) (i : FrameInput) : List Cmd :=
  [.glfwGetTime] ++ Panda.processInput i.escPressed ++
  [ .clearColor, .clear true false false ] ++
  sendModel ++ drawPart e 6 bodyIndices ++
  sendModel ++ drawPart e 0 headIndices ++
  drawPart e 1 leftEarIndices ++
  drawPart e 2 rightEarIndices ++
  drawPart e 3 leftEyeIndices ++
  drawPart e 4 rightEyeIndices ++
  drawPart e 5 noseIndices ++
  sendModel ++ drawPart e 7 leftArmIndices ++
  sendModel ++ drawPart e 8 rightArmIndices ++
  sendModel ++ drawPart e 9 leftLegIndices ++
  sendModel ++ drawPart e 10 rightLegIndices ++
  [ .bindVertexArray 0, .glfwSwapBuffers, .glfwPollEvents ] ++
  i.sizes.flatMap Panda.framebuffer_size_callback

/-- The animation loop: one iteration per element of the input, ended early
by the escape key, which sets the window's close flag. -/
def loop (e : PandaEnv) : List FrameInput → List Cmd
  | [] => []
  | i :: rest => frame e i ++ (if i.escPressed then [] else loop e rest)

/-- The program `main` of the animated panda: the calls it issues and its
exit status. -/
def main (e : PandaEnv) (frames : List FrameInput) : List Cmd × Int :=
  if e.glfwOk = false then
    ([.glfwInit, .print .cerr "Failed to initialize GLFW"], -1)
  else
    let hints : List Cmd :=
      [ .glfwInit,
        .glfwWindowHint "GLFW_CONTEXT_VERSION_MAJOR",
        .glfwWindowHint "GLFW_CONTEXT_VERSION_MINOR",
        .glfwWindowHint "GLFW_OPENGL_PROFILE",
        .glfwCreateWindow 800 600 "Animated Low-Poly Panda" ]
    if e.windowOk = false then
      (hints ++ [.print .cerr "Failed to create GLFW window", .glfwTerminate], -1)
    else
      let ctx : List Cmd :=
        hints ++ [ .glfwMakeContextCurrent, .glfwSetCallback "framebuffer size",
          .glfwSetCallback "cursor pos", .gladLoadGLLoader ]
      if e.gladOk = false then
        (ctx ++ [.print .cerr "Failed to initialize GLAD"], -1)
      else
        (ctx ++ createShaderProgram e ++
          [ .useProgram .shaderProgram, .enable .blend, .blendFunc ] ++
          setupAll e 0 parts ++
          [ .getUniformLocation "model", .getUniformLocation "view",
            .getUniformLocation "projection",
            .uniform .shaderProgram "projection", .uniform .shaderProgram "view" ] ++
          loop e frames ++
          deleteAll e 0 parts ++ [ .deleteProgram, .glfwTerminate ], 0)

end AnimatedPanda

/-- Calls that delimit or make up the passes of a frame: framebuffer binds,
clears, texture binds, draws of the scene and of the quad, and the swap. -/
def passCmd : Cmd → Bool
  | .bindFramebuffer _ _ => true
  | .clear _ _ _ => true
  | .bindTexture _ => true
  | .modelDraw _ _ => true
  | .drawArrays _ _ _ => true
  | .drawElements _ _ => true
  | .glfwSwapBuffers => true
  | _ => false

/-! ## The OpenGL meaning of the calls -/

/-- The texture units: the active unit and the two-dimensional texture bound
to each unit. -/
structure TexUnits where
  active : Nat
  bound : Nat → Option Tex

/-- What the member functions of `Model`, whose bodies are in util/model.h and
not among the sources, do to the texture units, and the units that
`Model::Draw` makes the samplers of the shader it is given refer to.  Nothing
is assumed about them. -/
structure ModelEffect where
  onLoad : TexUnits → TexUnits
  onDraw : TexUnits → TexUnits
  samplers : List Nat

/-- The part of the OpenGL state the demos depend on. -/
structure GLState where
  drawFbo : Fbo
  readFbo : Fbo
  units : TexUnits
  program : Option Shader
  depthTest : Bool
  blend : Bool
  cullFace : Bool
  polyMode : PolyMode
  rbo : Option Rbo
  texSize : Tex → Option (Int × Int)
  rboSize : Rbo → Option (Int × Int)
  texAttached : List (Fbo × Attachment × Tex)
  rboAttached : List (Fbo × Attachment × Rbo)

/-- The state of a fresh context: framebuffer 0 bound, nothing else bound,
no storage allocated. -/
def GLState.fresh : GLState :=
  { drawFbo := .default, readFbo := .default,
    units := { active := 0, bound := fun _ => none },
    program := none, depthTest := false, blend := false, cullFace := false,
    polyMode := .fill, rbo := none,
    texSize := fun _ => none, rboSize := fun _ => none,
    texAttached := [], rboAttached := [] }

/-- Setting a capability. -/
def GLState.setCap (s : GLState) (c : Cap) (b : Bool) : GLState :=
  match c with
  | .depthTest => { s with depthTest := b }
  | .blend => { s with blend := b }
  | .cullFace => { s with cullFace := b }
  | .textureCubeMapSeamless => s

/-- The effect of one call on the OpenGL state. -/
def step (m : ModelEffect) (s : GLState) : Cmd → GLState
  | .bindFramebuffer .framebuffer f => { s with drawFbo := f, readFbo := f }
  | .bindFramebuffer .drawFramebuffer f => { s with drawFbo := f }
  | .bindFramebuffer .readFramebuffer f => { s with readFbo := f }
  | .activeTexture u => { s with units := { s.units with active := u } }
  | .bindTexture t =>
    { s with units :=
        { s.units with bound := Function.update s.units.bound s.units.active (some t) } }
  | .texImage2D _ w h =>
    match s.units.bound s.units.active with
    | some t => { s with texSize := Function.update s.texSize t (some (w, h)) }
    | none => s
  | .framebufferTexture2D a t => { s with texAttached := s.texAttached ++ [(s.drawFbo, a, t)] }
  | .bindRenderbuffer r => { s with rbo := some r }
  | .renderbufferStorage _ w h =>
    match s.rbo with
    | some r => { s with rboSize := Function.update s.rboSize r (some (w, h)) }
    | none => s
  | .framebufferRenderbuffer a r =>
    { s with rboAttached := s.rboAttached ++ [(s.drawFbo, a, r)] }
  | .useProgram sh => { s with program := some sh }
  | .enable c => s.setCap c true
  | .disable c => s.setCap c false
  | .polygonMode p => { s with polyMode := p }
  | .modelLoad _ => { s with units := m.onLoad s.units }
  | .modelDraw _ _ => { s with units := m.onDraw s.units }
  | _ => s

/-- The state after a list of calls. -/
def exec (m : ModelEffect) (s : GLState) (cs : List Cmd) : GLState :=
  cs.foldl (step m) s

/-- The kinds of draw. -/
inductive DrawKind where
  | model (m : Mdl)
  | arrays (p : Prim) (count : Nat)
  | elements (p : Prim) (count : Nat)
  deriving DecidableEq, Repr

/-- What a draw call meets: the framebuffer bound for drawing, the program in
use, and the textures it can sample. -/
structure Draw where
  fbo : Fbo
  program : Option Shader
  kind : DrawKind
  sampled : List Tex
  deriving DecidableEq, Repr

/-- The textures bound to the units 0, 1 and 2, the only units `main` binds
textures to. -/
def TexUnits.textures (u : TexUnits) : List Tex :=
  [u.bound 0, u.bound 1, u.bound 2].reduceOption

/-- The draw a call makes in a given state, if it is a draw call.  A draw made
by `Model::Draw` can sample what `Model::Draw` leaves bound to the units its
samplers refer to; a draw made by `main` can sample what is bound to the
units 0, 1 and 2. -/
def drawOf (m : ModelEffect) (s : GLState) : Cmd → Option Draw
  | .modelDraw mdl _ =>
    some ⟨s.drawFbo, s.program, .model mdl,
      (m.samplers.map (m.onDraw s.units).bound).reduceOption⟩
  | .drawArrays p _ n => some ⟨s.drawFbo, s.program, .arrays p n, s.units.textures⟩
  | .drawElements p n => some ⟨s.drawFbo, s.program, .elements p n, s.units.textures⟩
  | _ => none

/-- The draws made by a list of calls started in a given state, in order. -/
def draws (m : ModelEffect) : GLState → List Cmd → List Draw
  | _, [] => []
  | s, c :: cs => (drawOf m s c).toList ++ draws m (step m s c) cs

/-- The pixel sizes of the storage of all attachments of a framebuffer
object, textures first; `none` for an attachment without storage. -/
def GLState.attachmentSizes (s : GLState) (f : Fbo) : List (Option (Int × Int)) :=
  (s.texAttached.filter (fun a => a.1 = f)).map (fun a => s.texSize a.2.2) ++
  (s.rboAttached.filter (fun a => a.1 = f)).map (fun a => s.rboSize a.2.2)

/-- Calls that neither draw nor change the OpenGL state modelled here. -/
def inert : Cmd → Bool
  | .bindFramebuffer _ _ => false
  | .activeTexture _ => false
  | .bindTexture _ => false
  | .texImage2D _ _ _ => false
  | .framebufferTexture2D _ _ => false
  | .bindRenderbuffer _ => false
  | .renderbufferStorage _ _ _ => false
  | .framebufferRenderbuffer _ _ => false
  | .useProgram _ => false
  | .enable _ => false
  | .disable _ => false
  | .polygonMode _ => false
  | .modelLoad _ => false
  | .modelDraw _ _ => false
  | .drawArrays _ _ _ => false
  | .drawElements _ _ => false
  | _ => true

/-- A model whose member functions leave the texture units alone and whose
shader samples nothing. -/
def ModelEffect.id : ModelEffect :=
  { onLoad := fun u => u, onDraw := fun u => u, samplers := [] }

/-- An input of one iteration: no event, no key, GUI values as `main`
starts them, except that two lights are chosen. -/
def FrameInput.quiet : FrameInput :=
  { sizes := [], escPressed := false, reloadClicked := false, postProcessingMode := 0,
    showWireframe := false, rotateModel := false, animateLights := true,
    displayGBuffers := false, animateLight := false, numLights := 2,
    modelChanged := false, skyboxChanged := false, display := (1280, 720) }

/-- An environment in which start-up succeeds and both framebuffers are
complete. -/
def InitEnv.good : InitEnv :=
  { glfwOk := true, windowOk := true, gladOk := true, gladOk2 := true,
    status1 := GL_FRAMEBUFFER_COMPLETE, status2 := GL_FRAMEBUFFER_COMPLETE }

/-- The draw calls. -/
def isDraw : Cmd → Bool
  | .modelDraw _ _ => true
  | .drawArrays _ _ _ => true
  | .drawElements _ _ => true
  | _ => false

/-- Calls that allocate storage or attach it to a framebuffer object. -/
def allocates : Cmd → Bool
  | .texImage2D _ _ _ => true
  | .renderbufferStorage _ _ _ => true
  | .framebufferTexture2D _ _ => true
  | .framebufferRenderbuffer _ _ => true
  | _ => false

/-- The OpenGL state and the globals once `main` of the post-processing demo,
started in a fresh context, has run its loop over the given inputs: the start
of the next frame. -/
def Postprocessing.afterFrames (m : ModelEffect) (e : InitEnv) (names : Nat → Nat)
    (frames : List FrameInput) : GLState × Globals :=
  let s := Postprocessing.prelude e names
  let l := Postprocessing.loop frames s.2
  (exec m GLState.fresh (s.1 ++ l.1), l.2)

/-- The OpenGL state and the globals once `main` of the deferred demo with the
vignette pass, started in a fresh context and past its start-up, has run its
loop over the given inputs: the start of the next frame. -/
def Deferred.afterFrames (m : ModelEffect) (e : InitEnv) (names : Nat → Nat)
    (frames : List FrameInput) : GLState × Globals :=
  let s := Deferred.prelude e names
  let l := Deferred.loop frames s.2
  (exec m GLState.fresh (s.1 ++ l.1), l.2)

/-- An iteration during which the given framebuffer sizes are delivered. -/
def FrameInput.sized (sizes : List (Int × Int)) : FrameInput :=
  { FrameInput.quiet with sizes := sizes }

/-- An iteration during which the framebuffer size 800 x 600 is delivered. -/
def FrameInput.resized : FrameInput := FrameInput.sized [(800, 600)]

/-- The current value of `SCR_WIDTH` and `SCR_HEIGHT`. -/
def Globals.size (g : Globals) : Int × Int := (g.SCR_WIDTH, g.SCR_HEIGHT)

/-- The calls that print a message. -/
def isPrint : Cmd → Bool
  | .print _ _ => true
  | _ => false

/-- Calls made only while a program sets itself up: those that allocate or
attach storage and those that print a message. -/
def setupOnly (c : Cmd) : Bool := allocates c || isPrint c

/-- The environment in which every completeness check answers
`GL_FRAMEBUFFER_COMPLETE`, everything else being the same. -/
def InitEnv.complete (e : InitEnv) : InitEnv :=
  { e with status1 := GL_FRAMEBUFFER_COMPLETE, status2 := GL_FRAMEBUFFER_COMPLETE }

/-- The value of `GL_FRAMEBUFFER_UNSUPPORTED`. -/
def GL_FRAMEBUFFER_UNSUPPORTED : Nat := 0x8CDD

/-- An environment in which start-up succeeds and the first completeness
check answers `GL_FRAMEBUFFER_UNSUPPORTED`. -/
def InitEnv.unsupported : InitEnv :=
  { InitEnv.good with status1 := GL_FRAMEBUFFER_UNSUPPORTED }

/-- What a completeness check prints: the message when the status differs
from `GL_FRAMEBUFFER_COMPLETE`, nothing otherwise. -/
def statusMessage (status : Nat) (msg : String) : List Cmd :=
  if status ≠ GL_FRAMEBUFFER_COMPLETE then [.print .cout msg] else []

/-- The calls other than messages. -/
def notPrint (c : Cmd) : Bool := !isPrint c

/-- The call `glfwPollEvents`, made once in every iteration of a render
loop. -/
def isPoll : Cmd → Bool
  | .glfwPollEvents => true
  | _ => false

/-- The call `glfwSwapBuffers`. -/
def isSwap : Cmd → Bool
  | .glfwSwapBuffers => true
  | _ => false

/-! ## Geometry of the full-screen quad -/

/-- The attribute of vertex `i` as `glVertexAttribPointer` lays it out:
`size` floats starting `offset` floats into the vertex, the vertices being
`stride` floats apart. -/
def fetchAttrib {K : Type} (data : List K) (size stride offset i : Nat) : List K :=
  (data.drop (i * stride + offset)).take size

/-- Attribute 0 of the quad: three floats at offset 0, stride five floats. -/
def quadPosition (K : Type) [Field K] (i : Nat) : List K :=
  fetchAttrib (quadVertices K) 3 5 0 i

/-- Attribute 1 of the quad: two floats at offset 3, stride five floats. -/
def quadTexCoord (K : Type) [Field K] (i : Nat) : List K :=
  fetchAttrib (quadVertices K) 2 5 3 i

/-- The x and y coordinate of vertex `i` of the quad. -/
def quadXY (K : Type) [Field K] (i : Nat) : K × K :=
  ((quadPosition K i).getD 0 0, (quadPosition K i).getD 1 0)

/-- The triangles of a triangle strip of `n` vertices, as triples of vertex
numbers: `(0,1,2)`, `(1,2,3)`, and so on. -/
def stripTriangles (n : Nat) : List (Nat × Nat × Nat) :=
  (List.range (n - 2)).map (fun k => (k, k + 1, k + 2))

/-- Twice the signed area of the triangle `a`, `b`, `p`. -/
def edge {K : Type} [Field K] (a b p : K × K) : K :=
  (b.1 - a.1) * (p.2 - a.2) - (b.2 - a.2) * (p.1 - a.1)

/-- The point `p` lies in the closed triangle `a`, `b`, `c`: it is on the same
side of the three edges. -/
def inTriangle {K : Type} [LinearOrderedField K] (a b c p : K × K) : Prop :=
  (0 ≤ edge a b p ∧ 0 ≤ edge b c p ∧ 0 ≤ edge c a p) ∨
  (edge a b p ≤ 0 ∧ edge b c p ≤ 0 ∧ edge c a p ≤ 0)

instance {K : Type} [LinearOrderedField K] (a b c p : K × K) :
    Decidable (inTriangle a b c p) := by
  unfold inTriangle
  exact inferInstance

/-! ## Repeated calls of `renderQuad` and `renderCube` -/

/-- The calls made by each of `n` consecutive calls of `renderQuad`. -/
def renderQuadCalls : Nat → Globals → List (List Cmd)
  | 0, _ => []
  | n + 1, g => (renderQuad g).1 :: renderQuadCalls n (renderQuad g).2

/-- The calls made by each of `n` consecutive calls of `renderCube`. -/
def renderCubeCalls : Nat → Globals → List (List Cmd)
  | 0, _ => []
  | n + 1, g => (renderCube g).1 :: renderCubeCalls n (renderCube g).2

/-- Calls that create a vertex array or a buffer or fill a buffer. -/
def isCreate : Cmd → Bool
  | .genVertexArrays _ => true
  | .genBuffers _ => true
  | .bufferData _ _ => true
  | _ => false

/-- The vertex array bound after a list of calls, `start` being bound
before. -/
def boundVertexArray (start : Nat) (cs : List Cmd) : Nat :=
  cs.foldl (fun b c => match c with
    | .bindVertexArray n => n
    | _ => b) start

/-- Globals of a run that has just started, with the names 1, 2, 3, ... -/
def Globals.demo : Globals := Globals.start 1280 720 (fun k => k + 1)

/-! ## The steps of a loop iteration -/

/-- The four kinds of step of a loop iteration. -/
inductive Phase where
  | poll
  | gui
  | draw
  | swap
  deriving DecidableEq, Repr

/-- The step a call belongs to: `glfwPollEvents` polls the events, a widget
of the GUI updates the parameter bound to it, clears, draws and the copy
between framebuffers are the drawing commands, `glfwSwapBuffers` swaps.
Calls that only set state belong to no step. -/
def phaseOf : Cmd → Option Phase
  | .glfwPollEvents => some .poll
  | .widget _ => some .gui
  | .clear _ _ _ => some .draw
  | .modelDraw _ _ => some .draw
  | .drawArrays _ _ _ => some .draw
  | .drawElements _ _ => some .draw
  | .blitFramebuffer _ _ _ _ _ _ _ _ _ _ _ => some .draw
  | .imguiRenderDrawData => some .draw
  | .glfwSwapBuffers => some .swap
  | _ => none

/-- The steps of a list of calls, in order. -/
def phases (cs : List Cmd) : List Phase := cs.filterMap phaseOf

/-- Position of a step in the order poll, GUI, draw, swap. -/
def guiRank : Phase → Nat
  | .poll => 0
  | .gui => 1
  | .draw => 2
  | .swap => 3

/-- Position of a step in the order draw, swap, poll. -/
def pandaRank : Phase → Nat
  | .gui => 0
  | .draw => 0
  | .swap => 1
  | .poll => 2

/-- The steps come in the order poll, GUI, draw, swap. -/
def pollGuiDrawSwap (l : List Phase) : Prop :=
  l.Pairwise (fun p q => guiRank p ≤ guiRank q)

/-- The steps come in the order draw, swap, poll. -/
def drawSwapPoll (l : List Phase) : Prop :=
  l.Pairwise (fun p q => pandaRank p ≤ pandaRank q)

instance (l : List Phase) : Decidable (pollGuiDrawSwap l) := by
  unfold pollGuiDrawSwap
  exact inferInstance

instance (l : List Phase) : Decidable (drawSwapPoll l) := by
  unfold drawSwapPoll
  exact inferInstance

/-- An environment in which a panda program starts up and is given the names
1, 2, 3, ... -/
def PandaEnv.good : PandaEnv :=
  { glfwOk := true, windowOk := true, gladOk := true, vertexOk := true,
    fragmentOk := true, linkOk := true, names := fun k => k + 1 }

/-- Calls that create a shader, a program, a vertex array or a buffer. -/
def createsObject : Cmd → Bool
  | .createShader _ => true
  | .createProgram => true
  | .genVertexArrays _ => true
  | .genBuffers _ => true
  | _ => false

/-- An environment in which the loading of the OpenGL functions fails. -/
def PandaEnv.noGlad : PandaEnv := { PandaEnv.good with gladOk := false }

/-! ## The programs of the ray-tracing and environment-mapping demos -/

/-- The render loop of the ray-tracing demo: one iteration per element of the
input, ended early by the escape key, which sets the window's close flag. -/
def Raytracing.loop : List FrameInput → Globals → List Cmd × Globals
  | [], g => ([], g)
  | i :: rest, g =>
    let r := Raytracing.frame i g
    if i.escPressed then r
    else
      let r2 := Raytracing.loop rest r.2
      (r.1 ++ r2.1, r2.2)

/-- What `main` of the ray-tracing demo does between the return of
`InitWindowAndGUI`, whose result it does not read, and its render loop. -/
def Raytracing.afterInit (g : Globals) : List Cmd :=
  [ .polygonMode .fill,
    .viewport 0 0 g.SCR_WIDTH g.SCR_HEIGHT,
    .glfwSetCallback "cursor pos", .glfwSetCallback "mouse button",
    .glfwSetCallback "scroll", .glfwSetCallback "framebuffer size",
    .enable .depthTest,
    .depthFunc "GL_LEQUAL",
    .enable .textureCubeMapSeamless,
    .shaderLoad .raytracingShader,
    .useProgram .raytracingShader ]

/-- The program `main` of the ray-tracing demo: the calls it issues and its
exit status, for a run whose render loop receives the given inputs. -/
def Raytracing.main (e : InitEnv) (names : Nat → Nat) (frames : List FrameInput) :
    List Cmd × Int :=
  let w := InitWindowAndGUI e (Globals.start 1280 720 names) 1280 720 "Raytracing"
  let l := Raytracing.loop frames w.2
  (w.1.1 ++ Raytracing.afterInit w.2 ++ l.1 ++ [.glfwTerminate], 0)

/-- The main loop of the environment-mapping demo: one iteration per element
of the input, ended early by the escape key. -/
def Envmapping.loop : List FrameInput → Globals → List Cmd × Globals
  | [], g => ([], g)
  | i :: rest, g =>
    let r := Envmapping.frame i g
    if i.escPressed then r
    else
      let r2 := Envmapping.loop rest r.2
      (r.1 ++ r2.1, r2.2)

/-- What `main` of the environment-mapping demo does between the return of
`InitWindowAndGUI`, whose result it does not read, and its main loop.  The
asset managers are in util/assets.h, which is not among the sources; their
calls are recorded by name. -/
def Envmapping.afterInit : List Cmd :=
  [ .glfwSetCallback "cursor pos", .glfwSetCallback "mouse button",
    .glfwSetCallback "scroll", .glfwSetCallback "framebuffer size",
    .assets "skyboxes.SetActiveGroup", .assets "skyboxes.GetActiveAsset",
    .shaderLoad .skyboxShader, .shaderLoad .myShader,
    .assets "models.SetActiveGroup",
    .modelLoad .myModel,
    .assets "models.GetActiveAsset",
    .modelLoad .skyboxCube,
    .useProgram .myShader,
    .enable .depthTest,
    .setInt .myShader "cubeTex" 0,
    .setInt .skyboxShader "skybox" 0 ]

/-- The program `main` of the environment-mapping demo: the calls it issues
and its exit status, for a run whose main loop receives the given inputs. -/
def Envmapping.main (e : InitEnv) (names : Nat → Nat) (frames : List FrameInput) :
    List Cmd × Int :=
  let w := InitWindowAndGUI e (Globals.start 1280 720 names) 1280 720 "envmapping"
  let l := Envmapping.loop frames w.2
  (w.1.1 ++ Envmapping.afterInit ++ l.1 ++ [.glfwTerminate], 0)

/-- An environment in which `glfwCreateWindow` returns no window. -/
def InitEnv.noWindow : InitEnv := { InitEnv.good with windowOk := false }

/-- An environment in which the window is created and the loading of the
OpenGL functions in `InitWindow` fails. -/
def InitEnv.noGlad : InitEnv := { InitEnv.good with gladOk := false }

/-- The calls that register a callback. -/
def registersCallback : Cmd → Bool
  | .glfwSetCallback _ => true
  | _ => false

/-- OpenGL calls that `main` of the two demos issues itself before its loop:
state changes and the use of a program. -/
def isStateCall : Cmd → Bool
  | .polygonMode _ => true
  | .viewport _ _ _ _ => true
  | .enable _ => true
  | .disable _ => true
  | .depthFunc _ => true
  | .useProgram _ => true
  | _ => false

/-! ## The geometry of the two pandas -/

/-- The vertices of a list of parts put one after the other. -/
def mergedVertices (ps : List (List Vertex × List Nat)) : List Vertex :=
  ps.flatMap (fun p => p.1)

/-- The indices of a list of parts put one after the other, the local indices
of each part raised by `start`, the number of vertices that precede the
part. -/
def mergedIndices : Nat → List (List Vertex × List Nat) → List Nat
  | _, [] => []
  | start, p :: rest => p.2.map (fun k => k + start) ++ mergedIndices (start + p.1.length) rest

/-! ## The transformations of the animated panda -/

/-- A four by four matrix, as `glm::mat4`, indexed by row and column. -/
abbrev Mat4 (K : Type) := Matrix (Fin 4) (Fin 4) K

/-- The functions `std::sin` and `std::cos` and the constant `glm::pi`, which
the program takes from its libraries. -/
structure Trig (K : Type) where
  sin : K → K
  cos : K → K
  pi : K

/-- The function `glm::translate`: the matrix times the translation by `v`. -/
def glmTranslate {K : Type} [Field K] (m : Mat4 K) (v : Fin 3 → K) : Mat4 K :=
  m * !![1, 0, 0, v 0;
         0, 1, 0, v 1;
         0, 0, 1, v 2;
         0, 0, 0, 1]

/-- The function `glm::rotate` for an axis `(x, y, z)` of length one: the
matrix times the rotation by `angle` about the axis. -/
def glmRotate {K : Type} [Field K] (T : Trig K) (m : Mat4 K) (angle : K)
    (axis : Fin 3 → K) : Mat4 K :=
  let c := T.cos angle
  let s := T.sin angle
  let x := axis 0
  let y := axis 1
  let z := axis 2
  m * !![c + (1 - c) * x * x, (1 - c) * y * x - s * z, (1 - c) * z * x + s * y, 0;
         (1 - c) * x * y + s * z, c + (1 - c) * y * y, (1 - c) * z * y - s * x, 0;
         (1 - c) * x * z - s * y, (1 - c) * y * z + s * x, c + (1 - c) * z * z, 0;
         0, 0, 0, 1]

/-- The function `glm::ortho` with six arguments. -/
def glmOrtho {K : Type} [Field K] (left right bottom top zNear zFar : K) : Mat4 K :=
  !![2 / (right - left), 0, 0, -(right + left) / (right - left);
     0, 2 / (top - bottom), 0, -(top + bottom) / (top - bottom);
     0, 0, -2 / (zFar - zNear), -(zFar + zNear) / (zFar - zNear);
     0, 0, 0, 1]

/-- The function `glm::radians`: degrees times pi / 180, written out as in
the library. -/
def glmRadians {K : Type} [Field K] (degrees : K) : K :=
  degrees * 0.01745329251994329576923690768489

namespace AnimatedPanda

variable {K : Type} [Field K]

/-- The constant `SCR_WIDTH`, as the number the program divides by. -/
def SCR_WIDTH : K := 800

/-- The value `mouseX` starts with, `SCR_WIDTH / 2.0`. -/
def mouseStart : K := SCR_WIDTH / 2

/-- The function `mouse_callback`: the new cursor position replaces
`mouseX`. -/
def mouse_callback (_mouseX xpos : K) : K := xpos

/-- The local `bobbing` of the animation loop at time `t`. -/
def bobbing (T : Trig K) (t : K) : K := 0.03 * T.sin (t * 2)

/-- The local `globalModel`. -/
def globalModel (T : Trig K) (t : K) : Mat4 K :=
  glmTranslate 1 ![0, bobbing T t, 0]

/-- The local `normX`. -/
def normX (mouseX : K) : K := mouseX / SCR_WIDTH * 2 - 1

/-- The local `maxRotation`. -/
def maxRotation : K := glmRadians 20

/-- The local `headRotation`. -/
def headRotation (mouseX : K) : K := normX mouseX * maxRotation

/-- The local `swingSpeed`. -/
def swingSpeed : K := 3

/-- The local `armSwing`. -/
def armSwing (T : Trig K) (t : K) : K := 0.3 * T.sin (t * swingSpeed)

/-- The local `legSwing`. -/
def legSwing (T : Trig K) (t : K) : K := 0.3 * T.sin (t * swingSpeed + T.pi)

/-- The angle passed to `glm::rotate` for the left arm. -/
def leftArmAngle (T : Trig K) (t : K) : K := armSwing T t

/-- The angle passed to `glm::rotate` for the right arm. -/
def rightArmAngle (T : Trig K) (t : K) : K := -armSwing T t

/-- The angle passed to `glm::rotate` for the left leg. -/
def leftLegAngle (T : Trig K) (t : K) : K := legSwing T t

/-- The angle passed to `glm::rotate` for the right leg. -/
def rightLegAngle (T : Trig K) (t : K) : K := -legSwing T t

/-- The three calls that build the model matrix of a rotating part: a
translation, a rotation about the z axis, a translation. -/
def pivoted (T : Trig K) (g : Mat4 K) (toPivot : Fin 3 → K) (angle : K)
    (back : Fin 3 → K) : Mat4 K :=
  glmTranslate (glmRotate T (glmTranslate g toPivot) angle ![0, 0, 1]) back

/-- The local `bodyModel`. -/
def bodyModel (T : Trig K) (t : K) : Mat4 K := globalModel T t

/-- The local `headModel`, also used for ears, eye patches and nose. -/
def headModel (T : Trig K) (t mouseX : K) : Mat4 K :=
  pivoted T (globalModel T t) ![0, 0.45, 0] (headRotation mouseX) ![0, -0.45, 0]

/-- The local `leftArmModel`. -/
def leftArmModel (T : Trig K) (t : K) : Mat4 K :=
  pivoted T (globalModel T t) ![-0.20, 0.45, 0] (leftArmAngle T t) ![0.20, -0.45, 0]

/-- The local `rightArmModel`. -/
def rightArmModel (T : Trig K) (t : K) : Mat4 K :=
  pivoted T (globalModel T t) ![0.20, 0.45, 0] (rightArmAngle T t) ![-0.20, -0.45, 0]

/-- The local `leftLegModel`. -/
def leftLegModel (T : Trig K) (t : K) : Mat4 K :=
  pivoted T (globalModel T t) ![-0.20, -0.30, 0] (leftLegAngle T t) ![0.20, 0.30, 0]

/-- The local `rightLegModel`. -/
def rightLegModel (T : Trig K) (t : K) : Mat4 K :=
  pivoted T (globalModel T t) ![0.20, -0.30, 0] (rightLegAngle T t) ![-0.20, 0.30, 0]

/-- The local `projection`. -/
def projection : Mat4 K := glmOrtho (-1) 1 (-1) 1 (-1) 1

/-- The local `view`. -/
def view : Mat4 K := 1

/-- The vertex shader of the animated panda: the clip position of the vertex
at `aPos`. -/
def vertexShader (model : Mat4 K) (aPos : K × K) : Fin 4 → K :=
  Matrix.mulVec (projection * view * model) ![aPos.1, aPos.2, 0, 1]

end AnimatedPanda

/-- The vertex shader of the static panda: the clip position of the vertex
at `aPos`. -/
def Panda.vertexShader {K : Type} [Field K] (aPos : K × K) : Fin 4 → K :=
  ![aPos.1, aPos.2, 0, 1]

/-! ## The layout of the vertex table of the static panda -/

/-- The colour of a vertex. -/
def Vertex.color (v : Vertex) : ℚ × ℚ × ℚ := (v.r, v.g, v.b)

/-- White, as the tables write it. -/
def white : ℚ × ℚ × ℚ := (1, 1, 1)

/-- Black, as the tables write it. -/
def black : ℚ × ℚ × ℚ := (0, 0, 0)

/-- One line of the layout comment above `vertices`: the part, its first and
its last index, its colour. -/
structure LayoutLine where
  part : String
  first : Nat
  last : Nat
  color : ℚ × ℚ × ℚ

/-- The layout comment above `vertices`. -/
def Panda.layout : List LayoutLine :=
  [ ⟨"Head main shape", 0, 5, white⟩,
    ⟨"Left ear", 6, 8, black⟩,
    ⟨"Right ear", 9, 11, black⟩,
    ⟨"Left eye patch", 12, 14, black⟩,
    ⟨"Right eye patch", 15, 17, black⟩,
    ⟨"Nose", 18, 20, black⟩,
    ⟨"Body main shape", 21, 26, white⟩,
    ⟨"Left arm", 27, 30, black⟩,
    ⟨"Right arm", 31, 34, black⟩,
    ⟨"Left leg", 35, 38, black⟩,
    ⟨"Right leg", 39, 42, black⟩ ]

/-- The entries of a list from index `first` to index `last`, both
included. -/
def slice {α : Type} (l : List α) (first last : Nat) : List α :=
  (l.drop first).take (last + 1 - first)

/-! ## The lights of the deferred demos -/

/-- The constant of `glm::pi` as the library writes it, before the
conversion to the type asked for. -/
def glmPi : ℚ := 3.14159265358979323846264338327950288

/-- The value of `glm::pi<float>()`: the constant of the library converted to
`float`, the single-precision number 0x40490FDB, which is 13176795 / 2^22. -/
def glmPiFloat : ℚ := 13176795 / 4194304

/-- The expression `rand() % 100`, with the remainder of C. -/
def randPercent (r : Int) : ℚ := ((Int.tmod r 100 : Int) : ℚ)

/-- What the loop "lighting info" computes for one light. -/
structure Light where
  position : ℚ × ℚ × ℚ
  color : ℚ × ℚ × ℚ
  dir : ℚ × ℚ × ℚ
  aniOffset : ℚ

/-- Iteration `i` of the loop "lighting info" of `main`; `rand k` is the
value the `k`-th call of `rand()` returns, ten calls being made per
iteration. -/
def Deferred.light (rand : Nat → Int) (i : Nat) : Light :=
  let r : Nat → ℚ := fun k => randPercent (rand (10 * i + k))
  { position := (r 0 / 100 * 8 - 4, r 1 / 100 * 6 - 4, r 2 / 100 * 8 - 4),
    color := (r 3 / 200 + 0.5, r 4 / 200 + 0.5, r 5 / 200 + 0.5),
    dir := (r 6 / 100 * 2 - 1, r 7 / 100 * 2 - 1, r 8 / 100 * 2 - 1),
    aniOffset := r 9 / 100 * glmPi }

/-- The lights the loop "lighting info" generates, `NR_LIGHTS` of them. -/
def Deferred.lights (rand : Nat → Int) : List Light :=
  (List.range Deferred.NR_LIGHTS).map (Deferred.light rand)

/-- A number lies in a closed interval. -/
def within (lo hi x : ℚ) : Prop := lo ≤ x ∧ x ≤ hi

instance (lo hi x : ℚ) : Decidable (within lo hi x) := by
  unfold within
  exact inferInstance

/-! ## Draws and copies with the state they meet -/

/-- A rectangle of pixels, as the four integers passed to
`glBlitFramebuffer`. -/
structure Rect where
  x0 : Int
  y0 : Int
  x1 : Int
  y1 : Int
  deriving DecidableEq, Repr

/-- The operations that read or write pixels: draws and copies between
framebuffers. -/
inductive Op where
  | draw (k : DrawKind)
  | blit (src dst : Rect) (color depth stencil : Bool)
  deriving DecidableEq, Repr

/-- An operation with the state it meets: the framebuffers bound for reading
and for drawing, the program in use, whether the depth test is enabled, and
the polygon mode. -/
structure Snapshot where
  op : Op
  readFbo : Fbo
  drawFbo : Fbo
  program : Option Shader
  depthTest : Bool
  polyMode : PolyMode
  deriving DecidableEq, Repr

/-- The operation a call performs, if it is a draw or a copy. -/
def opOf : Cmd → Option Op
  | .modelDraw m _ => some (.draw (.model m))
  | .drawArrays p _ n => some (.draw (.arrays p n))
  | .drawElements p n => some (.draw (.elements p n))
  | .blitFramebuffer sx0 sy0 sx1 sy1 dx0 dy0 dx1 dy1 c d st =>
    some (.blit ⟨sx0, sy0, sx1, sy1⟩ ⟨dx0, dy0, dx1, dy1⟩ c d st)
  | _ => none

/-- The snapshot of a call in a given state, if the call draws or copies. -/
def snapshotOf (s : GLState) (c : Cmd) : Option Snapshot :=
  (opOf c).map (fun o => ⟨o, s.readFbo, s.drawFbo, s.program, s.depthTest, s.polyMode⟩)

/-- The snapshots of a list of calls started in a given state, in order. -/
def snapshots (m : ModelEffect) : GLState → List Cmd → List Snapshot
  | _, [] => []
  | s, c :: cs => (snapshotOf s c).toList ++ snapshots m (step m s c) cs

/-- The calls that set the polygon mode. -/
def setsPolygonMode : Cmd → Bool
  | .polygonMode _ => true
  | _ => false

/-- An iteration in which the check box "show wireframe" is ticked. -/
def FrameInput.wireframe : FrameInput := { FrameInput.quiet with showWireframe := true }

end RealTime

namespace RealTime

/-! ## Facts about the shared functions -/

theorem filter_passCmd_deliverSizes (sizes : List (Int × Int)) (g : Globals) :
    (deliverSizes sizes g).1.filter passCmd = [] := by
  induction sizes generalizing g with
  | nil => rfl
  | cons wh rest ih =>
    simp only [deliverSizes, List.filter_append, ih, List.append_nil]
    unfold sizeLambda
    split <;> simp [passCmd]

theorem filter_passCmd_processInput (b : Bool) :
    (processInput b).filter passCmd = [] := by
  cases b <;> simp [processInput, passCmd]

theorem filter_passCmd_renderQuad (g : Globals) :
    (renderQuad g).1.filter passCmd = [.drawArrays .triangleStrip 0 4] := by
  unfold renderQuad
  split <;> simp [passCmd]

theorem filter_passCmd_renderCube (g : Globals) :
    (renderCube g).1.filter passCmd = [.drawArrays .triangles 0 36] := by
  unfold renderCube
  split <;> simp [passCmd]

theorem postprocessing_filter_passCmd_guiBlock (i : FrameInput) (g : Globals) :
    (Postprocessing.guiBlock i g).1.filter passCmd = [] := by
  unfold Postprocessing.guiBlock
  split
  · cases i.reloadClicked <;> simp [passCmd]
  · rfl

/-! ## Facts about the interpreter -/

@[simp] theorem exec_nil (m : ModelEffect) (s : GLState) : exec m s [] = s := rfl

@[simp] theorem exec_cons (m : ModelEffect) (s : GLState) (c : Cmd) (cs : List Cmd) :
    exec m s (c :: cs) = exec m (step m s c) cs := rfl

@[simp] theorem exec_append (m : ModelEffect) (s : GLState) (as bs : List Cmd) :
    exec m s (as ++ bs) = exec m (exec m s as) bs := by
  simp [exec, List.foldl_append]

@[simp] theorem draws_nil (m : ModelEffect) (s : GLState) : draws m s [] = [] := rfl

@[simp] theorem draws_cons (m : ModelEffect) (s : GLState) (c : Cmd) (cs : List Cmd) :
    draws m s (c :: cs) = (drawOf m s c).toList ++ draws m (step m s c) cs := rfl

@[simp] theorem draws_append (m : ModelEffect) (s : GLState) (as bs : List Cmd) :
    draws m s (as ++ bs) = draws m s as ++ draws m (exec m s as) bs := by
  induction as generalizing s with
  | nil => rfl
  | cons a as ih => simp [ih]

theorem step_of_inert (m : ModelEffect) (s : GLState) (c : Cmd) (h : inert c = true) :
    step m s c = s := by
  cases c <;> first | rfl | simp [inert] at h

theorem drawOf_of_not_isDraw (m : ModelEffect) (s : GLState) (c : Cmd)
    (h : isDraw c = false) : drawOf m s c = none := by
  cases c <;> first | rfl | simp [isDraw] at h

theorem exec_of_inert (m : ModelEffect) (s : GLState) (cs : List Cmd)
    (h : ∀ c ∈ cs, inert c = true) : exec m s cs = s := by
  induction cs generalizing s with
  | nil => rfl
  | cons c cs ih =>
    rw [exec_cons, step_of_inert m s c (h c (List.mem_cons_self c cs))]
    exact ih s (fun d hd => h d (List.mem_cons_of_mem c hd))

theorem draws_of_no_draw (m : ModelEffect) (s : GLState) (cs : List Cmd)
    (h : cs.filter isDraw = []) : draws m s cs = [] := by
  induction cs generalizing s with
  | nil => rfl
  | cons c cs ih =>
    have hc : isDraw c = false := by
      cases hd : isDraw c
      · rfl
      · simp [List.filter_cons, hd] at h
    have hcs : cs.filter isDraw = [] := by simpa [List.filter_cons, hc] using h
    simp [drawOf_of_not_isDraw m s c hc, ih _ hcs]

theorem filter_isDraw_of_passCmd (cs : List Cmd) (h : cs.filter passCmd = []) :
    cs.filter isDraw = [] := by
  rw [List.filter_eq_nil_iff] at h ⊢
  intro c hc hd
  apply h c hc
  cases c <;> first | rfl | simp [isDraw] at hd

theorem exec_renderQuad (m : ModelEffect) (s : GLState) (g : Globals) :
    exec m s (renderQuad g).1 = s := by
  unfold renderQuad
  split <;> rfl

theorem draws_renderQuad (m : ModelEffect) (s : GLState) (g : Globals) :
    draws m s (renderQuad g).1 =
      [⟨s.drawFbo, s.program, .arrays .triangleStrip 4, s.units.textures⟩] := by
  unfold renderQuad
  split <;> rfl

theorem exec_renderCube (m : ModelEffect) (s : GLState) (g : Globals) :
    exec m s (renderCube g).1 = s := by
  unfold renderCube
  split <;> rfl

theorem postprocessing_exec_guiBlock_drawFbo (m : ModelEffect) (s : GLState)
    (i : FrameInput) (g : Globals) :
    (exec m s (Postprocessing.guiBlock i g).1).drawFbo = s.drawFbo := by
  unfold Postprocessing.guiBlock
  split
  · cases i.reloadClicked <;> simp [step]
  · rfl

theorem postprocessing_draws_render (m : ModelEffect) (s : GLState) (i : FrameInput)
    (g : Globals) :
    (draws m s (Postprocessing.render i g).1).map (fun d => (d.fbo, d.kind)) =
      [(.framebuffer, .model .myModel), (.default, .arrays .triangleStrip 4)] := by
  cases hw : i.showWireframe <;> cases hg : g.gui <;>
    simp [Postprocessing.render, hw, hg, step, drawOf, exec_renderQuad, draws_renderQuad,
      GLState.setCap]

/-- C1: in every iteration of the render loop of the post-processing demo the
calls that make up the passes come in the order bind(framebuffer), clear,
scene draw, bind(0), clear, bind texture textureColorbuffer, quad draw, swap;
the scene draw meets the offscreen framebuffer bound for drawing and the quad
draw, the only later draw, meets framebuffer 0. -/
theorem postprocessing_frame_pass_order (m : ModelEffect) (s : GLState) (i : FrameInput)
    (g : Globals) :
    (Postprocessing.frame i g).1.filter passCmd =
      [ .bindFramebuffer .framebuffer .framebuffer, .clear true true false,
        .modelDraw .myModel .modelShader,
        .bindFramebuffer .framebuffer .default, .clear true false false,
        .bindTexture .textureColorbuffer, .drawArrays .triangleStrip 0 4,
        .glfwSwapBuffers ] ∧
    (draws m s (Postprocessing.frame i g).1).map (fun d => (d.fbo, d.kind)) =
      [(.framebuffer, .model .myModel), (.default, .arrays .triangleStrip 4)] := by
  constructor
  · simp only [Postprocessing.frame, Postprocessing.render, List.filter_append,
      filter_passCmd_deliverSizes, filter_passCmd_processInput,
      postprocessing_filter_passCmd_guiBlock, filter_passCmd_renderQuad]
    cases i.showWireframe <;>
      cases (Postprocessing.guiBlock i (deliverSizes i.sizes g).2).2.gui <;>
      simp [passCmd]
  · simp only [Postprocessing.frame, draws_append, draws_cons, draws_nil,
      List.append_assoc]
    rw [draws_of_no_draw m _ _ (filter_isDraw_of_passCmd _ (filter_passCmd_deliverSizes _ _)),
      draws_of_no_draw m _ _ (filter_isDraw_of_passCmd _ (filter_passCmd_processInput _)),
      draws_of_no_draw m _ _
        (filter_isDraw_of_passCmd _ (postprocessing_filter_passCmd_guiBlock _ _))]
    simpa [drawOf] using postprocessing_draws_render m _ i _


/-! ## The deferred demo with the vignette pass -/

theorem deferred_exec_objectDraws_drawFbo (m : ModelEffect) (s : GLState) (n : Nat) :
    (exec m s (Deferred.objectDraws n)).drawFbo = s.drawFbo := by
  induction n generalizing s with
  | zero => rfl
  | succ n ih => simp [Deferred.objectDraws, ih, step]

theorem deferred_exec_lightUniforms (m : ModelEffect) (s : GLState) (k n : Nat) :
    exec m s (Deferred.lightUniforms k n) = s := by
  induction n generalizing k with
  | zero => rfl
  | succ n ih => simp [Deferred.lightUniforms, ih, step]

theorem deferred_exec_lightBoxLoop (m : ModelEffect) (s : GLState) (n : Nat) (g : Globals) :
    exec m s (Deferred.lightBoxLoop n g).1 = s := by
  induction n generalizing g with
  | zero => rfl
  | succ n ih => simp [Deferred.lightBoxLoop, ih, step, exec_renderCube]

theorem deferred_attachmentSizes_targets (m : ModelEffect) (e : InitEnv) (g : Globals)
    (s : GLState) (h1 : s.texAttached = []) (h2 : s.rboAttached = []) :
    (exec m s (Deferred.targets e g)).attachmentSizes .gBuffer =
        List.replicate 4 (some (g.SCR_WIDTH, g.SCR_HEIGHT)) ∧
    (exec m s (Deferred.targets e g)).attachmentSizes .ppFBO =
        List.replicate 2 (some (g.SCR_WIDTH, g.SCR_HEIGHT)) := by
  unfold Deferred.targets Deferred.gBufferSetup Deferred.ppSetup
  by_cases c1 : e.status1 = GL_FRAMEBUFFER_COMPLETE <;>
    by_cases c2 : e.status2 = GL_FRAMEBUFFER_COMPLETE <;>
    simp [c1, c2, step, GLState.attachmentSizes, h1, h2, Function.update]

theorem deferredOrig_attachmentSizes_targets (m : ModelEffect) (e : InitEnv) (g : Globals)
    (s : GLState) (h1 : s.texAttached = []) (h2 : s.rboAttached = []) :
    (exec m s (DeferredOrig.targets e g)).attachmentSizes .gBuffer =
        List.replicate 4 (some (g.SCR_WIDTH, g.SCR_HEIGHT)) := by
  unfold DeferredOrig.targets Deferred.gBufferSetup
  by_cases c1 : e.status1 = GL_FRAMEBUFFER_COMPLETE <;>
    simp [c1, step, GLState.attachmentSizes, h1, h2, Function.update]

theorem postprocessing_attachmentSizes_framebufferSetup (m : ModelEffect) (e : InitEnv)
    (g : Globals) (s : GLState) (h1 : s.texAttached = []) (h2 : s.rboAttached = []) :
    (exec m s (Postprocessing.framebufferSetup e g)).attachmentSizes .framebuffer =
        List.replicate 2 (some (g.SCR_WIDTH, g.SCR_HEIGHT)) := by
  unfold Postprocessing.framebufferSetup
  by_cases c1 : e.status1 = GL_FRAMEBUFFER_COMPLETE <;>
    simp [c1, step, GLState.attachmentSizes, h1, h2, Function.update]

/-- C3: every render target the deferred and post-processing demos construct
(gBuffer with its three colour textures and depth renderbuffer, ppFBO and the
post-processing framebuffer with a colour texture and a depth-stencil
renderbuffer each) has all its attachments allocated with the width
SCR_WIDTH and the height SCR_HEIGHT of the time of construction. -/
theorem targets_share_size (m : ModelEffect) (e : InitEnv) (g : Globals)
    (s : GLState) (h1 : s.texAttached = []) (h2 : s.rboAttached = []) :
    (exec m s (Deferred.targets e g)).attachmentSizes .gBuffer =
        List.replicate 4 (some (g.SCR_WIDTH, g.SCR_HEIGHT)) ∧
    (exec m s (Deferred.targets e g)).attachmentSizes .ppFBO =
        List.replicate 2 (some (g.SCR_WIDTH, g.SCR_HEIGHT)) ∧
    (exec m s (DeferredOrig.targets e g)).attachmentSizes .gBuffer =
        List.replicate 4 (some (g.SCR_WIDTH, g.SCR_HEIGHT)) ∧
    (exec m s (Postprocessing.framebufferSetup e g)).attachmentSizes .framebuffer =
        List.replicate 2 (some (g.SCR_WIDTH, g.SCR_HEIGHT)) :=
  ⟨(deferred_attachmentSizes_targets m e g s h1 h2).1,
   (deferred_attachmentSizes_targets m e g s h1 h2).2,
   deferredOrig_attachmentSizes_targets m e g s h1 h2,
   postprocessing_attachmentSizes_framebufferSetup m e g s h1 h2⟩

/-- Witness of C3 in a fresh context with the screen size of the deferred
demo. -/
theorem targets_share_size_witness :
    GLState.fresh.texAttached = [] ∧ GLState.fresh.rboAttached = [] ∧
    (exec ModelEffect.id GLState.fresh
        (Deferred.targets InitEnv.good (Globals.start 1280 720 (fun k => k + 1)))
      ).attachmentSizes .gBuffer = List.replicate 4 (some (1280, 720)) :=
  ⟨rfl, rfl, (targets_share_size ModelEffect.id InitEnv.good
    (Globals.start 1280 720 (fun k => k + 1)) GLState.fresh rfl rfl).1⟩


/-! ## Storage is allocated once -/

theorem attachmentSizes_step (m : ModelEffect) (s : GLState) (c : Cmd) (f : Fbo)
    (h : allocates c = false) : (step m s c).attachmentSizes f = s.attachmentSizes f := by
  cases c <;> first
    | rfl
    | (simp [allocates] at h; done)
    | (rename_i t _; cases t <;> rfl)
    | (rename_i t; cases t <;> rfl)

theorem attachmentSizes_exec (m : ModelEffect) (s : GLState) (cs : List Cmd) (f : Fbo)
    (h : cs.filter allocates = []) : (exec m s cs).attachmentSizes f = s.attachmentSizes f := by
  induction cs generalizing s with
  | nil => rfl
  | cons c cs ih =>
    have hc : allocates c = false := by
      cases hd : allocates c
      · rfl
      · simp [List.filter_cons, hd] at h
    have hcs : cs.filter allocates = [] := by simpa [List.filter_cons, hc] using h
    rw [exec_cons, ih _ hcs, attachmentSizes_step m s c f hc]

theorem filter_nil_of_imp (p q : Cmd → Bool) (cs : List Cmd)
    (h : ∀ c, p c = true → q c = true) (hq : cs.filter q = []) : cs.filter p = [] := by
  rw [List.filter_eq_nil_iff] at hq ⊢
  intro c hc hp
  exact hq c hc (h c hp)

theorem filter_allocates_of_setupOnly (cs : List Cmd) (h : cs.filter setupOnly = []) :
    cs.filter allocates = [] :=
  filter_nil_of_imp allocates setupOnly cs (fun c hc => by simp [setupOnly, hc]) h

theorem filter_isPrint_of_setupOnly (cs : List Cmd) (h : cs.filter setupOnly = []) :
    cs.filter isPrint = [] :=
  filter_nil_of_imp isPrint setupOnly cs (fun c hc => by simp [setupOnly, hc]) h

theorem filter_setupOnly_deliverSizes (sizes : List (Int × Int)) (g : Globals) :
    (deliverSizes sizes g).1.filter setupOnly = [] := by
  induction sizes generalizing g with
  | nil => rfl
  | cons wh rest ih =>
    simp only [deliverSizes, List.filter_append, ih, List.append_nil]
    unfold sizeLambda
    split <;> simp [setupOnly, allocates, isPrint]

theorem filter_setupOnly_processInput (b : Bool) :
    (processInput b).filter setupOnly = [] := by
  cases b <;> simp [processInput, setupOnly, allocates, isPrint]

theorem filter_setupOnly_renderQuad (g : Globals) :
    (renderQuad g).1.filter setupOnly = [] := by
  unfold renderQuad
  split <;> simp [setupOnly, allocates, isPrint]

theorem filter_setupOnly_renderCube (g : Globals) :
    (renderCube g).1.filter setupOnly = [] := by
  unfold renderCube
  split <;> simp [setupOnly, allocates, isPrint]

theorem postprocessing_filter_setupOnly_frame (i : FrameInput) (g : Globals) :
    (Postprocessing.frame i g).1.filter setupOnly = [] := by
  simp only [Postprocessing.frame, Postprocessing.render, Postprocessing.guiBlock,
    List.filter_append, filter_setupOnly_deliverSizes, filter_setupOnly_processInput,
    filter_setupOnly_renderQuad]
  cases i.showWireframe <;> cases i.reloadClicked <;> cases (deliverSizes i.sizes g).2.gui <;>
    simp [setupOnly, allocates, isPrint]

theorem postprocessing_filter_setupOnly_loop (frames : List FrameInput) (g : Globals) :
    (Postprocessing.loop frames g).1.filter setupOnly = [] := by
  induction frames generalizing g with
  | nil => rfl
  | cons i rest ih =>
    simp only [Postprocessing.loop]
    split
    · exact postprocessing_filter_setupOnly_frame i g
    · simp [postprocessing_filter_setupOnly_frame, ih]

theorem deferred_filter_setupOnly_objectDraws (n : Nat) :
    (Deferred.objectDraws n).filter setupOnly = [] := by
  induction n with
  | zero => rfl
  | succ n ih => simp [Deferred.objectDraws, ih, setupOnly, allocates, isPrint]

theorem deferred_filter_setupOnly_lightUniforms (k n : Nat) :
    (Deferred.lightUniforms k n).filter setupOnly = [] := by
  induction n generalizing k with
  | zero => rfl
  | succ n ih => simp [Deferred.lightUniforms, ih, setupOnly, allocates, isPrint]

theorem deferred_filter_setupOnly_lightBoxLoop (n : Nat) (g : Globals) :
    (Deferred.lightBoxLoop n g).1.filter setupOnly = [] := by
  induction n generalizing g with
  | zero => rfl
  | succ n ih => simp [Deferred.lightBoxLoop, ih, setupOnly, allocates, isPrint, filter_setupOnly_renderCube]

theorem deferred_filter_setupOnly_guiBlock (i : FrameInput) (g : Globals) :
    (Deferred.guiBlock i g).filter setupOnly = [] := by
  unfold Deferred.guiBlock
  split
  · cases i.reloadClicked <;> cases i.displayGBuffers <;>
      simp [setupOnly, allocates, isPrint, Deferred.lightingSamplers]
  · rfl

theorem deferred_filter_setupOnly_frame (i : FrameInput) (g : Globals) :
    (Deferred.frame i g).1.filter setupOnly = [] := by
  simp only [Deferred.frame, Deferred.render, Deferred.geometryPass, Deferred.debugPass,
    Deferred.shadedPasses, Deferred.lightingQuad, Deferred.lightBoxes, Deferred.vignettePass,
    Deferred.bindGBufferTextures,
    List.filter_append, filter_setupOnly_deliverSizes, filter_setupOnly_processInput,
    filter_setupOnly_renderQuad, deferred_filter_setupOnly_guiBlock,
    deferred_filter_setupOnly_objectDraws, deferred_filter_setupOnly_lightUniforms,
    deferred_filter_setupOnly_lightBoxLoop]
  cases i.displayGBuffers <;> cases (deliverSizes i.sizes g).2.gui <;>
    simp [setupOnly, allocates, isPrint, List.filter_append, filter_setupOnly_renderQuad,
      deferred_filter_setupOnly_lightUniforms, deferred_filter_setupOnly_lightBoxLoop]

theorem deferred_filter_setupOnly_loop (frames : List FrameInput) (g : Globals) :
    (Deferred.loop frames g).1.filter setupOnly = [] := by
  induction frames generalizing g with
  | nil => rfl
  | cons i rest ih =>
    simp only [Deferred.loop]
    split
    · exact deferred_filter_setupOnly_frame i g
    · simp [deferred_filter_setupOnly_frame, ih]


theorem attached_step (m : ModelEffect) (s : GLState) (c : Cmd)
    (h : allocates c = false) :
    (step m s c).texAttached = s.texAttached ∧ (step m s c).rboAttached = s.rboAttached := by
  cases c <;> first
    | exact ⟨rfl, rfl⟩
    | (simp [allocates] at h; done)
    | (rename_i t _; cases t <;> exact ⟨rfl, rfl⟩)
    | (rename_i t; cases t <;> exact ⟨rfl, rfl⟩)

theorem attached_exec (m : ModelEffect) (s : GLState) (cs : List Cmd)
    (h : cs.filter allocates = []) :
    (exec m s cs).texAttached = s.texAttached ∧ (exec m s cs).rboAttached = s.rboAttached := by
  induction cs generalizing s with
  | nil => exact ⟨rfl, rfl⟩
  | cons c cs ih =>
    have hc : allocates c = false := by
      cases hd : allocates c
      · rfl
      · simp [List.filter_cons, hd] at h
    have hcs : cs.filter allocates = [] := by simpa [List.filter_cons, hc] using h
    rw [exec_cons, (ih _ hcs).1, (ih _ hcs).2]
    exact attached_step m s c hc

theorem filter_allocates_InitWindowAndGUI (e : InitEnv) (g : Globals) (w h : Int)
    (name : String) : (InitWindowAndGUI e g w h name).1.1.filter allocates = [] := by
  unfold InitWindowAndGUI InitWindow
  cases e.windowOk <;> cases e.gladOk <;> simp [allocates]

theorem size_InitWindowAndGUI (e : InitEnv) (g : Globals) (w h : Int) (name : String) :
    (InitWindowAndGUI e g w h name).2.size = g.size := by
  unfold InitWindowAndGUI InitWindow
  cases e.windowOk <;> cases e.gladOk <;> simp [Globals.size]

theorem size_renderQuad (g : Globals) : (renderQuad g).2.size = g.size := by
  unfold renderQuad
  split <;> rfl

theorem size_renderCube (g : Globals) : (renderCube g).2.size = g.size := by
  unfold renderCube
  split <;> rfl

theorem size_deliverSizes (sizes : List (Int × Int)) (g : Globals) (d : Int × Int)
    (hg : g.size = d) (h : ∀ wh ∈ sizes, 0 < wh.1 → 0 < wh.2 → wh = d) :
    (deliverSizes sizes g).2.size = d := by
  induction sizes generalizing g with
  | nil => exact hg
  | cons wh rest ih =>
    simp only [deliverSizes]
    apply ih
    · unfold sizeLambda
      split
      · rename_i hp
        have := h wh (List.mem_cons_self wh rest) hp.1 hp.2
        simpa [Globals.size] using this
      · exact hg
    · intro x hx
      exact h x (List.mem_cons_of_mem wh hx)

theorem deferred_size_lightBoxLoop (n : Nat) (g : Globals) :
    (Deferred.lightBoxLoop n g).2.size = g.size := by
  induction n generalizing g with
  | zero => rfl
  | succ n ih => simp [Deferred.lightBoxLoop, ih, size_renderCube]

theorem deferred_size_frame (i : FrameInput) (g : Globals) :
    (Deferred.frame i g).2.size = (deliverSizes i.sizes g).2.size := by
  simp only [Deferred.frame, Deferred.render]
  cases i.displayGBuffers <;>
    simp [Deferred.debugPass, Deferred.shadedPasses, Deferred.vignettePass,
      Deferred.lightBoxes, Deferred.lightingQuad, size_renderQuad, deferred_size_lightBoxLoop]

theorem postprocessing_size_frame (i : FrameInput) (g : Globals) :
    (Postprocessing.frame i g).2.size = (deliverSizes i.sizes g).2.size := by
  simp only [Postprocessing.frame, Postprocessing.render, size_renderQuad]
  unfold Postprocessing.guiBlock
  split <;> rfl

theorem deferred_size_loop (frames : List FrameInput) (g : Globals) (d : Int × Int)
    (hg : g.size = d)
    (h : ∀ i ∈ frames, ∀ wh ∈ i.sizes, 0 < wh.1 → 0 < wh.2 → wh = d) :
    (Deferred.loop frames g).2.size = d := by
  induction frames generalizing g with
  | nil => exact hg
  | cons i rest ih =>
    have hi : (Deferred.frame i g).2.size = d := by
      rw [deferred_size_frame]
      exact size_deliverSizes _ _ _ hg (h i (List.mem_cons_self i rest))
    simp only [Deferred.loop]
    split
    · exact hi
    · exact ih _ hi (fun j hj => h j (List.mem_cons_of_mem i hj))

theorem postprocessing_size_loop (frames : List FrameInput) (g : Globals) (d : Int × Int)
    (hg : g.size = d)
    (h : ∀ i ∈ frames, ∀ wh ∈ i.sizes, 0 < wh.1 → 0 < wh.2 → wh = d) :
    (Postprocessing.loop frames g).2.size = d := by
  induction frames generalizing g with
  | nil => exact hg
  | cons i rest ih =>
    have hi : (Postprocessing.frame i g).2.size = d := by
      rw [postprocessing_size_frame]
      exact size_deliverSizes _ _ _ hg (h i (List.mem_cons_self i rest))
    simp only [Postprocessing.loop]
    split
    · exact hi
    · exact ih _ hi (fun j hj => h j (List.mem_cons_of_mem i hj))

theorem deferred_size_prelude (e : InitEnv) (names : Nat → Nat) :
    (Deferred.prelude e names).2.size = (1280, 720) := by
  simp only [Deferred.prelude, Deferred.startup, size_InitWindowAndGUI]
  rfl

theorem postprocessing_size_prelude (e : InitEnv) (names : Nat → Nat) :
    (Postprocessing.prelude e names).2.size = (1024, 720) := by
  simp only [Postprocessing.prelude, Postprocessing.startup]
  show (InitWindowAndGUI e _ _ _ _).2.size = _
  rw [size_InitWindowAndGUI]
  rfl

theorem deferred_attachmentSizes_afterFrames (m : ModelEffect) (e : InitEnv)
    (names : Nat → Nat) (frames : List FrameInput) :
    (Deferred.afterFrames m e names frames).1.attachmentSizes .gBuffer =
        List.replicate 4 (some (1280, 720)) ∧
    (Deferred.afterFrames m e names frames).1.attachmentSizes .ppFBO =
        List.replicate 2 (some (1280, 720)) := by
  have hs := deferred_size_prelude e names
  simp only [Deferred.prelude, Globals.size, Prod.mk.injEq] at hs
  have h0 : ((Deferred.startup e (Globals.start 1280 720 names)).1 ++
      Deferred.resources).filter allocates = [] := by
    simp [Deferred.startup, Deferred.resources, filter_allocates_InitWindowAndGUI, allocates]
  have ha := attached_exec m GLState.fresh _ h0
  have ht := deferred_attachmentSizes_targets m e
    (Deferred.startup e (Globals.start 1280 720 names)).2
    (exec m GLState.fresh ((Deferred.startup e (Globals.start 1280 720 names)).1 ++
      Deferred.resources)) ha.1 ha.2
  rw [hs.1, hs.2] at ht
  have hl : (Deferred.lightingSamplers ++
      (Deferred.loop frames (Deferred.prelude e names).2).1).filter allocates = [] := by
    apply filter_allocates_of_setupOnly
    simp [Deferred.lightingSamplers, deferred_filter_setupOnly_loop, setupOnly, allocates,
      isPrint]
  have hx : ∀ f, (Deferred.afterFrames m e names frames).1.attachmentSizes f =
      (exec m (exec m GLState.fresh ((Deferred.startup e (Globals.start 1280 720 names)).1 ++
        Deferred.resources)) (Deferred.targets e
          (Deferred.startup e (Globals.start 1280 720 names)).2)).attachmentSizes f := by
    intro f
    have := attachmentSizes_exec m (exec m (exec m GLState.fresh
      ((Deferred.startup e (Globals.start 1280 720 names)).1 ++
        Deferred.resources)) (Deferred.targets e
          (Deferred.startup e (Globals.start 1280 720 names)).2)) _ f hl
    rw [← this]
    simp [Deferred.afterFrames, Deferred.prelude]
  rw [hx, hx]
  exact ht


theorem postprocessing_attachmentSizes_afterFrames (m : ModelEffect) (e : InitEnv)
    (names : Nat → Nat) (frames : List FrameInput) :
    (Postprocessing.afterFrames m e names frames).1.attachmentSizes .framebuffer =
        List.replicate 2 (some (1024, 720)) := by
  have hs := postprocessing_size_prelude e names
  simp only [Postprocessing.prelude, Globals.size, Prod.mk.injEq] at hs
  have h0 : (Postprocessing.startup e (Globals.start 1024 720 names)).1.filter allocates
      = [] := by
    simp [Postprocessing.startup, filter_allocates_InitWindowAndGUI, allocates]
  have ha := attached_exec m GLState.fresh _ h0
  have ht := postprocessing_attachmentSizes_framebufferSetup m e
    (Postprocessing.startup e (Globals.start 1024 720 names)).2
    (exec m GLState.fresh (Postprocessing.startup e (Globals.start 1024 720 names)).1)
    ha.1 ha.2
  rw [hs.1, hs.2] at ht
  have hl := filter_allocates_of_setupOnly _
    (postprocessing_filter_setupOnly_loop frames (Postprocessing.prelude e names).2)
  have := attachmentSizes_exec m (exec m (exec m GLState.fresh
      (Postprocessing.startup e (Globals.start 1024 720 names)).1)
      (Postprocessing.framebufferSetup e
        (Postprocessing.startup e (Globals.start 1024 720 names)).2)) _ .framebuffer hl
  rw [← ht, ← this]
  simp [Postprocessing.afterFrames, Postprocessing.prelude]

/-- C4, counterexample: after a frame during which the framebuffer-size
callback delivers 800 x 600, the deferred demo enters the next frame with
SCR_WIDTH x SCR_HEIGHT = 800 x 600 while the attachments of gBuffer still
measure 1280 x 720. -/
theorem deferred_stale_targets_after_resize :
    (Deferred.afterFrames ModelEffect.id InitEnv.good (fun k => k + 1)
        [FrameInput.resized]).2.size = (800, 600) ∧
    (Deferred.afterFrames ModelEffect.id InitEnv.good (fun k => k + 1)
        [FrameInput.resized]).1.attachmentSizes .gBuffer =
      List.replicate 4 (some (1280, 720)) ∧
    (Deferred.afterFrames ModelEffect.id InitEnv.good (fun k => k + 1)
        [FrameInput.resized]).1.attachmentSizes .gBuffer ≠
      List.replicate 4 (some (Deferred.afterFrames ModelEffect.id InitEnv.good
        (fun k => k + 1) [FrameInput.resized]).2.size) := by
  have h1 : (Deferred.afterFrames ModelEffect.id InitEnv.good (fun k => k + 1)
        [FrameInput.resized]).2.size = (800, 600) := by
    simp only [Deferred.afterFrames, Deferred.loop, deferred_size_frame]
    rfl
  refine ⟨h1, (deferred_attachmentSizes_afterFrames _ _ _ _).1, ?_⟩
  rw [h1, (deferred_attachmentSizes_afterFrames _ _ _ _).1]
  decide

/-- C4, amended: at the start of every frame of the deferred and
post-processing demos every attachment of every render target has the size
SCR_WIDTH x SCR_HEIGHT had at construction (1280 x 720, respectively
1024 x 720), whatever framebuffer-size callbacks were delivered; this is the
current SCR_WIDTH x SCR_HEIGHT provided every delivered size with positive
width and height was the size of construction. -/
theorem targets_keep_construction_size (m : ModelEffect) (e : InitEnv) (names : Nat → Nat)
    (frames : List FrameInput) :
    ((Deferred.afterFrames m e names frames).1.attachmentSizes .gBuffer =
        List.replicate 4 (some (1280, 720)) ∧
     (Deferred.afterFrames m e names frames).1.attachmentSizes .ppFBO =
        List.replicate 2 (some (1280, 720)) ∧
     (Postprocessing.afterFrames m e names frames).1.attachmentSizes .framebuffer =
        List.replicate 2 (some (1024, 720))) ∧
    ((∀ i ∈ frames, ∀ wh ∈ i.sizes, 0 < wh.1 → 0 < wh.2 → wh = (1280, 720)) →
      (Deferred.afterFrames m e names frames).1.attachmentSizes .gBuffer =
        List.replicate 4 (some (Deferred.afterFrames m e names frames).2.size) ∧
      (Deferred.afterFrames m e names frames).1.attachmentSizes .ppFBO =
        List.replicate 2 (some (Deferred.afterFrames m e names frames).2.size)) ∧
    ((∀ i ∈ frames, ∀ wh ∈ i.sizes, 0 < wh.1 → 0 < wh.2 → wh = (1024, 720)) →
      (Postprocessing.afterFrames m e names frames).1.attachmentSizes .framebuffer =
        List.replicate 2 (some (Postprocessing.afterFrames m e names frames).2.size)) := by
  refine ⟨⟨(deferred_attachmentSizes_afterFrames m e names frames).1,
    (deferred_attachmentSizes_afterFrames m e names frames).2,
    postprocessing_attachmentSizes_afterFrames m e names frames⟩, ?_, ?_⟩
  · intro h
    have hsz : (Deferred.afterFrames m e names frames).2.size = (1280, 720) :=
      deferred_size_loop frames _ _ (deferred_size_prelude e names) h
    rw [hsz]
    exact deferred_attachmentSizes_afterFrames m e names frames
  · intro h
    have hsz : (Postprocessing.afterFrames m e names frames).2.size = (1024, 720) :=
      postprocessing_size_loop frames _ _ (postprocessing_size_prelude e names) h
    rw [hsz]
    exact postprocessing_attachmentSizes_afterFrames m e names frames

/-- Witness of C4, amended: a frame that receives the rejected size 0 x 5 and
the size of construction, in each of the two demos. -/
theorem targets_keep_construction_size_witness :
    ((∀ i ∈ [FrameInput.sized [(0, 5), (1280, 720)]], ∀ wh ∈ i.sizes,
        0 < wh.1 → 0 < wh.2 → wh = ((1280, 720) : Int × Int)) ∧
     (Deferred.afterFrames ModelEffect.id InitEnv.good (fun k => k + 1)
        [FrameInput.sized [(0, 5), (1280, 720)]]).1.attachmentSizes .gBuffer =
      List.replicate 4 (some (Deferred.afterFrames ModelEffect.id InitEnv.good
        (fun k => k + 1) [FrameInput.sized [(0, 5), (1280, 720)]]).2.size)) ∧
    ((∀ i ∈ [FrameInput.sized [(0, 5), (1024, 720)]], ∀ wh ∈ i.sizes,
        0 < wh.1 → 0 < wh.2 → wh = ((1024, 720) : Int × Int)) ∧
     (Postprocessing.afterFrames ModelEffect.id InitEnv.good (fun k => k + 1)
        [FrameInput.sized [(0, 5), (1024, 720)]]).1.attachmentSizes .framebuffer =
      List.replicate 2 (some (Postprocessing.afterFrames ModelEffect.id InitEnv.good
        (fun k => k + 1) [FrameInput.sized [(0, 5), (1024, 720)]]).2.size)) := by
  have h1 : ∀ i ∈ [FrameInput.sized [(0, 5), (1280, 720)]], ∀ wh ∈ i.sizes,
      0 < wh.1 → 0 < wh.2 → wh = ((1280, 720) : Int × Int) := by
    intro i hi wh hwh
    simp only [List.mem_singleton] at hi
    subst hi
    simp only [FrameInput.sized, List.mem_cons, List.mem_singleton, List.not_mem_nil,
      or_false] at hwh
    rcases hwh with rfl | rfl <;> simp
  have h2 : ∀ i ∈ [FrameInput.sized [(0, 5), (1024, 720)]], ∀ wh ∈ i.sizes,
      0 < wh.1 → 0 < wh.2 → wh = ((1024, 720) : Int × Int) := by
    intro i hi wh hwh
    simp only [List.mem_singleton] at hi
    subst hi
    simp only [FrameInput.sized, List.mem_cons, List.mem_singleton, List.not_mem_nil,
      or_false] at hwh
    rcases hwh with rfl | rfl <;> simp
  exact ⟨⟨h1, ((targets_keep_construction_size ModelEffect.id InitEnv.good (fun k => k + 1)
      [FrameInput.sized [(0, 5), (1280, 720)]]).2.1 h1).1⟩,
    ⟨h2, (targets_keep_construction_size ModelEffect.id InitEnv.good (fun k => k + 1)
      [FrameInput.sized [(0, 5), (1024, 720)]]).2.2 h2⟩⟩


/-! ## Completeness checks -/

theorem deferredOrig_filter_setupOnly_guiBlock (i : FrameInput) (g : Globals) :
    (DeferredOrig.guiBlock i g).filter setupOnly = [] := by
  unfold DeferredOrig.guiBlock
  split
  · cases i.reloadClicked <;> cases i.displayGBuffers <;>
      simp [setupOnly, allocates, isPrint, Deferred.lightingSamplers]
  · rfl

theorem deferredOrig_filter_setupOnly_frame (i : FrameInput) (g : Globals) :
    (DeferredOrig.frame i g).1.filter setupOnly = [] := by
  simp only [DeferredOrig.frame, DeferredOrig.render, Deferred.geometryPass,
    Deferred.debugPass, DeferredOrig.shadedPasses, Deferred.lightingQuad,
    DeferredOrig.lightBoxes, DeferredOrig.depthBlit, Deferred.bindGBufferTextures,
    List.filter_append, filter_setupOnly_deliverSizes, filter_setupOnly_processInput,
    filter_setupOnly_renderQuad, deferredOrig_filter_setupOnly_guiBlock,
    deferred_filter_setupOnly_objectDraws, deferred_filter_setupOnly_lightUniforms,
    deferred_filter_setupOnly_lightBoxLoop]
  cases i.displayGBuffers <;> cases (deliverSizes i.sizes g).2.gui <;>
    simp [setupOnly, allocates, isPrint, List.filter_append, filter_setupOnly_renderQuad,
      deferred_filter_setupOnly_lightUniforms, deferred_filter_setupOnly_lightBoxLoop]

theorem deferredOrig_filter_setupOnly_loop (frames : List FrameInput) (g : Globals) :
    (DeferredOrig.loop frames g).1.filter setupOnly = [] := by
  induction frames generalizing g with
  | nil => rfl
  | cons i rest ih =>
    simp only [DeferredOrig.loop]
    split
    · exact deferredOrig_filter_setupOnly_frame i g
    · simp [deferredOrig_filter_setupOnly_frame, ih]

theorem postprocessing_filter_notPrint_main (e : InitEnv) (names : Nat → Nat)
    (frames : List FrameInput) :
    (Postprocessing.main e names frames).1.filter notPrint =
      (Postprocessing.main e.complete names frames).1.filter notPrint := by
  have hs : Postprocessing.startup e.complete (Globals.start 1024 720 names) =
      Postprocessing.startup e (Globals.start 1024 720 names) := rfl
  simp only [Postprocessing.main, Postprocessing.prelude, hs, List.filter_append]
  congr 2
  unfold Postprocessing.framebufferSetup
  by_cases c1 : e.status1 = GL_FRAMEBUFFER_COMPLETE <;>
    simp [c1, InitEnv.complete, notPrint, isPrint]

theorem deferred_filter_notPrint_main (e : InitEnv) (names : Nat → Nat)
    (frames : List FrameInput) :
    (Deferred.main e names frames).1.filter notPrint =
      (Deferred.main e.complete names frames).1.filter notPrint := by
  have hs : Deferred.startup e.complete (Globals.start 1280 720 names) =
      Deferred.startup e (Globals.start 1280 720 names) := rfl
  have hg : e.complete.gladOk2 = e.gladOk2 := rfl
  simp only [Deferred.main, Deferred.prelude, hs, hg]
  split
  · rfl
  · simp only [List.filter_append]
    congr 3
    unfold Deferred.targets Deferred.gBufferSetup Deferred.ppSetup
    by_cases c1 : e.status1 = GL_FRAMEBUFFER_COMPLETE <;>
      by_cases c2 : e.status2 = GL_FRAMEBUFFER_COMPLETE <;>
      simp [c1, c2, InitEnv.complete, notPrint, isPrint]

theorem deferredOrig_filter_notPrint_main (e : InitEnv) (names : Nat → Nat)
    (frames : List FrameInput) :
    (DeferredOrig.main e names frames).1.filter notPrint =
      (DeferredOrig.main e.complete names frames).1.filter notPrint := by
  have hs : Deferred.startup e.complete (Globals.start 1280 720 names) =
      Deferred.startup e (Globals.start 1280 720 names) := rfl
  have hg : e.complete.gladOk2 = e.gladOk2 := rfl
  simp only [DeferredOrig.main, DeferredOrig.prelude, hs, hg]
  split
  · rfl
  · simp only [List.filter_append]
    congr 3
    unfold DeferredOrig.targets Deferred.gBufferSetup
    by_cases c1 : e.status1 = GL_FRAMEBUFFER_COMPLETE <;>
      simp [c1, InitEnv.complete, notPrint, isPrint]

theorem filter_isDraw_filter_notPrint (cs : List Cmd) :
    (cs.filter notPrint).filter isDraw = cs.filter isDraw := by
  rw [List.filter_filter]
  congr 1
  funext c
  cases c <;> rfl

theorem filter_isPoll_filter_notPrint (cs : List Cmd) :
    (cs.filter notPrint).filter isPoll = cs.filter isPoll := by
  rw [List.filter_filter]
  congr 1
  funext c
  cases c <;> rfl

theorem postprocessing_filter_isPrint_main (e : InitEnv) (names : Nat → Nat)
    (frames : List FrameInput) :
    (Postprocessing.main e names frames).1.filter isPrint =
      (Postprocessing.main e.complete names frames).1.filter isPrint ++
        statusMessage e.status1 "ERROR::FRAMEBUFFER:: Framebuffer is not complete!" := by
  have hs : Postprocessing.startup e.complete (Globals.start 1024 720 names) =
      Postprocessing.startup e (Globals.start 1024 720 names) := rfl
  simp only [Postprocessing.main, Postprocessing.prelude, hs, List.filter_append,
    filter_isPrint_of_setupOnly _ (postprocessing_filter_setupOnly_loop _ _)]
  unfold Postprocessing.framebufferSetup statusMessage
  by_cases c1 : e.status1 = GL_FRAMEBUFFER_COMPLETE <;>
    simp [c1, InitEnv.complete, isPrint]

theorem deferred_filter_isPrint_main (e : InitEnv) (names : Nat → Nat)
    (frames : List FrameInput) (hg : e.gladOk2 = true) :
    (Deferred.main e names frames).1.filter isPrint =
      (Deferred.main e.complete names frames).1.filter isPrint ++
        (statusMessage e.status1 "GBuffer Framebuffer not complete!" ++
         statusMessage e.status2 "Postprocessing framebuffer not complete!") := by
  have hs : Deferred.startup e.complete (Globals.start 1280 720 names) =
      Deferred.startup e (Globals.start 1280 720 names) := rfl
  have hg2 : e.complete.gladOk2 = true := hg
  simp only [Deferred.main, Deferred.prelude, hs, hg, hg2, List.filter_append,
    filter_isPrint_of_setupOnly _ (deferred_filter_setupOnly_loop _ _)]
  unfold Deferred.targets Deferred.gBufferSetup Deferred.ppSetup statusMessage
  by_cases c1 : e.status1 = GL_FRAMEBUFFER_COMPLETE <;>
    by_cases c2 : e.status2 = GL_FRAMEBUFFER_COMPLETE <;>
    simp [c1, c2, InitEnv.complete, isPrint, Deferred.resources, Deferred.lightingSamplers,
      filter_isPrint_of_setupOnly _ (deferred_filter_setupOnly_loop _ _)]

theorem deferredOrig_filter_isPrint_main (e : InitEnv) (names : Nat → Nat)
    (frames : List FrameInput) (hg : e.gladOk2 = true) :
    (DeferredOrig.main e names frames).1.filter isPrint =
      (DeferredOrig.main e.complete names frames).1.filter isPrint ++
        statusMessage e.status1 "Framebuffer not complete!" := by
  have hs : Deferred.startup e.complete (Globals.start 1280 720 names) =
      Deferred.startup e (Globals.start 1280 720 names) := rfl
  have hg2 : e.complete.gladOk2 = true := hg
  simp only [DeferredOrig.main, DeferredOrig.prelude, hs, hg, hg2, List.filter_append,
    filter_isPrint_of_setupOnly _ (deferredOrig_filter_setupOnly_loop _ _)]
  unfold DeferredOrig.targets Deferred.gBufferSetup statusMessage
  by_cases c1 : e.status1 = GL_FRAMEBUFFER_COMPLETE <;>
    simp [c1, InitEnv.complete, isPrint, DeferredOrig.resources, Deferred.lightingSamplers,
      filter_isPrint_of_setupOnly _ (deferredOrig_filter_setupOnly_loop _ _)]

/-- C5, counterexample: with the first completeness check of the deferred
demo answering GL_FRAMEBUFFER_UNSUPPORTED, main runs the one iteration its
loop is given (one call of glfwPollEvents), issues 13 draw calls and returns
0. -/
theorem deferred_incomplete_target_draws :
    InitEnv.unsupported.status1 ≠ GL_FRAMEBUFFER_COMPLETE ∧
    ((Deferred.main InitEnv.unsupported (fun k => k + 1)
        [FrameInput.quiet]).1.filter isPoll).length = 1 ∧
    ((Deferred.main InitEnv.unsupported (fun k => k + 1)
        [FrameInput.quiet]).1.filter isDraw).length = 13 ∧
    (Deferred.main InitEnv.unsupported (fun k => k + 1) [FrameInput.quiet]).2 = 0 := by
  refine ⟨by decide, by decide, by decide, rfl⟩

/-- C5, amended: in the deferred and post-processing demos a completeness
check that reports anything other than GL_FRAMEBUFFER_COMPLETE is not fatal:
main prints a message, then runs its render loop, issues the same draw calls
and the same calls of glfwPollEvents as in the run in which the target is
complete, and returns 0. -/
theorem incomplete_target_not_fatal (e : InitEnv) (names : Nat → Nat)
    (frames : List FrameInput) (hg : e.gladOk2 = true) :
    ((e.status1 ≠ GL_FRAMEBUFFER_COMPLETE →
        Cmd.print .cout "ERROR::FRAMEBUFFER:: Framebuffer is not complete!" ∈
          (Postprocessing.main e names frames).1) ∧
      Postprocessing.main e names frames =
        ((Postprocessing.prelude e names).1 ++
          (Postprocessing.loop frames (Postprocessing.prelude e names).2).1 ++
          [.glfwTerminate], 0) ∧
      (Postprocessing.main e names frames).1.filter isDraw =
        (Postprocessing.main e.complete names frames).1.filter isDraw ∧
      (Postprocessing.main e names frames).1.filter isPoll =
        (Postprocessing.main e.complete names frames).1.filter isPoll) ∧
    ((e.status1 ≠ GL_FRAMEBUFFER_COMPLETE →
        Cmd.print .cout "GBuffer Framebuffer not complete!" ∈
          (Deferred.main e names frames).1) ∧
      (e.status2 ≠ GL_FRAMEBUFFER_COMPLETE →
        Cmd.print .cout "Postprocessing framebuffer not complete!" ∈
          (Deferred.main e names frames).1) ∧
      Deferred.main e names frames =
        ((Deferred.prelude e names).1 ++
          (Deferred.loop frames (Deferred.prelude e names).2).1 ++ [.glfwTerminate], 0) ∧
      (Deferred.main e names frames).1.filter isDraw =
        (Deferred.main e.complete names frames).1.filter isDraw ∧
      (Deferred.main e names frames).1.filter isPoll =
        (Deferred.main e.complete names frames).1.filter isPoll) := by
  refine ⟨⟨?_, rfl, ?_, ?_⟩, ⟨?_, ?_, ?_, ?_, ?_⟩⟩
  · intro h
    simp [Postprocessing.main, Postprocessing.prelude, Postprocessing.framebufferSetup, h]
  · rw [← filter_isDraw_filter_notPrint, postprocessing_filter_notPrint_main,
      filter_isDraw_filter_notPrint]
  · rw [← filter_isPoll_filter_notPrint, postprocessing_filter_notPrint_main,
      filter_isPoll_filter_notPrint]
  · intro h
    simp [Deferred.main, hg, Deferred.prelude, Deferred.targets, Deferred.gBufferSetup, h]
  · intro h
    simp [Deferred.main, hg, Deferred.prelude, Deferred.targets, Deferred.ppSetup, h]
  · simp [Deferred.main, hg]
  · rw [← filter_isDraw_filter_notPrint, deferred_filter_notPrint_main,
      filter_isDraw_filter_notPrint]
  · rw [← filter_isPoll_filter_notPrint, deferred_filter_notPrint_main,
      filter_isPoll_filter_notPrint]

/-- Witness of C5, amended: the run of the deferred demo whose first
completeness check answers GL_FRAMEBUFFER_UNSUPPORTED. -/
theorem incomplete_target_not_fatal_witness :
    InitEnv.unsupported.gladOk2 = true ∧
    InitEnv.unsupported.status1 ≠ GL_FRAMEBUFFER_COMPLETE ∧
    Cmd.print .cout "GBuffer Framebuffer not complete!" ∈
      (Deferred.main InitEnv.unsupported (fun k => k + 1) [FrameInput.quiet]).1 ∧
    (Deferred.main InitEnv.unsupported (fun k => k + 1) [FrameInput.quiet]).1.filter isDraw =
      (Deferred.main InitEnv.unsupported.complete (fun k => k + 1)
        [FrameInput.quiet]).1.filter isDraw :=
  ⟨rfl, by decide,
    (incomplete_target_not_fatal InitEnv.unsupported (fun k => k + 1) [FrameInput.quiet]
      rfl).2.1 (by decide),
    (incomplete_target_not_fatal InitEnv.unsupported (fun k => k + 1) [FrameInput.quiet]
      rfl).2.2.2.2.1⟩

/-! ## The full-screen quad -/

/-- C7: the four vertices of the quad of renderQuad are the corners of the
square [-1,1] x [-1,1] at z = 0, each vertex (x, y) carries the texture
coordinate ((x+1)/2, (y+1)/2), the strip of four vertices consists of the
triangles (v0,v1,v2) and (v1,v2,v3), and every point of the square lies in
one of the two. -/
theorem quad_covers_screen (K : Type) [LinearOrderedField K] (x y : K)
    (hx : -1 ≤ x ∧ x ≤ 1) (hy : -1 ≤ y ∧ y ≤ 1) :
    (List.range 4).map (quadPosition K) = [[-1, 1, 0], [-1, -1, 0], [1, 1, 0], [1, -1, 0]] ∧
    (∀ i < 4, quadTexCoord K i = [((quadXY K i).1 + 1) / 2, ((quadXY K i).2 + 1) / 2]) ∧
    stripTriangles 4 = [(0, 1, 2), (1, 2, 3)] ∧
    (inTriangle (quadXY K 0) (quadXY K 1) (quadXY K 2) (x, y) ∨
     inTriangle (quadXY K 1) (quadXY K 2) (quadXY K 3) (x, y)) := by
  refine ⟨rfl, ?_, rfl, ?_⟩
  · intro i hi
    have h0 : quadXY K 0 = (-1, 1) := rfl
    have h1 : quadXY K 1 = (-1, -1) := rfl
    have h2 : quadXY K 2 = (1, 1) := rfl
    have h3 : quadXY K 3 = (1, -1) := rfl
    have t0 : quadTexCoord K 0 = [0, 1] := rfl
    have t1 : quadTexCoord K 1 = [0, 0] := rfl
    have t2 : quadTexCoord K 2 = [1, 1] := rfl
    have t3 : quadTexCoord K 3 = [1, 0] := rfl
    interval_cases i
    · rw [h0, t0]; norm_num
    · rw [h1, t1]; norm_num
    · rw [h2, t2]; norm_num
    · rw [h3, t3]; norm_num
  · have h0 : quadXY K 0 = (-1, 1) := rfl
    have h1 : quadXY K 1 = (-1, -1) := rfl
    have h2 : quadXY K 2 = (1, 1) := rfl
    have h3 : quadXY K 3 = (1, -1) := rfl
    rw [h0, h1, h2, h3]
    simp only [inTriangle, edge]
    rcases le_total x y with h | h
    · left
      left
      refine ⟨?_, ?_, ?_⟩ <;> linarith [hx.1, hx.2, hy.1, hy.2]
    · right
      right
      refine ⟨?_, ?_, ?_⟩ <;> linarith [hx.1, hx.2, hy.1, hy.2]

/-- Witness of C7 at the point (1/2, -1/3) of the rational plane. -/
theorem quad_covers_screen_witness :
    ((-1 : ℚ) ≤ 1 / 2 ∧ (1 / 2 : ℚ) ≤ 1) ∧ ((-1 : ℚ) ≤ -1 / 3 ∧ (-1 / 3 : ℚ) ≤ 1) ∧
    (inTriangle (quadXY ℚ 0) (quadXY ℚ 1) (quadXY ℚ 2) (1 / 2, -1 / 3) ∨
     inTriangle (quadXY ℚ 1) (quadXY ℚ 2) (quadXY ℚ 3) (1 / 2, -1 / 3)) :=
  ⟨by norm_num, by norm_num,
    (quad_covers_screen ℚ (1 / 2) (-1 / 3) (by norm_num) (by norm_num)).2.2.2⟩


/-! ## Vertex arrays are created once -/

theorem renderQuad_of_ne_zero (g : Globals) (h : g.quadVAO ≠ 0) :
    renderQuad g = ([ .bindVertexArray g.quadVAO, .drawArrays .triangleStrip 0 4,
      .bindVertexArray 0 ], g) := by
  unfold renderQuad
  simp [h]

theorem renderCube_of_ne_zero (g : Globals) (h : g.cubeVAO ≠ 0) :
    renderCube g = ([ .bindVertexArray g.cubeVAO, .drawArrays .triangles 0 36,
      .bindVertexArray 0 ], g) := by
  unfold renderCube
  simp [h]

theorem renderQuadCalls_of_ne_zero (n : Nat) (g : Globals) (h : g.quadVAO ≠ 0) :
    renderQuadCalls n g = List.replicate n [ .bindVertexArray g.quadVAO,
      .drawArrays .triangleStrip 0 4, .bindVertexArray 0 ] := by
  induction n with
  | zero => rfl
  | succ n ih => simp [renderQuadCalls, renderQuad_of_ne_zero g h, ih, List.replicate_succ]

theorem renderCubeCalls_of_ne_zero (n : Nat) (g : Globals) (h : g.cubeVAO ≠ 0) :
    renderCubeCalls n g = List.replicate n [ .bindVertexArray g.cubeVAO,
      .drawArrays .triangles 0 36, .bindVertexArray 0 ] := by
  induction n with
  | zero => rfl
  | succ n ih => simp [renderCubeCalls, renderCube_of_ne_zero g h, ih, List.replicate_succ]

theorem renderQuadCalls_succ (n : Nat) (g : Globals) (h0 : g.quadVAO = 0)
    (hn : g.names g.generated ≠ 0) :
    renderQuadCalls (n + 1) g =
      (renderQuad g).1 :: List.replicate n [ .bindVertexArray (g.names g.generated),
        .drawArrays .triangleStrip 0 4, .bindVertexArray 0 ] := by
  have hq : (renderQuad g).2.quadVAO = g.names g.generated := by
    unfold renderQuad
    simp [h0]
  have hne : (renderQuad g).2.quadVAO ≠ 0 := by rw [hq]; exact hn
  rw [renderQuadCalls, renderQuadCalls_of_ne_zero n _ hne, hq]

theorem renderCubeCalls_succ (n : Nat) (g : Globals) (h0 : g.cubeVAO = 0)
    (hn : g.names g.generated ≠ 0) :
    renderCubeCalls (n + 1) g =
      (renderCube g).1 :: List.replicate n [ .bindVertexArray (g.names g.generated),
        .drawArrays .triangles 0 36, .bindVertexArray 0 ] := by
  have hq : (renderCube g).2.cubeVAO = g.names g.generated := by
    unfold renderCube
    simp [h0]
  have hne : (renderCube g).2.cubeVAO ≠ 0 := by rw [hq]; exact hn
  rw [renderCubeCalls, renderCubeCalls_of_ne_zero n _ hne, hq]

/-- C8: of n >= 1 consecutive calls of renderQuad, and likewise of
renderCube, started with a zero vertex-array name and given a non-zero name
by the driver, the first creates the vertex array and the buffer and fills
the buffer, once each, and no later call does; every call issues exactly one
draw (4 vertices as a triangle strip, respectively 36 vertices as triangles)
and leaves vertex array 0 bound. -/
theorem vertex_arrays_created_once (n : Nat) (g : Globals) (hn : 1 ≤ n)
    (hname : g.names g.generated ≠ 0) :
    (g.quadVAO = 0 →
      (renderQuadCalls n g).length = n ∧
      ((renderQuadCalls n g).headD []).filter isCreate =
        [ .genVertexArrays (g.names g.generated), .genBuffers (g.names (g.generated + 1)),
          .bufferData "GL_ARRAY_BUFFER" (20 * sizeofFloat) ] ∧
      (∀ cs ∈ (renderQuadCalls n g).tail, cs.filter isCreate = []) ∧
      (∀ cs ∈ renderQuadCalls n g, cs.filter isDraw = [.drawArrays .triangleStrip 0 4]) ∧
      (∀ cs ∈ renderQuadCalls n g, ∀ v, boundVertexArray v cs = 0)) ∧
    (g.cubeVAO = 0 →
      (renderCubeCalls n g).length = n ∧
      ((renderCubeCalls n g).headD []).filter isCreate =
        [ .genVertexArrays (g.names g.generated), .genBuffers (g.names (g.generated + 1)),
          .bufferData "GL_ARRAY_BUFFER" (288 * sizeofFloat) ] ∧
      (∀ cs ∈ (renderCubeCalls n g).tail, cs.filter isCreate = []) ∧
      (∀ cs ∈ renderCubeCalls n g, cs.filter isDraw = [.drawArrays .triangles 0 36]) ∧
      (∀ cs ∈ renderCubeCalls n g, ∀ v, boundVertexArray v cs = 0)) := by
  obtain ⟨k, rfl⟩ : ∃ k, n = k + 1 := ⟨n - 1, by omega⟩
  constructor
  · intro h0
    rw [renderQuadCalls_succ k g h0 hname]
    have hfirst : (renderQuad g).1 =
        [ .genVertexArrays (g.names g.generated), .genBuffers (g.names (g.generated + 1)),
          .bindVertexArray (g.names g.generated),
          .bindBuffer "GL_ARRAY_BUFFER" (g.names (g.generated + 1)),
          .bufferData "GL_ARRAY_BUFFER" (20 * sizeofFloat),
          .enableVertexAttribArray 0,
          .vertexAttribPointer 0 3 (5 * sizeofFloat) 0,
          .enableVertexAttribArray 1,
          .vertexAttribPointer 1 2 (5 * sizeofFloat) (3 * sizeofFloat),
          .bindVertexArray (g.names g.generated),
          .drawArrays .triangleStrip 0 4, .bindVertexArray 0 ] := by
      unfold renderQuad
      simp [h0]
    rw [hfirst]
    refine ⟨by simp, rfl, ?_, ?_, ?_⟩
    · intro cs hcs
      simp only [List.tail_cons, List.mem_replicate] at hcs
      rw [hcs.2]
      rfl
    · intro cs hcs
      simp only [List.mem_cons, List.mem_replicate] at hcs
      rcases hcs with rfl | ⟨_, rfl⟩ <;> rfl
    · intro cs hcs v
      simp only [List.mem_cons, List.mem_replicate] at hcs
      rcases hcs with rfl | ⟨_, rfl⟩ <;> rfl
  · intro h0
    rw [renderCubeCalls_succ k g h0 hname]
    have hfirst : (renderCube g).1 =
        [ .genVertexArrays (g.names g.generated), .genBuffers (g.names (g.generated + 1)),
          .bindBuffer "GL_ARRAY_BUFFER" (g.names (g.generated + 1)),
          .bufferData "GL_ARRAY_BUFFER" (288 * sizeofFloat),
          .bindVertexArray (g.names g.generated),
          .enableVertexAttribArray 0,
          .vertexAttribPointer 0 3 (8 * sizeofFloat) 0,
          .enableVertexAttribArray 1,
          .vertexAttribPointer 1 3 (8 * sizeofFloat) (3 * sizeofFloat),
          .enableVertexAttribArray 2,
          .vertexAttribPointer 2 2 (8 * sizeofFloat) (6 * sizeofFloat),
          .bindBuffer "GL_ARRAY_BUFFER" 0,
          .bindVertexArray 0,
          .bindVertexArray (g.names g.generated),
          .drawArrays .triangles 0 36, .bindVertexArray 0 ] := by
      unfold renderCube
      simp [h0]
    rw [hfirst]
    refine ⟨by simp, rfl, ?_, ?_, ?_⟩
    · intro cs hcs
      simp only [List.tail_cons, List.mem_replicate] at hcs
      rw [hcs.2]
      rfl
    · intro cs hcs
      simp only [List.mem_cons, List.mem_replicate] at hcs
      rcases hcs with rfl | ⟨_, rfl⟩ <;> rfl
    · intro cs hcs v
      simp only [List.mem_cons, List.mem_replicate] at hcs
      rcases hcs with rfl | ⟨_, rfl⟩ <;> rfl

/-- Witness of C8: three calls of renderQuad in a run that has just started
and is given the names 1, 2, ... -/
theorem vertex_arrays_created_once_witness :
    1 ≤ 3 ∧ Globals.demo.names Globals.demo.generated ≠ 0 ∧ Globals.demo.quadVAO = 0 ∧
    ((renderQuadCalls 3 Globals.demo).map (fun cs => (cs.filter isCreate).length)) =
      [3, 0, 0] := by
  refine ⟨by decide, by decide, rfl, ?_⟩
  have h := (vertex_arrays_created_once 3 Globals.demo (by decide) (by decide)).1 rfl
  have h3 : ∃ a b c, renderQuadCalls 3 Globals.demo = [a, b, c] := ⟨_, _, _, rfl⟩
  obtain ⟨a, b, c, habc⟩ := h3
  rw [habc] at h ⊢
  have hb := h.2.2.1 b (by simp)
  have hc := h.2.2.1 c (by simp)
  have ha := h.2.1
  simp only [List.headD_cons] at ha
  simp [ha, hb, hc]


/-! ## Order of the steps of an iteration -/

@[simp] theorem phases_nil : phases [] = [] := rfl

@[simp] theorem phases_append (as bs : List Cmd) :
    phases (as ++ bs) = phases as ++ phases bs := by
  simp [phases]

theorem phases_cons (c : Cmd) (cs : List Cmd) :
    phases (c :: cs) = (phaseOf c).toList ++ phases cs := by
  cases h : phaseOf c <;> simp [phases, List.filterMap_cons, h]

theorem phases_deliverSizes (sizes : List (Int × Int)) (g : Globals) :
    phases (deliverSizes sizes g).1 = [] := by
  induction sizes generalizing g with
  | nil => rfl
  | cons wh rest ih =>
    simp only [deliverSizes, phases_append, ih, List.append_nil]
    unfold sizeLambda
    split <;> simp [phases, phaseOf]

theorem phases_processInput (b : Bool) : phases (processInput b) = [] := by
  cases b <;> simp [processInput, phases, phaseOf]

theorem phases_renderQuad (g : Globals) : phases (renderQuad g).1 = [.draw] := by
  unfold renderQuad
  split <;> simp [phases, phaseOf]

theorem phases_renderCube (g : Globals) : phases (renderCube g).1 = [.draw] := by
  unfold renderCube
  split <;> simp [phases, phaseOf]

theorem phases_objectDraws (n : Nat) :
    phases (Deferred.objectDraws n) = List.replicate n .draw := by
  induction n with
  | zero => rfl
  | succ n ih =>
    simp [Deferred.objectDraws, phases_cons, phaseOf, ih, List.replicate_succ]

theorem phases_lightUniforms (k n : Nat) : phases (Deferred.lightUniforms k n) = [] := by
  induction n generalizing k with
  | zero => rfl
  | succ n ih => simp [Deferred.lightUniforms, phases_cons, phaseOf, ih]

theorem phases_lightBoxLoop (n : Nat) (g : Globals) :
    phases (Deferred.lightBoxLoop n g).1 = List.replicate n .draw := by
  induction n generalizing g with
  | zero => rfl
  | succ n ih =>
    simp [Deferred.lightBoxLoop, phases_cons, phaseOf, ih, phases_renderCube,
      List.replicate_succ]

theorem replicate_of_forall_eq (l : List Phase) (p : Phase) (h : ∀ q ∈ l, q = p) :
    ∃ a, l = List.replicate a p :=
  ⟨l.length, List.eq_replicate_iff.2 ⟨rfl, h⟩⟩

theorem postprocessing_phases_guiBlock (i : FrameInput) (g : Globals) :
    ∃ a, phases (Postprocessing.guiBlock i g).1 = List.replicate a .gui := by
  apply replicate_of_forall_eq
  unfold Postprocessing.guiBlock
  split
  · cases i.reloadClicked <;> simp [phases, phaseOf]
  · simp

theorem deferred_phases_guiBlock (i : FrameInput) (g : Globals) :
    ∃ a, phases (Deferred.guiBlock i g) = List.replicate a .gui := by
  apply replicate_of_forall_eq
  unfold Deferred.guiBlock
  split
  · cases i.reloadClicked <;> cases i.displayGBuffers <;>
      simp [phases, phaseOf, Deferred.lightingSamplers]
  · simp

theorem deferredOrig_phases_guiBlock (i : FrameInput) (g : Globals) :
    ∃ a, phases (DeferredOrig.guiBlock i g) = List.replicate a .gui := by
  apply replicate_of_forall_eq
  unfold DeferredOrig.guiBlock
  split
  · cases i.reloadClicked <;> cases i.displayGBuffers <;>
      simp [phases, phaseOf, Deferred.lightingSamplers]
  · simp

theorem raytracing_phases_guiBlock (i : FrameInput) (g : Globals) :
    ∃ a, phases (Raytracing.guiBlock i g) = List.replicate a .gui := by
  apply replicate_of_forall_eq
  unfold Raytracing.guiBlock
  cases g.gui <;> cases i.reloadClicked <;> simp [phases, phaseOf]

theorem envmapping_phases_guiBlock (i : FrameInput) (g : Globals) :
    ∃ a, phases (Envmapping.guiBlock i g) = List.replicate a .gui := by
  apply replicate_of_forall_eq
  unfold Envmapping.guiBlock
  split
  · cases i.reloadClicked <;> cases i.modelChanged <;> cases i.skyboxChanged <;>
      simp [phases, phaseOf]
  · simp

theorem postprocessing_frame_order (i : FrameInput) (g : Globals) :
    pollGuiDrawSwap (phases (Postprocessing.frame i g).1) ∧
    (phases (Postprocessing.frame i g).1).count .poll = 1 ∧
    (phases (Postprocessing.frame i g).1).count .swap = 1 := by
  obtain ⟨a, ha⟩ := postprocessing_phases_guiBlock i (deliverSizes i.sizes g).2
  simp only [Postprocessing.frame, Postprocessing.render, phases_append, phases_cons,
    phases_nil, phases_deliverSizes, phases_processInput, phases_renderQuad, ha]
  cases i.showWireframe <;>
    cases (Postprocessing.guiBlock i (deliverSizes i.sizes g).2).2.gui <;>
    simp [pollGuiDrawSwap, phases_cons, phaseOf, List.pairwise_append, guiRank,
      List.count_replicate]


theorem deferred_frame_order (i : FrameInput) (g : Globals) :
    pollGuiDrawSwap (phases (Deferred.frame i g).1) ∧
    (phases (Deferred.frame i g).1).count .poll = 1 ∧
    (phases (Deferred.frame i g).1).count .swap = 1 := by
  obtain ⟨a, ha⟩ := deferred_phases_guiBlock i (deliverSizes i.sizes g).2
  simp only [Deferred.frame, Deferred.render, Deferred.geometryPass, Deferred.debugPass,
    Deferred.shadedPasses, Deferred.lightingQuad, Deferred.lightBoxes, Deferred.vignettePass,
    Deferred.bindGBufferTextures, phases_append, phases_cons, phases_nil,
    phases_deliverSizes, phases_processInput, phases_objectDraws, ha]
  cases i.displayGBuffers <;> cases (deliverSizes i.sizes g).2.gui <;>
    simp [pollGuiDrawSwap, phases_cons, phaseOf, List.pairwise_append, guiRank,
      List.count_replicate, phases_renderQuad, phases_lightUniforms, phases_lightBoxLoop] <;>
    aesop

theorem deferredOrig_frame_order (i : FrameInput) (g : Globals) :
    pollGuiDrawSwap (phases (DeferredOrig.frame i g).1) ∧
    (phases (DeferredOrig.frame i g).1).count .poll = 1 ∧
    (phases (DeferredOrig.frame i g).1).count .swap = 1 := by
  obtain ⟨a, ha⟩ := deferredOrig_phases_guiBlock i (deliverSizes i.sizes g).2
  simp only [DeferredOrig.frame, DeferredOrig.render, Deferred.geometryPass,
    Deferred.debugPass, DeferredOrig.shadedPasses, Deferred.lightingQuad,
    DeferredOrig.lightBoxes, DeferredOrig.depthBlit, Deferred.bindGBufferTextures,
    phases_append, phases_cons, phases_nil,
    phases_deliverSizes, phases_processInput, phases_objectDraws, ha]
  cases i.displayGBuffers <;> cases (deliverSizes i.sizes g).2.gui <;>
    simp [pollGuiDrawSwap, phases_cons, phaseOf, List.pairwise_append, guiRank,
      List.count_replicate, phases_renderQuad, phases_lightUniforms, phases_lightBoxLoop] <;>
    aesop

theorem raytracing_frame_order (i : FrameInput) (g : Globals) :
    pollGuiDrawSwap (phases (Raytracing.frame i g).1) ∧
    (phases (Raytracing.frame i g).1).count .poll = 1 ∧
    (phases (Raytracing.frame i g).1).count .swap = 1 := by
  obtain ⟨a, ha⟩ := raytracing_phases_guiBlock i (deliverSizes i.sizes g).2
  simp only [Raytracing.frame, phases_append, phases_cons, phases_nil,
    phases_deliverSizes, phases_processInput, phases_renderQuad, ha]
  cases i.animateLight <;> cases (deliverSizes i.sizes g).2.gui <;>
    simp [pollGuiDrawSwap, phases_cons, phaseOf, List.pairwise_append, guiRank,
      List.count_replicate]

theorem envmapping_frame_order (i : FrameInput) (g : Globals) :
    pollGuiDrawSwap (phases (Envmapping.frame i g).1) ∧
    (phases (Envmapping.frame i g).1).count .poll = 1 ∧
    (phases (Envmapping.frame i g).1).count .swap = 1 := by
  obtain ⟨a, ha⟩ := envmapping_phases_guiBlock i (deliverSizes i.sizes g).2
  simp only [Envmapping.frame, phases_append, phases_cons, phases_nil,
    phases_deliverSizes, phases_processInput, ha]
  cases i.rotateModel <;> cases (deliverSizes i.sizes g).2.gui <;>
    simp [pollGuiDrawSwap, phases_cons, phaseOf, List.pairwise_append, guiRank,
      List.count_replicate]

/-! ## Completeness checks: messages, rebinding, and the loop -/

theorem not_mem_of_filter_isPrint (x : Cmd) (l : List Cmd) (hx : isPrint x = true)
    (h : x ∉ l.filter isPrint) : x ∉ l := fun hm => h (List.mem_filter.2 ⟨hm, hx⟩)

theorem postprocessing_message_iff (e : InitEnv) (names : Nat → Nat)
    (frames : List FrameInput) :
    Cmd.print .cout "ERROR::FRAMEBUFFER:: Framebuffer is not complete!" ∈
        (Postprocessing.main e names frames).1 ↔
      e.status1 ≠ GL_FRAMEBUFFER_COMPLETE := by
  constructor
  · intro hmem c1
    refine not_mem_of_filter_isPrint _ _ ?_ ?_ hmem
    · rfl
    · simp only [Postprocessing.main, Postprocessing.prelude, List.filter_append,
        filter_isPrint_of_setupOnly _ (postprocessing_filter_setupOnly_loop _ _)]
      unfold Postprocessing.framebufferSetup Postprocessing.startup InitWindowAndGUI InitWindow
      cases e.windowOk <;> cases e.gladOk <;> simp [c1, isPrint]
  · intro h
    simp [Postprocessing.main, Postprocessing.prelude, Postprocessing.framebufferSetup, h]

theorem deferred_message_iff (e : InitEnv) (names : Nat → Nat) (frames : List FrameInput)
    (hg : e.gladOk2 = true) :
    (Cmd.print .cout "GBuffer Framebuffer not complete!" ∈ (Deferred.main e names frames).1 ↔
      e.status1 ≠ GL_FRAMEBUFFER_COMPLETE) ∧
    (Cmd.print .cout "Postprocessing framebuffer not complete!" ∈
        (Deferred.main e names frames).1 ↔
      e.status2 ≠ GL_FRAMEBUFFER_COMPLETE) := by
  constructor
  · constructor
    · intro hmem c1
      refine not_mem_of_filter_isPrint _ _ ?_ ?_ hmem
      · rfl
      · simp only [Deferred.main, Deferred.prelude, hg, Bool.true_eq_false, if_false,
          List.filter_append,
          filter_isPrint_of_setupOnly _ (deferred_filter_setupOnly_loop _ _)]
        unfold Deferred.targets Deferred.gBufferSetup Deferred.ppSetup Deferred.startup
          InitWindowAndGUI InitWindow
        cases e.windowOk <;> cases e.gladOk <;>
          by_cases c2 : e.status2 = GL_FRAMEBUFFER_COMPLETE <;>
          simp [c1, c2, isPrint, Deferred.resources, Deferred.lightingSamplers]
    · intro h
      simp [Deferred.main, hg, Deferred.prelude, Deferred.targets, Deferred.gBufferSetup, h]
  · constructor
    · intro hmem c2
      refine not_mem_of_filter_isPrint _ _ ?_ ?_ hmem
      · rfl
      · simp only [Deferred.main, Deferred.prelude, hg, Bool.true_eq_false, if_false,
          List.filter_append,
          filter_isPrint_of_setupOnly _ (deferred_filter_setupOnly_loop _ _)]
        unfold Deferred.targets Deferred.gBufferSetup Deferred.ppSetup Deferred.startup
          InitWindowAndGUI InitWindow
        cases e.windowOk <;> cases e.gladOk <;>
          by_cases c1 : e.status1 = GL_FRAMEBUFFER_COMPLETE <;>
          simp [c1, c2, isPrint, Deferred.resources, Deferred.lightingSamplers]
    · intro h
      simp [Deferred.main, hg, Deferred.prelude, Deferred.targets, Deferred.ppSetup, h]

theorem deferredOrig_message_iff (e : InitEnv) (names : Nat → Nat) (frames : List FrameInput)
    (hg : e.gladOk2 = true) :
    Cmd.print .cout "Framebuffer not complete!" ∈ (DeferredOrig.main e names frames).1 ↔
      e.status1 ≠ GL_FRAMEBUFFER_COMPLETE := by
  constructor
  · intro hmem c1
    refine not_mem_of_filter_isPrint _ _ ?_ ?_ hmem
    · rfl
    · simp only [DeferredOrig.main, DeferredOrig.prelude, hg, Bool.true_eq_false, if_false,
        List.filter_append,
        filter_isPrint_of_setupOnly _ (deferredOrig_filter_setupOnly_loop _ _)]
      unfold DeferredOrig.targets Deferred.gBufferSetup Deferred.startup
        InitWindowAndGUI InitWindow
      cases e.windowOk <;> cases e.gladOk <;>
        simp [c1, isPrint, DeferredOrig.resources, Deferred.lightingSamplers]
  · intro h
    simp [DeferredOrig.main, hg, DeferredOrig.prelude, DeferredOrig.targets,
      Deferred.gBufferSetup, h]

theorem postprocessing_rebind (m : ModelEffect) (s : GLState) (e : InitEnv) (g : Globals) :
    (exec m s (Postprocessing.framebufferSetup e g)).drawFbo = .default ∧
    (exec m s (Postprocessing.framebufferSetup e g)).readFbo = .default := by
  unfold Postprocessing.framebufferSetup
  simp only [exec_append, exec_cons, exec_nil, step]
  exact ⟨trivial, trivial⟩

theorem deferred_rebind (m : ModelEffect) (s : GLState) (e : InitEnv) (g : Globals)
    (msg : String) :
    ((exec m s (Deferred.gBufferSetup e g msg)).drawFbo = .default ∧
      (exec m s (Deferred.gBufferSetup e g msg)).readFbo = .default) ∧
    ((exec m s (Deferred.ppSetup e g)).drawFbo = .default ∧
      (exec m s (Deferred.ppSetup e g)).readFbo = .default) := by
  unfold Deferred.gBufferSetup Deferred.ppSetup
  simp only [exec_append, exec_cons, exec_nil, step]
  exact ⟨⟨trivial, trivial⟩, ⟨trivial, trivial⟩⟩

theorem length_filter_isPoll (cs : List Cmd) :
    (cs.filter isPoll).length = (phases cs).count .poll := by
  induction cs with
  | nil => rfl
  | cons c cs ih =>
    rw [phases_cons, List.count_append, ← ih]
    cases c <;> simp [isPoll, phaseOf, List.filter_cons]
    omega

theorem length_filter_isSwap (cs : List Cmd) :
    (cs.filter isSwap).length = (phases cs).count .swap := by
  induction cs with
  | nil => rfl
  | cons c cs ih =>
    rw [phases_cons, List.count_append, ← ih]
    cases c <;> simp [isSwap, phaseOf, List.filter_cons]
    omega

theorem postprocessing_loop_cons (i : FrameInput) (rest : List FrameInput) (g : Globals) :
    (Postprocessing.loop (i :: rest) g).1 =
      (Postprocessing.frame i g).1 ++
        (if i.escPressed then [] else (Postprocessing.loop rest (Postprocessing.frame i g).2).1) := by
  cases h : i.escPressed <;> simp [Postprocessing.loop, h]

theorem deferred_loop_cons (i : FrameInput) (rest : List FrameInput) (g : Globals) :
    (Deferred.loop (i :: rest) g).1 =
      (Deferred.frame i g).1 ++
        (if i.escPressed then [] else (Deferred.loop rest (Deferred.frame i g).2).1) := by
  cases h : i.escPressed <;> simp [Deferred.loop, h]

theorem deferredOrig_loop_cons (i : FrameInput) (rest : List FrameInput) (g : Globals) :
    (DeferredOrig.loop (i :: rest) g).1 =
      (DeferredOrig.frame i g).1 ++
        (if i.escPressed then []
          else (DeferredOrig.loop rest (DeferredOrig.frame i g).2).1) := by
  cases h : i.escPressed <;> simp [DeferredOrig.loop, h]

theorem postprocessing_loop_iterations (frames : List FrameInput) (g : Globals)
    (hesc : ∀ i ∈ frames, i.escPressed = false) :
    ((Postprocessing.loop frames g).1.filter isPoll).length = frames.length ∧
    ((Postprocessing.loop frames g).1.filter isSwap).length = frames.length := by
  induction frames generalizing g with
  | nil => exact ⟨rfl, rfl⟩
  | cons i rest ih =>
    have hi : i.escPressed = false := hesc i (List.mem_cons_self _ _)
    have hr := ih (Postprocessing.frame i g).2 (fun j hj => hesc j (List.mem_cons_of_mem _ hj))
    have hf := postprocessing_frame_order i g
    rw [postprocessing_loop_cons]
    simp only [hi, Bool.false_eq_true, if_false, List.filter_append, List.length_append,
      List.length_cons, hr.1, hr.2, length_filter_isPoll (Postprocessing.frame i g).1,
      length_filter_isSwap (Postprocessing.frame i g).1, hf.2.1, hf.2.2]
    omega

theorem deferred_loop_iterations (frames : List FrameInput) (g : Globals)
    (hesc : ∀ i ∈ frames, i.escPressed = false) :
    ((Deferred.loop frames g).1.filter isPoll).length = frames.length ∧
    ((Deferred.loop frames g).1.filter isSwap).length = frames.length := by
  induction frames generalizing g with
  | nil => exact ⟨rfl, rfl⟩
  | cons i rest ih =>
    have hi : i.escPressed = false := hesc i (List.mem_cons_self _ _)
    have hr := ih (Deferred.frame i g).2 (fun j hj => hesc j (List.mem_cons_of_mem _ hj))
    have hf := deferred_frame_order i g
    rw [deferred_loop_cons]
    simp only [hi, Bool.false_eq_true, if_false, List.filter_append, List.length_append,
      List.length_cons, hr.1, hr.2, length_filter_isPoll (Deferred.frame i g).1,
      length_filter_isSwap (Deferred.frame i g).1, hf.2.1, hf.2.2]
    omega

theorem deferredOrig_loop_iterations (frames : List FrameInput) (g : Globals)
    (hesc : ∀ i ∈ frames, i.escPressed = false) :
    ((DeferredOrig.loop frames g).1.filter isPoll).length = frames.length ∧
    ((DeferredOrig.loop frames g).1.filter isSwap).length = frames.length := by
  induction frames generalizing g with
  | nil => exact ⟨rfl, rfl⟩
  | cons i rest ih =>
    have hi : i.escPressed = false := hesc i (List.mem_cons_self _ _)
    have hr := ih (DeferredOrig.frame i g).2 (fun j hj => hesc j (List.mem_cons_of_mem _ hj))
    have hf := deferredOrig_frame_order i g
    rw [deferredOrig_loop_cons]
    simp only [hi, Bool.false_eq_true, if_false, List.filter_append, List.length_append,
      List.length_cons, hr.1, hr.2, length_filter_isPoll (DeferredOrig.frame i g).1,
      length_filter_isSwap (DeferredOrig.frame i g).1, hf.2.1, hf.2.2]
    omega

theorem postprocessing_prelude_no_iteration (e : InitEnv) (names : Nat → Nat) :
    (Postprocessing.prelude e names).1.filter isPoll = [] ∧
    (Postprocessing.prelude e names).1.filter isSwap = [] := by
  unfold Postprocessing.prelude Postprocessing.framebufferSetup Postprocessing.startup
    InitWindowAndGUI InitWindow
  by_cases c1 : e.status1 = GL_FRAMEBUFFER_COMPLETE <;>
    cases e.windowOk <;> cases e.gladOk <;> simp [c1, isPoll, isSwap]

theorem deferred_prelude_no_iteration (e : InitEnv) (names : Nat → Nat) :
    (Deferred.prelude e names).1.filter isPoll = [] ∧
    (Deferred.prelude e names).1.filter isSwap = [] := by
  unfold Deferred.prelude Deferred.targets Deferred.gBufferSetup Deferred.ppSetup
    Deferred.startup InitWindowAndGUI InitWindow
  by_cases c1 : e.status1 = GL_FRAMEBUFFER_COMPLETE <;>
    by_cases c2 : e.status2 = GL_FRAMEBUFFER_COMPLETE <;>
    cases e.windowOk <;> cases e.gladOk <;>
    simp [c1, c2, isPoll, isSwap, Deferred.resources, Deferred.lightingSamplers]

theorem deferredOrig_prelude_no_iteration (e : InitEnv) (names : Nat → Nat) :
    (DeferredOrig.prelude e names).1.filter isPoll = [] ∧
    (DeferredOrig.prelude e names).1.filter isSwap = [] := by
  unfold DeferredOrig.prelude DeferredOrig.targets Deferred.gBufferSetup
    Deferred.startup InitWindowAndGUI InitWindow
  by_cases c1 : e.status1 = GL_FRAMEBUFFER_COMPLETE <;>
    cases e.windowOk <;> cases e.gladOk <;>
    simp [c1, isPoll, isSwap, DeferredOrig.resources, Deferred.lightingSamplers]

theorem postprocessing_main_iterations (e : InitEnv) (names : Nat → Nat)
    (frames : List FrameInput) (hesc : ∀ i ∈ frames, i.escPressed = false) :
    ((Postprocessing.main e names frames).1.filter isPoll).length = frames.length ∧
    ((Postprocessing.main e names frames).1.filter isSwap).length = frames.length := by
  have hp := postprocessing_prelude_no_iteration e names
  have hl := postprocessing_loop_iterations frames (Postprocessing.prelude e names).2 hesc
  simp [Postprocessing.main, List.filter_append, hp.1, hp.2, hl.1, hl.2, isPoll, isSwap]

theorem deferred_main_iterations (e : InitEnv) (names : Nat → Nat)
    (frames : List FrameInput) (hg : e.gladOk2 = true)
    (hesc : ∀ i ∈ frames, i.escPressed = false) :
    ((Deferred.main e names frames).1.filter isPoll).length = frames.length ∧
    ((Deferred.main e names frames).1.filter isSwap).length = frames.length := by
  have hp := deferred_prelude_no_iteration e names
  have hl := deferred_loop_iterations frames (Deferred.prelude e names).2 hesc
  simp [Deferred.main, hg, List.filter_append, hp.1, hp.2, hl.1, hl.2, isPoll, isSwap]

theorem deferredOrig_main_iterations (e : InitEnv) (names : Nat → Nat)
    (frames : List FrameInput) (hg : e.gladOk2 = true)
    (hesc : ∀ i ∈ frames, i.escPressed = false) :
    ((DeferredOrig.main e names frames).1.filter isPoll).length = frames.length ∧
    ((DeferredOrig.main e names frames).1.filter isSwap).length = frames.length := by
  have hp := deferredOrig_prelude_no_iteration e names
  have hl := deferredOrig_loop_iterations frames (DeferredOrig.prelude e names).2 hesc
  simp [DeferredOrig.main, hg, List.filter_append, hp.1, hp.2, hl.1, hl.2, isPoll, isSwap]

/-- C6: in the deferred and post-processing demos a completeness check prints
its message if and only if the status differs from GL_FRAMEBUFFER_COMPLETE:
the message is among the calls of main exactly in that case, and the messages
of a run are those of the run with complete targets followed by one message
for each failing check.  In both cases the run goes on in the same way: each
configuration of a render target ends with framebuffer 0 bound for drawing and
reading, whatever the state it starts in; main is its start-up followed by its
render loop and glfwTerminate, the loop runs one iteration for each input
until escape is pressed, so that inputs without escape give as many calls of
glfwPollEvents and of glfwSwapBuffers as there are inputs; and apart from the
messages the calls and the exit status are those of the run with complete
targets. -/
theorem completeness_message_only (e : InitEnv) (names : Nat → Nat)
    (frames : List FrameInput) (hg : e.gladOk2 = true) :
    ((Postprocessing.main e names frames).1.filter isPrint =
        (Postprocessing.main e.complete names frames).1.filter isPrint ++
          statusMessage e.status1 "ERROR::FRAMEBUFFER:: Framebuffer is not complete!" ∧
      (Postprocessing.main e names frames).1.filter notPrint =
        (Postprocessing.main e.complete names frames).1.filter notPrint ∧
      (Postprocessing.main e names frames).2 =
        (Postprocessing.main e.complete names frames).2) ∧
    ((Deferred.main e names frames).1.filter isPrint =
        (Deferred.main e.complete names frames).1.filter isPrint ++
          (statusMessage e.status1 "GBuffer Framebuffer not complete!" ++
           statusMessage e.status2 "Postprocessing framebuffer not complete!") ∧
      (Deferred.main e names frames).1.filter notPrint =
        (Deferred.main e.complete names frames).1.filter notPrint ∧
      (Deferred.main e names frames).2 = (Deferred.main e.complete names frames).2) ∧
    ((DeferredOrig.main e names frames).1.filter isPrint =
        (DeferredOrig.main e.complete names frames).1.filter isPrint ++
          statusMessage e.status1 "Framebuffer not complete!" ∧
      (DeferredOrig.main e names frames).1.filter notPrint =
        (DeferredOrig.main e.complete names frames).1.filter notPrint ∧
      (DeferredOrig.main e names frames).2 =
        (DeferredOrig.main e.complete names frames).2) ∧
    ((Cmd.print .cout "ERROR::FRAMEBUFFER:: Framebuffer is not complete!" ∈
          (Postprocessing.main e names frames).1 ↔
        e.status1 ≠ GL_FRAMEBUFFER_COMPLETE) ∧
      (Cmd.print .cout "GBuffer Framebuffer not complete!" ∈
          (Deferred.main e names frames).1 ↔
        e.status1 ≠ GL_FRAMEBUFFER_COMPLETE) ∧
      (Cmd.print .cout "Postprocessing framebuffer not complete!" ∈
          (Deferred.main e names frames).1 ↔
        e.status2 ≠ GL_FRAMEBUFFER_COMPLETE) ∧
      (Cmd.print .cout "Framebuffer not complete!" ∈ (DeferredOrig.main e names frames).1 ↔
        e.status1 ≠ GL_FRAMEBUFFER_COMPLETE)) ∧
    (∀ (m : ModelEffect) (s : GLState) (g : Globals),
      ((exec m s (Postprocessing.framebufferSetup e g)).drawFbo = .default ∧
        (exec m s (Postprocessing.framebufferSetup e g)).readFbo = .default) ∧
      ((exec m s (Deferred.gBufferSetup e g "GBuffer Framebuffer not complete!")).drawFbo =
          .default ∧
        (exec m s (Deferred.gBufferSetup e g "GBuffer Framebuffer not complete!")).readFbo =
          .default) ∧
      ((exec m s (Deferred.ppSetup e g)).drawFbo = .default ∧
        (exec m s (Deferred.ppSetup e g)).readFbo = .default) ∧
      ((exec m s (DeferredOrig.targets e g)).drawFbo = .default ∧
        (exec m s (DeferredOrig.targets e g)).readFbo = .default)) ∧
    ((Postprocessing.main e names frames).1 =
        (Postprocessing.prelude e names).1 ++
          (Postprocessing.loop frames (Postprocessing.prelude e names).2).1 ++
          [.glfwTerminate] ∧
      (Deferred.main e names frames).1 =
        (Deferred.prelude e names).1 ++
          (Deferred.loop frames (Deferred.prelude e names).2).1 ++ [.glfwTerminate] ∧
      (DeferredOrig.main e names frames).1 =
        (DeferredOrig.prelude e names).1 ++
          (DeferredOrig.loop frames (DeferredOrig.prelude e names).2).1 ++
          [.glfwTerminate]) ∧
    (∀ (i : FrameInput) (rest : List FrameInput) (g : Globals),
      (Postprocessing.loop (i :: rest) g).1 =
        (Postprocessing.frame i g).1 ++
          (if i.escPressed then []
            else (Postprocessing.loop rest (Postprocessing.frame i g).2).1) ∧
      (Deferred.loop (i :: rest) g).1 =
        (Deferred.frame i g).1 ++
          (if i.escPressed then [] else (Deferred.loop rest (Deferred.frame i g).2).1) ∧
      (DeferredOrig.loop (i :: rest) g).1 =
        (DeferredOrig.frame i g).1 ++
          (if i.escPressed then []
            else (DeferredOrig.loop rest (DeferredOrig.frame i g).2).1)) ∧
    ((∀ i ∈ frames, i.escPressed = false) →
      (((Postprocessing.main e names frames).1.filter isPoll).length = frames.length ∧
        ((Postprocessing.main e names frames).1.filter isSwap).length = frames.length) ∧
      (((Deferred.main e names frames).1.filter isPoll).length = frames.length ∧
        ((Deferred.main e names frames).1.filter isSwap).length = frames.length) ∧
      (((DeferredOrig.main e names frames).1.filter isPoll).length = frames.length ∧
        ((DeferredOrig.main e names frames).1.filter isSwap).length = frames.length)) := by
  refine ⟨⟨postprocessing_filter_isPrint_main e names frames,
      postprocessing_filter_notPrint_main e names frames, rfl⟩,
    ⟨deferred_filter_isPrint_main e names frames hg,
      deferred_filter_notPrint_main e names frames,
      by simp [Deferred.main, hg, InitEnv.complete]⟩,
    ⟨deferredOrig_filter_isPrint_main e names frames hg,
      deferredOrig_filter_notPrint_main e names frames,
      by simp [DeferredOrig.main, hg, InitEnv.complete]⟩,
    ⟨postprocessing_message_iff e names frames, (deferred_message_iff e names frames hg).1,
      (deferred_message_iff e names frames hg).2, deferredOrig_message_iff e names frames hg⟩,
    fun m s g => ⟨postprocessing_rebind m s e g, (deferred_rebind m s e g _).1,
      (deferred_rebind m s e g "").2, (deferred_rebind m s e g _).1⟩,
    ⟨rfl, by simp [Deferred.main, hg], by simp [DeferredOrig.main, hg]⟩,
    fun i rest g => ⟨postprocessing_loop_cons i rest g, deferred_loop_cons i rest g,
      deferredOrig_loop_cons i rest g⟩,
    fun hesc => ⟨postprocessing_main_iterations e names frames hesc,
      deferred_main_iterations e names frames hg hesc,
      deferredOrig_main_iterations e names frames hg hesc⟩⟩

/-- Witness of C6: the run of the deferred demo whose first completeness
check answers GL_FRAMEBUFFER_UNSUPPORTED, over one input without escape,
prints exactly one message more than the run with complete targets, the
message of the first check and not that of the second, and runs one
iteration of its loop. -/
theorem completeness_message_only_witness :
    InitEnv.unsupported.gladOk2 = true ∧
    (∀ i ∈ [FrameInput.quiet], i.escPressed = false) ∧
    (Deferred.main InitEnv.unsupported (fun k => k + 1) [FrameInput.quiet]).1.filter isPrint =
      (Deferred.main InitEnv.unsupported.complete (fun k => k + 1)
        [FrameInput.quiet]).1.filter isPrint ++
          (statusMessage GL_FRAMEBUFFER_UNSUPPORTED "GBuffer Framebuffer not complete!" ++
           statusMessage GL_FRAMEBUFFER_COMPLETE "Postprocessing framebuffer not complete!") ∧
    Cmd.print .cout "GBuffer Framebuffer not complete!" ∈
      (Deferred.main InitEnv.unsupported (fun k => k + 1) [FrameInput.quiet]).1 ∧
    Cmd.print .cout "Postprocessing framebuffer not complete!" ∉
      (Deferred.main InitEnv.unsupported (fun k => k + 1) [FrameInput.quiet]).1 ∧
    ((Deferred.main InitEnv.unsupported (fun k => k + 1) [FrameInput.quiet]).1.filter
      isSwap).length = 1 := by
  have hq : ∀ i ∈ [FrameInput.quiet], i.escPressed = false := by
    intro i hi
    rw [List.mem_singleton.1 hi]
    rfl
  have h := completeness_message_only InitEnv.unsupported (fun k => k + 1) [FrameInput.quiet]
    rfl
  exact ⟨rfl, hq, h.2.1.1, h.2.2.2.1.2.1.2 (by decide),
    fun hm => h.2.2.2.1.2.2.1.1 hm rfl, (h.2.2.2.2.2.2.2 hq).2.1.2⟩

theorem phases_pandaSizes (sizes : List (Int × Int)) :
    phases (sizes.flatMap Panda.framebuffer_size_callback) = [] := by
  induction sizes with
  | nil => rfl
  | cons wh rest ih =>
    simp [List.flatMap_cons, Panda.framebuffer_size_callback, phases_cons, phaseOf, ih]

theorem panda_frame_phases (vao : Nat) (i : FrameInput) :
    phases (Panda.frame vao i) = [.draw, .draw, .swap, .poll] := by
  simp only [Panda.frame, Panda.renderScene, Panda.processInput, phases_append,
    phases_pandaSizes]
  cases i.escPressed <;> simp [phases_cons, phaseOf]

theorem animatedPanda_frame_phases (e : PandaEnv) (i : FrameInput) :
    phases (AnimatedPanda.frame e i) = List.replicate 12 .draw ++ [.swap, .poll] := by
  simp only [AnimatedPanda.frame, AnimatedPanda.drawPart, AnimatedPanda.sendModel,
    Panda.processInput, phases_append, phases_pandaSizes]
  cases i.escPressed <;> simp [phases_cons, phaseOf, List.replicate]


/-- C9, counterexample: an iteration of the render loop of the static panda
clears and draws, then swaps buffers, and polls the events last, so its steps
are not in the order poll, GUI, draw, swap. -/
theorem panda_polls_after_swap :
    phases (Panda.frame (PandaEnv.good.names 0) FrameInput.quiet) =
      [.draw, .draw, .swap, .poll] ∧
    ¬ pollGuiDrawSwap (phases (Panda.frame (PandaEnv.good.names 0) FrameInput.quiet)) := by
  constructor
  · decide
  · decide

/-- C9, amended: in the five demos with a GUI (post-processing, the two
deferred demos, ray tracing, environment mapping) every iteration of the
render loop polls the events, then updates the GUI-bound parameters, then
issues the drawing commands, and swaps buffers last; in the two panda
programs every iteration issues the drawing commands, then swaps buffers, and
polls the events last; in every demo glfwPollEvents and glfwSwapBuffers are
called exactly once per iteration. -/
theorem iteration_step_order (i : FrameInput) (g : Globals) (e : PandaEnv) (vao : Nat) :
    (pollGuiDrawSwap (phases (Postprocessing.frame i g).1) ∧
      (phases (Postprocessing.frame i g).1).count .poll = 1 ∧
      (phases (Postprocessing.frame i g).1).count .swap = 1) ∧
    (pollGuiDrawSwap (phases (Deferred.frame i g).1) ∧
      (phases (Deferred.frame i g).1).count .poll = 1 ∧
      (phases (Deferred.frame i g).1).count .swap = 1) ∧
    (pollGuiDrawSwap (phases (DeferredOrig.frame i g).1) ∧
      (phases (DeferredOrig.frame i g).1).count .poll = 1 ∧
      (phases (DeferredOrig.frame i g).1).count .swap = 1) ∧
    (pollGuiDrawSwap (phases (Raytracing.frame i g).1) ∧
      (phases (Raytracing.frame i g).1).count .poll = 1 ∧
      (phases (Raytracing.frame i g).1).count .swap = 1) ∧
    (pollGuiDrawSwap (phases (Envmapping.frame i g).1) ∧
      (phases (Envmapping.frame i g).1).count .poll = 1 ∧
      (phases (Envmapping.frame i g).1).count .swap = 1) ∧
    (drawSwapPoll (phases (Panda.frame vao i)) ∧
      (phases (Panda.frame vao i)).count .poll = 1 ∧
      (phases (Panda.frame vao i)).count .swap = 1) ∧
    (drawSwapPoll (phases (AnimatedPanda.frame e i)) ∧
      (phases (AnimatedPanda.frame e i)).count .poll = 1 ∧
      (phases (AnimatedPanda.frame e i)).count .swap = 1) := by
  refine ⟨postprocessing_frame_order i g, deferred_frame_order i g,
    deferredOrig_frame_order i g, raytracing_frame_order i g, envmapping_frame_order i g,
    ?_, ?_⟩
  · rw [panda_frame_phases]
    decide
  · rw [animatedPanda_frame_phases]
    decide


/-! ## Start-up failures of the panda programs -/

theorem panda_main_failure (e : PandaEnv) (frames : List FrameInput)
    (h : ¬ (e.glfwOk = true ∧ e.windowOk = true ∧ e.gladOk = true)) :
    (Panda.main e frames).2 = -1 ∧
    (∃ msg, (Panda.main e frames).1.filter isPrint = [.print .cerr msg]) ∧
    (Panda.main e frames).1.filter createsObject = [] ∧
    phases (Panda.main e frames).1 = [] := by
  unfold Panda.main
  cases h1 : e.glfwOk <;> cases h2 : e.windowOk <;> cases h3 : e.gladOk <;>
    first
      | (exfalso; exact h ⟨h1, h2, h3⟩)
      | exact ⟨rfl, ⟨_, rfl⟩, rfl, rfl⟩

theorem animatedPanda_main_failure (e : PandaEnv) (frames : List FrameInput)
    (h : ¬ (e.glfwOk = true ∧ e.windowOk = true ∧ e.gladOk = true)) :
    (AnimatedPanda.main e frames).2 = -1 ∧
    (∃ msg, (AnimatedPanda.main e frames).1.filter isPrint = [.print .cerr msg]) ∧
    (AnimatedPanda.main e frames).1.filter createsObject = [] ∧
    phases (AnimatedPanda.main e frames).1 = [] := by
  unfold AnimatedPanda.main
  cases h1 : e.glfwOk <;> cases h2 : e.windowOk <;> cases h3 : e.gladOk <;>
    first
      | (exfalso; exact h ⟨h1, h2, h3⟩)
      | exact ⟨rfl, ⟨_, rfl⟩, rfl, rfl⟩

theorem panda_main_success (e : PandaEnv) (frames : List FrameInput)
    (h : (Panda.main e frames).2 = 0) :
    (e.glfwOk = true ∧ e.windowOk = true ∧ e.gladOk = true) ∧
    ∃ before, (Panda.main e frames).1 =
      before ++ Panda.loop (e.names 0) frames ++
        [ .deleteVertexArrays (e.names 0), .deleteBuffers (e.names 1),
          .deleteBuffers (e.names 2), .glfwTerminate ] := by
  unfold Panda.main at h ⊢
  cases h1 : e.glfwOk <;> cases h2 : e.windowOk <;> cases h3 : e.gladOk <;>
    simp [h1, h2, h3] at h ⊢
  exact ⟨[ .glfwInit,
      .glfwWindowHint "GLFW_CONTEXT_VERSION_MAJOR",
      .glfwWindowHint "GLFW_CONTEXT_VERSION_MINOR",
      .glfwWindowHint "GLFW_OPENGL_PROFILE",
      .glfwCreateWindow 800 600 "Low-Poly Panda",
      .glfwMakeContextCurrent, .glfwSetCallback "framebuffer size",
      .gladLoadGLLoader, .viewport 0 0 800 600 ] ++ Panda.initShaders ++
      Panda.initBuffers (e.names 0) (e.names 1) (e.names 2), by simp⟩

theorem animatedPanda_main_success (e : PandaEnv) (frames : List FrameInput)
    (h : (AnimatedPanda.main e frames).2 = 0) :
    (e.glfwOk = true ∧ e.windowOk = true ∧ e.gladOk = true) ∧
    ∃ before, (AnimatedPanda.main e frames).1 =
      before ++ AnimatedPanda.loop e frames ++
        (AnimatedPanda.deleteAll e 0 AnimatedPanda.parts ++
          [ .deleteProgram, .glfwTerminate ]) := by
  unfold AnimatedPanda.main at h ⊢
  cases h1 : e.glfwOk <;> cases h2 : e.windowOk <;> cases h3 : e.gladOk <;>
    simp [h1, h2, h3] at h ⊢
  exact ⟨[ .glfwInit,
      .glfwWindowHint "GLFW_CONTEXT_VERSION_MAJOR",
      .glfwWindowHint "GLFW_CONTEXT_VERSION_MINOR",
      .glfwWindowHint "GLFW_OPENGL_PROFILE",
      .glfwCreateWindow 800 600 "Animated Low-Poly Panda",
      .glfwMakeContextCurrent, .glfwSetCallback "framebuffer size",
      .glfwSetCallback "cursor pos", .gladLoadGLLoader ] ++
      AnimatedPanda.createShaderProgram e ++
      [ .useProgram .shaderProgram, .enable .blend, .blendFunc ] ++
      AnimatedPanda.setupAll e 0 AnimatedPanda.parts ++
      [ .getUniformLocation "model", .getUniformLocation "view",
        .getUniformLocation "projection",
        .uniform .shaderProgram "projection", .uniform .shaderProgram "view" ], by simp⟩


/-- C10: in the two panda programs, if glfwInit, the creation of the window
or the loading of the OpenGL functions fails, main prints one message on
cerr and returns -1 without creating a shader, a program, a vertex array or
a buffer and without any step of a loop iteration; main returns 0 only in a
run in which all three succeeded, after the whole render loop and the
clean-up that follows it. -/
theorem panda_startup (e : PandaEnv) (frames : List FrameInput) :
    (¬ (e.glfwOk = true ∧ e.windowOk = true ∧ e.gladOk = true) →
      ((Panda.main e frames).2 = -1 ∧
        (∃ msg, (Panda.main e frames).1.filter isPrint = [.print .cerr msg]) ∧
        (Panda.main e frames).1.filter createsObject = [] ∧
        phases (Panda.main e frames).1 = []) ∧
      ((AnimatedPanda.main e frames).2 = -1 ∧
        (∃ msg, (AnimatedPanda.main e frames).1.filter isPrint = [.print .cerr msg]) ∧
        (AnimatedPanda.main e frames).1.filter createsObject = [] ∧
        phases (AnimatedPanda.main e frames).1 = [])) ∧
    ((Panda.main e frames).2 = 0 →
      (e.glfwOk = true ∧ e.windowOk = true ∧ e.gladOk = true) ∧
      ∃ before, (Panda.main e frames).1 =
        before ++ Panda.loop (e.names 0) frames ++
          [ .deleteVertexArrays (e.names 0), .deleteBuffers (e.names 1),
            .deleteBuffers (e.names 2), .glfwTerminate ]) ∧
    ((AnimatedPanda.main e frames).2 = 0 →
      (e.glfwOk = true ∧ e.windowOk = true ∧ e.gladOk = true) ∧
      ∃ before, (AnimatedPanda.main e frames).1 =
        before ++ AnimatedPanda.loop e frames ++
          (AnimatedPanda.deleteAll e 0 AnimatedPanda.parts ++
            [ .deleteProgram, .glfwTerminate ])) :=
  ⟨fun h => ⟨panda_main_failure e frames h, animatedPanda_main_failure e frames h⟩,
    panda_main_success e frames, animatedPanda_main_success e frames⟩

/-- Witness of C10: a run in which the loading of the OpenGL functions fails,
and a run of one iteration in which start-up succeeds. -/
theorem panda_startup_witness :
    (¬ (PandaEnv.noGlad.glfwOk = true ∧ PandaEnv.noGlad.windowOk = true ∧
        PandaEnv.noGlad.gladOk = true) ∧
      (Panda.main PandaEnv.noGlad [FrameInput.quiet]).2 = -1 ∧
      phases (AnimatedPanda.main PandaEnv.noGlad [FrameInput.quiet]).1 = []) ∧
    ((Panda.main PandaEnv.good [FrameInput.quiet]).2 = 0 ∧
      (AnimatedPanda.main PandaEnv.good [FrameInput.quiet]).2 = 0 ∧
      PandaEnv.good.gladOk = true) := by
  have hbad : ¬ (PandaEnv.noGlad.glfwOk = true ∧ PandaEnv.noGlad.windowOk = true ∧
      PandaEnv.noGlad.gladOk = true) := by decide
  have h1 := (panda_startup PandaEnv.noGlad [FrameInput.quiet]).1 hbad
  have h2 := (panda_startup PandaEnv.good [FrameInput.quiet]).2.1 rfl
  have h3 := (panda_startup PandaEnv.good [FrameInput.quiet]).2.2 rfl
  exact ⟨⟨hbad, h1.1.1, h1.2.2.2.2⟩, ⟨rfl, rfl, h3.1.2.2⟩⟩

/-! ## Start-up failures of the demos built on `InitWindowAndGUI` -/

/-- C11, the code at the failing inputs: when glfwCreateWindow returns no
window, or when the loading of the OpenGL functions fails, InitWindowAndGUI
prints its message and returns -1, and main of the ray-tracing and of the
environment-mapping demo goes on all the same: it registers its four
callbacks, issues its OpenGL state calls, runs the iteration its loop is
given and returns 0. -/
theorem init_failure_ignored :
    ((InitWindowAndGUI InitEnv.noWindow Globals.demo 1280 720 "Raytracing").1.2 = -1 ∧
      (InitWindowAndGUI InitEnv.noGlad Globals.demo 1280 720 "Raytracing").1.2 = -1) ∧
    ((Raytracing.main InitEnv.noWindow (fun k => k + 1) [FrameInput.quiet]).1.filter isPrint =
        [.print .cout "Failed to create GLFW window"] ∧
      ((Raytracing.main InitEnv.noWindow (fun k => k + 1)
        [FrameInput.quiet]).1.filter registersCallback).length = 4 ∧
      ((Raytracing.main InitEnv.noWindow (fun k => k + 1) [FrameInput.quiet]).1.filter
        isStateCall).take 2 = [.polygonMode .fill, .viewport 0 0 1280 720] ∧
      phases (Raytracing.main InitEnv.noWindow (fun k => k + 1) [FrameInput.quiet]).1 =
        [.poll, .draw, .draw, .swap] ∧
      (Raytracing.main InitEnv.noWindow (fun k => k + 1) [FrameInput.quiet]).2 = 0) ∧
    ((Envmapping.main InitEnv.noGlad (fun k => k + 1) [FrameInput.quiet]).1.filter isPrint =
        [.print .cout "Failed to initialize GLAD"] ∧
      ((Envmapping.main InitEnv.noGlad (fun k => k + 1)
        [FrameInput.quiet]).1.filter registersCallback).length = 4 ∧
      ((Envmapping.main InitEnv.noGlad (fun k => k + 1) [FrameInput.quiet]).1.filter
        isStateCall).take 2 = [.useProgram .myShader, .enable .depthTest] ∧
      phases (Envmapping.main InitEnv.noGlad (fun k => k + 1) [FrameInput.quiet]).1 =
        [.poll, .draw, .draw, .draw, .swap] ∧
      (Envmapping.main InitEnv.noGlad (fun k => k + 1) [FrameInput.quiet]).2 = 0) := by
  refine ⟨⟨rfl, rfl⟩, ⟨rfl, rfl, rfl, rfl, rfl⟩, ⟨rfl, rfl, rfl, rfl, rfl⟩⟩

/-! ## The animated panda has the geometry of the static one -/

/-- C12: the eleven vertex lists of the animated panda, put one after the
other in the order head, left ear, right ear, left eye, right eye, nose,
body, left arm, right arm, left leg, right leg, are the 43 entries of the
list vertices of the static panda, and the local indices of the parts, each
raised by the number of vertices before its part, are its list indices. -/
theorem animated_geometry_is_static_geometry :
    mergedVertices AnimatedPanda.parts = Panda.vertices ∧
    Panda.vertices.length = 43 ∧
    mergedIndices 0 AnimatedPanda.parts = Panda.indices := by
  refine ⟨?_, rfl, ?_⟩
  · norm_num [mergedVertices, AnimatedPanda.parts, Panda.vertices,
      AnimatedPanda.headVertices, AnimatedPanda.leftEarVertices,
      AnimatedPanda.rightEarVertices, AnimatedPanda.leftEyeVertices,
      AnimatedPanda.rightEyeVertices, AnimatedPanda.noseVertices,
      AnimatedPanda.bodyVertices, AnimatedPanda.leftArmVertices,
      AnimatedPanda.rightArmVertices, AnimatedPanda.leftLegVertices,
      AnimatedPanda.rightLegVertices]
  · decide

/-! ## The transformations of the animated panda -/

theorem glmPiFloat_gt_pi : Real.pi < (glmPiFloat : ℝ) := by
  have h := Real.pi_lt_d20
  have e : ((glmPiFloat : ℚ) : ℝ) = 13176795 / 4194304 := by
    norm_num [glmPiFloat]
  rw [e]
  norm_num at h ⊢
  linarith

theorem glmPiFloat_sub_pi_lt : (glmPiFloat : ℝ) - Real.pi < 1 / 10 ^ 7 := by
  have h := Real.pi_gt_d20
  have e : ((glmPiFloat : ℚ) : ℝ) = 13176795 / 4194304 := by
    norm_num [glmPiFloat]
  rw [e]
  norm_num at h ⊢
  linarith

theorem sin_glmPiFloat_neg : Real.sin (glmPiFloat : ℝ) < 0 := by
  have h1 := glmPiFloat_gt_pi
  have h2 := glmPiFloat_sub_pi_lt
  have h3 := Real.pi_gt_three
  have hpos : 0 < Real.sin ((glmPiFloat : ℝ) - Real.pi) :=
    Real.sin_pos_of_pos_of_lt_pi (by linarith) (by norm_num at h2; linarith)
  rw [Real.sin_sub_pi] at hpos
  linarith

theorem sin_add_glmPiFloat (x : ℝ) :
    |Real.sin (x + (glmPiFloat : ℝ)) + Real.sin x| ≤ (glmPiFloat : ℝ) - Real.pi := by
  have h1 := glmPiFloat_gt_pi
  have e : Real.sin (x + (glmPiFloat : ℝ)) + Real.sin x =
      Real.sin (x + (glmPiFloat : ℝ)) - Real.sin (x + Real.pi) := by
    rw [Real.sin_add_pi]
    ring
  rw [e, Real.sin_sub_sin, abs_mul, abs_mul]
  have hs := @Real.abs_sin_le_abs ((x + (glmPiFloat : ℝ) - (x + Real.pi)) / 2)
  have hc := Real.abs_cos_le_one ((x + (glmPiFloat : ℝ) + (x + Real.pi)) / 2)
  have hd : |(x + (glmPiFloat : ℝ) - (x + Real.pi)) / 2| =
      ((glmPiFloat : ℝ) - Real.pi) / 2 := by
    rw [abs_of_pos] <;> linarith
  rw [hd] at hs
  have h2 : |(2 : ℝ)| = 2 := abs_of_pos (by norm_num)
  rw [h2]
  have hn := abs_nonneg (Real.sin ((x + (glmPiFloat : ℝ) - (x + Real.pi)) / 2))
  have hn2 := abs_nonneg (Real.cos ((x + (glmPiFloat : ℝ) + (x + Real.pi)) / 2))
  nlinarith

theorem scaled_sin_add_glmPiFloat (A x : ℝ) :
    |A * Real.sin (x + (glmPiFloat : ℝ)) - -(A * Real.sin x)| ≤
      |A| * ((glmPiFloat : ℝ) - Real.pi) := by
  have e : A * Real.sin (x + (glmPiFloat : ℝ)) - -(A * Real.sin x) =
      A * (Real.sin (x + (glmPiFloat : ℝ)) + Real.sin x) := by ring
  rw [e, abs_mul]
  exact mul_le_mul_of_nonneg_left (sin_add_glmPiFloat x) (abs_nonneg A)

theorem legSwing_add_armSwing_le (t : ℝ) :
    |AnimatedPanda.legSwing ⟨Real.sin, Real.cos, (glmPiFloat : ℝ)⟩ t +
      AnimatedPanda.armSwing ⟨Real.sin, Real.cos, (glmPiFloat : ℝ)⟩ t| ≤
      0.3 * ((glmPiFloat : ℝ) - Real.pi) := by
  have h := scaled_sin_add_glmPiFloat 0.3 (t * 3)
  rw [abs_of_pos (by norm_num : (0 : ℝ) < 0.3), sub_neg_eq_add] at h
  simpa only [AnimatedPanda.legSwing, AnimatedPanda.armSwing, AnimatedPanda.swingSpeed]
    using h

/-- C15, the code at a failing input: a cursor position of 1200, which a
window made wider than SCR_WIDTH delivers, gives normX = 2 and a head
rotation of twice maxRotation, the radians of 40 degrees. -/
theorem head_rotation_out_of_range :
    AnimatedPanda.normX (AnimatedPanda.mouse_callback AnimatedPanda.mouseStart (1200 : ℚ)) = 2 ∧
    AnimatedPanda.headRotation
      (AnimatedPanda.mouse_callback AnimatedPanda.mouseStart (1200 : ℚ)) = glmRadians 40 ∧
    (AnimatedPanda.maxRotation : ℚ) = glmRadians 20 ∧
    (AnimatedPanda.maxRotation : ℚ) <
      AnimatedPanda.headRotation
        (AnimatedPanda.mouse_callback AnimatedPanda.mouseStart (1200 : ℚ)) := by
  refine ⟨?_, ?_, rfl, ?_⟩ <;>
    norm_num [AnimatedPanda.normX, AnimatedPanda.mouse_callback, AnimatedPanda.SCR_WIDTH,
      AnimatedPanda.headRotation, AnimatedPanda.maxRotation, glmRadians]

theorem normX_in_range {K : Type} [LinearOrderedField K] (x : K) (h0 : 0 ≤ x)
    (h1 : x ≤ AnimatedPanda.SCR_WIDTH) :
    -1 ≤ AnimatedPanda.normX x ∧ AnimatedPanda.normX x ≤ 1 := by
  unfold AnimatedPanda.normX AnimatedPanda.SCR_WIDTH at *
  constructor
  · have : 0 ≤ x / 800 := div_nonneg h0 (by norm_num)
    linarith
  · have : x / 800 ≤ 1 := by
      rw [div_le_one (by norm_num)]
      exact h1
    linarith

theorem glmTranslate_one_zero {K : Type} [Field K] :
    glmTranslate (1 : Mat4 K) ![0, 0, 0] = 1 := by
  ext i j
  fin_cases i <;> fin_cases j <;>
    simp [glmTranslate, Matrix.one_apply, Matrix.vecHead, Matrix.vecTail]

theorem pivoted_angle_zero {K : Type} [Field K] (T : Trig K) (hs : T.sin 0 = 0)
    (hc : T.cos 0 = 1) (px py qx qy : K) (hx : px + qx = 0) (hy : py + qy = 0) :
    AnimatedPanda.pivoted T 1 ![px, py, 0] 0 ![qx, qy, 0] = 1 := by
  ext i j
  fin_cases i <;> fin_cases j <;>
    simp [AnimatedPanda.pivoted, glmTranslate, glmRotate, Matrix.mul_apply,
      Fin.sum_univ_four, Matrix.one_apply, Matrix.vecHead, Matrix.vecTail, hs, hc] <;>
    first
      | linear_combination hx
      | linear_combination hy

theorem vertexShader_one {K : Type} [Field K] [CharZero K] (x y : K) :
    AnimatedPanda.vertexShader 1 (x, y) = Panda.vertexShader (x, y) := by
  ext i
  fin_cases i <;>
    simp [AnimatedPanda.vertexShader, Panda.vertexShader, AnimatedPanda.projection,
      AnimatedPanda.view, glmOrtho, Matrix.mulVec, Matrix.dotProduct, Fin.sum_univ_four] <;>
    norm_num

theorem vertexShader_pivoted {K : Type} [Field K] [CharZero K] (T : Trig K)
    (angle px py x y : K) :
    AnimatedPanda.vertexShader
      (AnimatedPanda.pivoted T 1 ![px, py, 0] angle ![-px, -py, 0]) (x, y) =
    ![px + (T.cos angle * (x - px) - T.sin angle * (y - py)),
      py + (T.sin angle * (x - px) + T.cos angle * (y - py)), 0, 1] := by
  ext i
  fin_cases i <;>
    simp [AnimatedPanda.vertexShader, AnimatedPanda.projection, AnimatedPanda.view, glmOrtho,
      AnimatedPanda.pivoted, glmTranslate, glmRotate, Matrix.mulVec, Matrix.mul_apply,
      Fin.sum_univ_four, Matrix.dotProduct, Matrix.one_apply] <;>
    norm_num <;>
    ring

theorem globalModel_at_rest (p : ℝ) :
    AnimatedPanda.globalModel ⟨Real.sin, Real.cos, p⟩ 0 = 1 := by
  have : AnimatedPanda.bobbing ⟨Real.sin, Real.cos, p⟩ (0 : ℝ) = 0 := by
    simp [AnimatedPanda.bobbing]
  rw [AnimatedPanda.globalModel, this]
  exact glmTranslate_one_zero

theorem models_at_rest (p : ℝ) :
    AnimatedPanda.bodyModel ⟨Real.sin, Real.cos, p⟩ 0 = 1 ∧
    AnimatedPanda.headModel ⟨Real.sin, Real.cos, p⟩ 0 AnimatedPanda.mouseStart = 1 ∧
    AnimatedPanda.leftArmModel ⟨Real.sin, Real.cos, p⟩ 0 = 1 ∧
    AnimatedPanda.rightArmModel ⟨Real.sin, Real.cos, p⟩ 0 = 1 := by
  have hg := globalModel_at_rest p
  have hh : AnimatedPanda.headRotation (AnimatedPanda.mouseStart : ℝ) = 0 := by
    norm_num [AnimatedPanda.headRotation, AnimatedPanda.normX, AnimatedPanda.mouseStart,
      AnimatedPanda.SCR_WIDTH]
  have ha : AnimatedPanda.armSwing ⟨Real.sin, Real.cos, p⟩ (0 : ℝ) = 0 := by
    simp [AnimatedPanda.armSwing]
  refine ⟨hg, ?_, ?_, ?_⟩
  · rw [AnimatedPanda.headModel, hg, hh]
    exact pivoted_angle_zero _ Real.sin_zero Real.cos_zero _ _ _ _ (by norm_num) (by norm_num)
  · rw [AnimatedPanda.leftArmModel, hg, AnimatedPanda.leftArmAngle, ha]
    exact pivoted_angle_zero _ Real.sin_zero Real.cos_zero _ _ _ _ (by norm_num) (by norm_num)
  · rw [AnimatedPanda.rightArmModel, hg, AnimatedPanda.rightArmAngle, ha, neg_zero]
    exact pivoted_angle_zero _ Real.sin_zero Real.cos_zero _ _ _ _ (by norm_num) (by norm_num)

theorem legSwing_at_rest :
    AnimatedPanda.legSwing ⟨Real.sin, Real.cos, (glmPiFloat : ℝ)⟩ 0 < 0 ∧
    -(3 / 10 ^ 8) < AnimatedPanda.legSwing ⟨Real.sin, Real.cos, (glmPiFloat : ℝ)⟩ 0 := by
  have h := legSwing_add_armSwing_le 0
  have h1 := glmPiFloat_sub_pi_lt
  have ha : AnimatedPanda.armSwing ⟨Real.sin, Real.cos, (glmPiFloat : ℝ)⟩ 0 = 0 := by
    simp [AnimatedPanda.armSwing]
  rw [ha, add_zero] at h
  have hs := sin_glmPiFloat_neg
  have e : AnimatedPanda.legSwing ⟨Real.sin, Real.cos, (glmPiFloat : ℝ)⟩ 0 =
      0.3 * Real.sin (glmPiFloat : ℝ) := by
    simp [AnimatedPanda.legSwing]
  constructor
  · rw [e]
    linarith
  · have := (abs_le.1 h).1
    norm_num at h1 this ⊢
    linarith

theorem legModels_at_rest (x y : ℝ) :
    AnimatedPanda.vertexShader
        (AnimatedPanda.leftLegModel ⟨Real.sin, Real.cos, (glmPiFloat : ℝ)⟩ 0) (x, y) =
      ![-0.20 + (Real.cos (AnimatedPanda.legSwing ⟨Real.sin, Real.cos, (glmPiFloat : ℝ)⟩ 0) *
            (x - -0.20) -
          Real.sin (AnimatedPanda.legSwing ⟨Real.sin, Real.cos, (glmPiFloat : ℝ)⟩ 0) *
            (y - -0.30)),
        -0.30 + (Real.sin (AnimatedPanda.legSwing ⟨Real.sin, Real.cos, (glmPiFloat : ℝ)⟩ 0) *
            (x - -0.20) +
          Real.cos (AnimatedPanda.legSwing ⟨Real.sin, Real.cos, (glmPiFloat : ℝ)⟩ 0) *
            (y - -0.30)), 0, 1] ∧
    AnimatedPanda.vertexShader
        (AnimatedPanda.rightLegModel ⟨Real.sin, Real.cos, (glmPiFloat : ℝ)⟩ 0) (x, y) =
      ![0.20 + (Real.cos (-AnimatedPanda.legSwing ⟨Real.sin, Real.cos, (glmPiFloat : ℝ)⟩ 0) *
            (x - 0.20) -
          Real.sin (-AnimatedPanda.legSwing ⟨Real.sin, Real.cos, (glmPiFloat : ℝ)⟩ 0) *
            (y - -0.30)),
        -0.30 + (Real.sin (-AnimatedPanda.legSwing ⟨Real.sin, Real.cos, (glmPiFloat : ℝ)⟩ 0) *
            (x - 0.20) +
          Real.cos (-AnimatedPanda.legSwing ⟨Real.sin, Real.cos, (glmPiFloat : ℝ)⟩ 0) *
            (y - -0.30)), 0, 1] := by
  constructor
  · have h := vertexShader_pivoted ⟨Real.sin, Real.cos, (glmPiFloat : ℝ)⟩
      (AnimatedPanda.legSwing ⟨Real.sin, Real.cos, (glmPiFloat : ℝ)⟩ 0) (-0.20) (-0.30) x y
    rw [neg_neg, neg_neg] at h
    rw [AnimatedPanda.leftLegModel, globalModel_at_rest, AnimatedPanda.leftLegAngle]
    exact h
  · have h := vertexShader_pivoted ⟨Real.sin, Real.cos, (glmPiFloat : ℝ)⟩
      (-AnimatedPanda.legSwing ⟨Real.sin, Real.cos, (glmPiFloat : ℝ)⟩ 0) 0.20 (-0.30) x y
    rw [neg_neg] at h
    rw [AnimatedPanda.rightLegModel, globalModel_at_rest, AnimatedPanda.rightLegAngle]
    exact h

theorem rotation_displacement (a dx dy : ℝ) (ha : |a| ≤ 1) :
    |Real.cos a * dx - Real.sin a * dy - dx| ≤ |a| * (|dx| + |dy|) ∧
    |Real.sin a * dx + Real.cos a * dy - dy| ≤ |a| * (|dx| + |dy|) := by
  have hs : |Real.sin a| ≤ |a| := Real.abs_sin_le_abs
  have hc1 : Real.cos a ≤ 1 := Real.cos_le_one a
  have hc2 : 1 - a ^ 2 / 2 ≤ Real.cos a := Real.one_sub_sq_div_two_le_cos
  have ha0 : 0 ≤ |a| := abs_nonneg a
  have hsq : a ^ 2 = |a| ^ 2 := (sq_abs a).symm
  have hc : |Real.cos a - 1| ≤ |a| := by
    rw [abs_sub_comm, abs_of_nonneg (by linarith)]
    nlinarith
  have hx0 : 0 ≤ |dx| := abs_nonneg dx
  have hy0 : 0 ≤ |dy| := abs_nonneg dy
  constructor
  · have e : Real.cos a * dx - Real.sin a * dy - dx =
        (Real.cos a - 1) * dx + -(Real.sin a * dy) := by ring
    rw [e]
    calc |(Real.cos a - 1) * dx + -(Real.sin a * dy)|
        ≤ |(Real.cos a - 1) * dx| + |-(Real.sin a * dy)| := abs_add _ _
      _ = |Real.cos a - 1| * |dx| + |Real.sin a| * |dy| := by
          rw [abs_neg, abs_mul, abs_mul]
      _ ≤ |a| * |dx| + |a| * |dy| :=
          add_le_add (mul_le_mul_of_nonneg_right hc hx0) (mul_le_mul_of_nonneg_right hs hy0)
      _ = |a| * (|dx| + |dy|) := by ring
  · have e : Real.sin a * dx + Real.cos a * dy - dy =
        Real.sin a * dx + (Real.cos a - 1) * dy := by ring
    rw [e]
    calc |Real.sin a * dx + (Real.cos a - 1) * dy|
        ≤ |Real.sin a * dx| + |(Real.cos a - 1) * dy| := abs_add _ _
      _ = |Real.sin a| * |dx| + |Real.cos a - 1| * |dy| := by
          rw [abs_mul, abs_mul]
      _ ≤ |a| * |dx| + |a| * |dy| :=
          add_le_add (mul_le_mul_of_nonneg_right hs hx0) (mul_le_mul_of_nonneg_right hc hy0)
      _ = |a| * (|dx| + |dy|) := by ring

/-- C16, as the claim states it: at time 0 with the cursor at its initial
position the model matrices of the two legs are not the identity, because the
program adds the constant glm::pi<float>(), whose sine is not 0, and the
vertex shader does not map the vertex (-0.20, -0.55) of the left leg to the
clip position the vertex shader of the static panda gives. -/
theorem legs_not_at_rest :
    AnimatedPanda.leftLegModel ⟨Real.sin, Real.cos, (glmPiFloat : ℝ)⟩ 0 ≠ 1 ∧
    AnimatedPanda.rightLegModel ⟨Real.sin, Real.cos, (glmPiFloat : ℝ)⟩ 0 ≠ 1 ∧
    AnimatedPanda.vertexShader
        (AnimatedPanda.leftLegModel ⟨Real.sin, Real.cos, (glmPiFloat : ℝ)⟩ 0) (-0.20, -0.55) ≠
      Panda.vertexShader (-0.20, -0.55) := by
  obtain ⟨hneg, hgt⟩ := legSwing_at_rest
  have hpi := Real.pi_gt_three
  have hs : Real.sin (AnimatedPanda.legSwing ⟨Real.sin, Real.cos, (glmPiFloat : ℝ)⟩ 0) < 0 :=
    Real.sin_neg_of_neg_of_neg_pi_lt hneg (by norm_num at hgt; linarith)
  have hl : AnimatedPanda.vertexShader
      (AnimatedPanda.leftLegModel ⟨Real.sin, Real.cos, (glmPiFloat : ℝ)⟩ 0) (-0.20, -0.55) ≠
      Panda.vertexShader (-0.20, -0.55) := by
    intro h
    have h0 := congrFun h 0
    rw [(legModels_at_rest (-0.20) (-0.55)).1] at h0
    simp [Panda.vertexShader] at h0
    norm_num at h0
    linarith
  have hr : AnimatedPanda.vertexShader
      (AnimatedPanda.rightLegModel ⟨Real.sin, Real.cos, (glmPiFloat : ℝ)⟩ 0) (0.20, -0.55) ≠
      Panda.vertexShader (0.20, -0.55) := by
    intro h
    have h0 := congrFun h 0
    rw [(legModels_at_rest (0.20) (-0.55)).2] at h0
    simp [Panda.vertexShader] at h0
    norm_num at h0
    linarith
  refine ⟨?_, ?_, hl⟩
  · intro h
    rw [h] at hl
    exact hl (vertexShader_one _ _)
  · intro h
    rw [h] at hr
    exact hr (vertexShader_one _ _)

/-- C16, amended: in exact real arithmetic with the constant glm::pi<float>()
the program adds, at time 0 with the cursor at its initial position
SCR_WIDTH / 2 the model matrices of the body, the head and the two arms are
the identity, and with the projection ortho(-1,1,-1,1,-1,1) and the identity
as view the vertex shader maps every vertex (x, y) of these parts to the clip
position (x, y, 0, 1) the vertex shader of the static panda gives.  The model
matrices of the legs are the rotations about the pivots of the legs by the
angles legSwing(0) and -legSwing(0), where legSwing(0) is negative and
larger than -3 * 10^-8; a vertex (x, y) of the square [-1, 1] x [-1, 1] drawn
with them gets a clip position (x', y', 0, 1) with x' and y' less than 10^-7
away from x and y. -/
theorem animated_panda_nearly_at_rest (x y : ℝ) (hx : |x| ≤ 1) (hy : |y| ≤ 1) :
    (AnimatedPanda.bodyModel ⟨Real.sin, Real.cos, (glmPiFloat : ℝ)⟩ 0 = 1 ∧
      AnimatedPanda.headModel ⟨Real.sin, Real.cos, (glmPiFloat : ℝ)⟩ 0
        AnimatedPanda.mouseStart = 1 ∧
      AnimatedPanda.leftArmModel ⟨Real.sin, Real.cos, (glmPiFloat : ℝ)⟩ 0 = 1 ∧
      AnimatedPanda.rightArmModel ⟨Real.sin, Real.cos, (glmPiFloat : ℝ)⟩ 0 = 1) ∧
    (∀ model ∈ [ AnimatedPanda.bodyModel ⟨Real.sin, Real.cos, (glmPiFloat : ℝ)⟩ 0,
        AnimatedPanda.headModel ⟨Real.sin, Real.cos, (glmPiFloat : ℝ)⟩ 0
          AnimatedPanda.mouseStart,
        AnimatedPanda.leftArmModel ⟨Real.sin, Real.cos, (glmPiFloat : ℝ)⟩ 0,
        AnimatedPanda.rightArmModel ⟨Real.sin, Real.cos, (glmPiFloat : ℝ)⟩ 0 ],
      AnimatedPanda.vertexShader model (x, y) = ![x, y, 0, 1] ∧
      AnimatedPanda.vertexShader model (x, y) = Panda.vertexShader (x, y)) ∧
    (AnimatedPanda.leftLegModel ⟨Real.sin, Real.cos, (glmPiFloat : ℝ)⟩ 0 =
        AnimatedPanda.pivoted ⟨Real.sin, Real.cos, (glmPiFloat : ℝ)⟩ 1 ![-0.20, -0.30, 0]
          (AnimatedPanda.legSwing ⟨Real.sin, Real.cos, (glmPiFloat : ℝ)⟩ 0)
          ![0.20, 0.30, 0] ∧
      AnimatedPanda.rightLegModel ⟨Real.sin, Real.cos, (glmPiFloat : ℝ)⟩ 0 =
        AnimatedPanda.pivoted ⟨Real.sin, Real.cos, (glmPiFloat : ℝ)⟩ 1 ![0.20, -0.30, 0]
          (-AnimatedPanda.legSwing ⟨Real.sin, Real.cos, (glmPiFloat : ℝ)⟩ 0)
          ![-0.20, 0.30, 0] ∧
      AnimatedPanda.legSwing ⟨Real.sin, Real.cos, (glmPiFloat : ℝ)⟩ 0 < 0 ∧
      -(3 / 10 ^ 8) < AnimatedPanda.legSwing ⟨Real.sin, Real.cos, (glmPiFloat : ℝ)⟩ 0) ∧
    (∀ model ∈ [ AnimatedPanda.leftLegModel ⟨Real.sin, Real.cos, (glmPiFloat : ℝ)⟩ 0,
        AnimatedPanda.rightLegModel ⟨Real.sin, Real.cos, (glmPiFloat : ℝ)⟩ 0 ],
      |AnimatedPanda.vertexShader model (x, y) 0 - x| < 1 / 10 ^ 7 ∧
      |AnimatedPanda.vertexShader model (x, y) 1 - y| < 1 / 10 ^ 7 ∧
      AnimatedPanda.vertexShader model (x, y) 2 = 0 ∧
      AnimatedPanda.vertexShader model (x, y) 3 = 1) := by
  obtain ⟨h1, h2, h3, h4⟩ := models_at_rest (glmPiFloat : ℝ)
  obtain ⟨hneg, hgt⟩ := legSwing_at_rest
  have habs : |AnimatedPanda.legSwing ⟨Real.sin, Real.cos, (glmPiFloat : ℝ)⟩ 0| < 3 / 10 ^ 8 := by
    rw [abs_of_neg hneg]
    linarith
  have hx1 := abs_le.1 hx
  have hy1 := abs_le.1 hy
  refine ⟨⟨h1, h2, h3, h4⟩, ?_, ⟨?_, ?_, hneg, hgt⟩, ?_⟩
  · intro model hm
    rw [h1, h2, h3, h4] at hm
    simp only [List.mem_cons, List.mem_singleton, List.not_mem_nil, or_false, or_self] at hm
    subst hm
    exact ⟨vertexShader_one x y, vertexShader_one x y⟩
  · rw [AnimatedPanda.leftLegModel, globalModel_at_rest, AnimatedPanda.leftLegAngle]
  · rw [AnimatedPanda.rightLegModel, globalModel_at_rest, AnimatedPanda.rightLegAngle]
  · intro model hm
    simp only [List.mem_cons, List.mem_singleton, List.not_mem_nil, or_false] at hm
    rcases hm with rfl | rfl
    · rw [(legModels_at_rest x y).1]
      obtain ⟨d1, d2⟩ := rotation_displacement
        (AnimatedPanda.legSwing ⟨Real.sin, Real.cos, (glmPiFloat : ℝ)⟩ 0)
        (x - -0.20) (y - -0.30) (by norm_num at habs ⊢; linarith)
      have bx : |x - -0.20| ≤ 1.2 := by
        rw [abs_le]
        constructor <;> norm_num <;> linarith
      have by1 : |y - -0.30| ≤ 1.3 := by
        rw [abs_le]
        constructor <;> norm_num <;> linarith
      have hprod : |AnimatedPanda.legSwing ⟨Real.sin, Real.cos, (glmPiFloat : ℝ)⟩ 0| *
          (|x - -0.20| + |y - -0.30|) < 1 / 10 ^ 7 := by
        have hn := abs_nonneg (AnimatedPanda.legSwing ⟨Real.sin, Real.cos, (glmPiFloat : ℝ)⟩ 0)
        have hs0 : 0 ≤ |x - -0.20| + |y - -0.30| := by positivity
        norm_num at habs bx by1 ⊢
        nlinarith
      refine ⟨?_, ?_, rfl, rfl⟩
      · simp only [Matrix.cons_val_zero]
        have e : ∀ u : ℝ, -0.20 + u - x = u - (x - -0.20) := fun u => by ring
        rw [e]
        exact lt_of_le_of_lt d1 hprod
      · simp only [Matrix.cons_val_one, Matrix.head_cons]
        have e : ∀ u : ℝ, -0.30 + u - y = u - (y - -0.30) := fun u => by ring
        rw [e]
        exact lt_of_le_of_lt d2 hprod
    · rw [(legModels_at_rest x y).2]
      obtain ⟨d1, d2⟩ := rotation_displacement
        (-AnimatedPanda.legSwing ⟨Real.sin, Real.cos, (glmPiFloat : ℝ)⟩ 0)
        (x - 0.20) (y - -0.30) (by rw [abs_neg]; norm_num at habs ⊢; linarith)
      rw [abs_neg] at d1 d2
      have bx : |x - 0.20| ≤ 1.2 := by
        rw [abs_le]
        constructor <;> norm_num <;> linarith
      have by1 : |y - -0.30| ≤ 1.3 := by
        rw [abs_le]
        constructor <;> norm_num <;> linarith
      have hprod : |AnimatedPanda.legSwing ⟨Real.sin, Real.cos, (glmPiFloat : ℝ)⟩ 0| *
          (|x - 0.20| + |y - -0.30|) < 1 / 10 ^ 7 := by
        have hn := abs_nonneg (AnimatedPanda.legSwing ⟨Real.sin, Real.cos, (glmPiFloat : ℝ)⟩ 0)
        have hs0 : 0 ≤ |x - 0.20| + |y - -0.30| := by positivity
        norm_num at habs bx by1 ⊢
        nlinarith
      refine ⟨?_, ?_, rfl, rfl⟩
      · simp only [Matrix.cons_val_zero]
        have e : ∀ u : ℝ, 0.20 + u - x = u - (x - 0.20) := fun u => by ring
        rw [e]
        exact lt_of_le_of_lt d1 hprod
      · simp only [Matrix.cons_val_one, Matrix.head_cons]
        have e : ∀ u : ℝ, -0.30 + u - y = u - (y - -0.30) := fun u => by ring
        rw [e]
        exact lt_of_le_of_lt d2 hprod

/-- Witness of C16, amended, at the vertex (-0.20, -0.55) of the left leg. -/
theorem animated_panda_nearly_at_rest_witness :
    (|(-0.20 : ℝ)| ≤ 1 ∧ |(-0.55 : ℝ)| ≤ 1) ∧
    |AnimatedPanda.vertexShader
        (AnimatedPanda.leftLegModel ⟨Real.sin, Real.cos, (glmPiFloat : ℝ)⟩ 0)
        (-0.20, -0.55) 0 - -0.20| < 1 / 10 ^ 7 ∧
    |AnimatedPanda.vertexShader
        (AnimatedPanda.leftLegModel ⟨Real.sin, Real.cos, (glmPiFloat : ℝ)⟩ 0)
        (-0.20, -0.55) 1 - -0.55| < 1 / 10 ^ 7 :=
  ⟨⟨by norm_num [abs_le], by norm_num [abs_le]⟩,
    ((animated_panda_nearly_at_rest (-0.20) (-0.55) (by norm_num [abs_le])
      (by norm_num [abs_le])).2.2.2 _ (List.mem_cons_self _ _)).1,
    ((animated_panda_nearly_at_rest (-0.20) (-0.55) (by norm_num [abs_le])
      (by norm_num [abs_le])).2.2.2 _ (List.mem_cons_self _ _)).2.1⟩

/-! ## Layout of the vertex table -/

/-- C17: the list vertices of the static panda has 43 entries; the lines of
its layout comment follow one another from index 0 to index 42, and every
vertex in the index range of a line has the colour of the line: white for
the head [0..5] and the body [21..26], black for the ears [6..11], the eye
patches [12..17], the nose [18..20], the arms [27..34] and the legs
[35..42]. -/
theorem vertices_follow_layout :
    Panda.vertices.length = 43 ∧
    Panda.layout.map (fun l => (l.first, l.last, l.color)) =
      [ (0, 5, white), (6, 8, black), (9, 11, black), (12, 14, black), (15, 17, black),
        (18, 20, black), (21, 26, white), (27, 30, black), (31, 34, black),
        (35, 38, black), (39, 42, black) ] ∧
    Panda.layout.flatMap (fun l => slice Panda.vertices l.first l.last) = Panda.vertices ∧
    ∀ l ∈ Panda.layout, ∀ v ∈ slice Panda.vertices l.first l.last, v.color = l.color := by
  refine ⟨rfl, rfl, rfl, ?_⟩
  intro l hl
  simp only [Panda.layout, List.mem_cons, List.mem_singleton, List.not_mem_nil,
    or_false] at hl
  rcases hl with rfl | rfl | rfl | rfl | rfl | rfl | rfl | rfl | rfl | rfl | rfl <;>
    norm_num [slice, Panda.vertices, Vertex.color, white, black]

/-! ## Ranges of the light parameters -/

theorem randPercent_range (r : Int) (h : 0 ≤ r) : 0 ≤ randPercent r ∧ randPercent r ≤ 99 := by
  unfold randPercent
  have h0 : 0 ≤ Int.tmod r 100 := Int.tmod_nonneg 100 h
  have h1 : Int.tmod r 100 < 100 := Int.tmod_lt_of_pos r (by decide)
  have h2 : Int.tmod r 100 ≤ 99 := by omega
  constructor
  · exact_mod_cast h0
  · exact_mod_cast h2

theorem light_in_range (rand : Nat → Int) (h : ∀ k, 0 ≤ rand k) (i : Nat) :
    (within 0.5 1 (Deferred.light rand i).color.1 ∧
      within 0.5 1 (Deferred.light rand i).color.2.1 ∧
      within 0.5 1 (Deferred.light rand i).color.2.2) ∧
    (within (-1) 1 (Deferred.light rand i).dir.1 ∧
      within (-1) 1 (Deferred.light rand i).dir.2.1 ∧
      within (-1) 1 (Deferred.light rand i).dir.2.2) ∧
    within 0 glmPi (Deferred.light rand i).aniOffset := by
  have r3 := randPercent_range _ (h (10 * i + 3))
  have r4 := randPercent_range _ (h (10 * i + 4))
  have r5 := randPercent_range _ (h (10 * i + 5))
  have r6 := randPercent_range _ (h (10 * i + 6))
  have r7 := randPercent_range _ (h (10 * i + 7))
  have r8 := randPercent_range _ (h (10 * i + 8))
  have r9 := randPercent_range _ (h (10 * i + 9))
  have hpi : (0 : ℚ) < glmPi := by norm_num [glmPi]
  simp only [Deferred.light, within]
  refine ⟨⟨⟨?_, ?_⟩, ⟨?_, ?_⟩, ⟨?_, ?_⟩⟩, ⟨⟨?_, ?_⟩, ⟨?_, ?_⟩, ⟨?_, ?_⟩⟩, ⟨?_, ?_⟩⟩
  · norm_num; linarith [r3.1]
  · norm_num; linarith [r3.2]
  · norm_num; linarith [r4.1]
  · norm_num; linarith [r4.2]
  · norm_num; linarith [r5.1]
  · norm_num; linarith [r5.2]
  · linarith [r6.1]
  · linarith [r6.2]
  · linarith [r7.1]
  · linarith [r7.2]
  · linarith [r8.1]
  · linarith [r8.2]
  · exact mul_nonneg (div_nonneg r9.1 (by norm_num)) hpi.le
  · have : randPercent (rand (10 * i + 9)) / 100 ≤ 1 := by
      rw [div_le_one (by norm_num)]
      linarith [r9.2]
    exact mul_le_of_le_one_left hpi.le this

/-- C18: in the deferred demos, whatever non-negative values rand() returns,
each of the 128 lights generated by the loop "lighting info" has every colour
component in [0.5, 1.0], every direction component in [-1.0, 1.0] and the
animation offset in [0, pi], pi being the value of glm::pi. -/
theorem light_parameters_in_range (rand : Nat → Int) (h : ∀ k, 0 ≤ rand k) :
    (Deferred.lights rand).length = 128 ∧
    ∀ l ∈ Deferred.lights rand,
      (within 0.5 1 l.color.1 ∧ within 0.5 1 l.color.2.1 ∧ within 0.5 1 l.color.2.2) ∧
      (within (-1) 1 l.dir.1 ∧ within (-1) 1 l.dir.2.1 ∧ within (-1) 1 l.dir.2.2) ∧
      within 0 glmPi l.aniOffset := by
  constructor
  · simp [Deferred.lights, Deferred.NR_LIGHTS]
  · intro l hl
    simp only [Deferred.lights, List.mem_map, List.mem_range] at hl
    obtain ⟨i, _, rfl⟩ := hl
    exact light_in_range rand h i

/-- Witness of C18: the values rand() returns are 41, 58, 75, ...; the first
light gets the colour (0.96, 0.545, 0.63). -/
theorem light_parameters_in_range_witness :
    (∀ k : Nat, (0 : Int) ≤ 17 * k + 41) ∧
    (Deferred.light (fun k => 17 * k + 41) 0).color = (0.96, 0.545, 0.63) ∧
    ∀ l ∈ Deferred.lights (fun k => 17 * k + 41),
      (within 0.5 1 l.color.1 ∧ within 0.5 1 l.color.2.1 ∧ within 0.5 1 l.color.2.2) ∧
      (within (-1) 1 l.dir.1 ∧ within (-1) 1 l.dir.2.1 ∧ within (-1) 1 l.dir.2.2) ∧
      within 0 glmPi l.aniOffset := by
  have h : ∀ k : Nat, (0 : Int) ≤ 17 * k + 41 := fun k => by positivity
  refine ⟨h, ?_, (light_parameters_in_range (fun k => 17 * k + 41) h).2⟩
  norm_num [Deferred.light, randPercent, Int.tmod]

/-! ## Facts about snapshots -/

@[simp] theorem snapshots_nil (m : ModelEffect) (s : GLState) : snapshots m s [] = [] := rfl

@[simp] theorem snapshots_cons (m : ModelEffect) (s : GLState) (c : Cmd) (cs : List Cmd) :
    snapshots m s (c :: cs) = (snapshotOf s c).toList ++ snapshots m (step m s c) cs := rfl

@[simp] theorem snapshots_append (m : ModelEffect) (s : GLState) (as bs : List Cmd) :
    snapshots m s (as ++ bs) = snapshots m s as ++ snapshots m (exec m s as) bs := by
  induction as generalizing s with
  | nil => rfl
  | cons a as ih => simp [ih]

theorem opOf_of_phaseOf (c : Cmd) (h : phaseOf c ≠ some .draw) : opOf c = none := by
  cases c <;> first | rfl | (exfalso; exact h rfl)

theorem snapshots_of_phases (m : ModelEffect) (s : GLState) (cs : List Cmd)
    (h : ∀ p ∈ phases cs, p ≠ .draw) : snapshots m s cs = [] := by
  induction cs generalizing s with
  | nil => rfl
  | cons c cs ih =>
    have hc : phaseOf c ≠ some .draw := by
      intro hp
      exact h .draw (by simp [phases_cons, hp]) rfl
    have hcs : ∀ p ∈ phases cs, p ≠ .draw := by
      intro p hp
      exact h p (by simp [phases_cons, hp])
    simp [snapshotOf, opOf_of_phaseOf c hc, ih _ hcs]

theorem snapshots_deliverSizes (m : ModelEffect) (s : GLState) (sizes : List (Int × Int))
    (g : Globals) : snapshots m s (deliverSizes sizes g).1 = [] :=
  snapshots_of_phases m s _ (by simp [phases_deliverSizes])

theorem snapshots_processInput (m : ModelEffect) (s : GLState) (b : Bool) :
    snapshots m s (processInput b) = [] :=
  snapshots_of_phases m s _ (by simp [phases_processInput])

theorem snapshots_renderQuad (m : ModelEffect) (s : GLState) (g : Globals) :
    snapshots m s (renderQuad g).1 =
      [⟨.draw (.arrays .triangleStrip 4), s.readFbo, s.drawFbo, s.program, s.depthTest,
        s.polyMode⟩] := by
  unfold renderQuad
  split <;> rfl

theorem snapshots_renderCube (m : ModelEffect) (s : GLState) (g : Globals) :
    snapshots m s (renderCube g).1 =
      [⟨.draw (.arrays .triangles 36), s.readFbo, s.drawFbo, s.program, s.depthTest,
        s.polyMode⟩] := by
  unfold renderCube
  split <;> rfl

theorem snapshots_objectDraws (m : ModelEffect) (s : GLState) (n : Nat) :
    snapshots m s (Deferred.objectDraws n) =
      List.replicate n ⟨.draw (.model .myModel), s.readFbo, s.drawFbo, s.program,
        s.depthTest, s.polyMode⟩ := by
  induction n generalizing s with
  | zero => rfl
  | succ n ih =>
    simp [Deferred.objectDraws, ih, step, snapshotOf, opOf, List.replicate_succ]

theorem exec_objectDraws_fields (m : ModelEffect) (s : GLState) (n : Nat) :
    (exec m s (Deferred.objectDraws n)).readFbo = s.readFbo ∧
    (exec m s (Deferred.objectDraws n)).drawFbo = s.drawFbo ∧
    (exec m s (Deferred.objectDraws n)).depthTest = s.depthTest ∧
    (exec m s (Deferred.objectDraws n)).polyMode = s.polyMode := by
  induction n generalizing s with
  | zero => exact ⟨rfl, rfl, rfl, rfl⟩
  | succ n ih => simpa [Deferred.objectDraws, step] using ih _

theorem snapshots_lightUniforms (m : ModelEffect) (s : GLState) (k n : Nat) :
    snapshots m s (Deferred.lightUniforms k n) = [] :=
  snapshots_of_phases m s _ (by simp [phases_lightUniforms])

theorem snapshots_lightBoxLoop (m : ModelEffect) (s : GLState) (n : Nat) (g : Globals) :
    snapshots m s (Deferred.lightBoxLoop n g).1 =
      List.replicate n ⟨.draw (.arrays .triangles 36), s.readFbo, s.drawFbo, s.program,
        s.depthTest, s.polyMode⟩ := by
  induction n generalizing g with
  | zero => rfl
  | succ n ih =>
    simp [Deferred.lightBoxLoop, ih, step, snapshotOf, opOf, exec_renderCube,
      snapshots_renderCube, List.replicate_succ]

theorem deferredOrig_snapshots_guiBlock (m : ModelEffect) (s : GLState) (i : FrameInput)
    (g : Globals) : snapshots m s (DeferredOrig.guiBlock i g) = [] := by
  obtain ⟨a, ha⟩ := deferredOrig_phases_guiBlock i g
  apply snapshots_of_phases
  rw [ha]
  intro p hp
  rw [(List.mem_replicate.1 hp).2]
  decide

/-! ## The depth copy of the original deferred demo -/

theorem deferredOrig_snapshots_shadedPasses (m : ModelEffect) (s : GLState) (i : FrameInput)
    (g : Globals) :
    (snapshots m s (DeferredOrig.shadedPasses i g).1).map
        (fun x => (x.op, x.readFbo, x.drawFbo)) =
      [ (.draw (.arrays .triangleStrip 4), s.readFbo, s.drawFbo),
        (.blit ⟨0, 0, g.SCR_WIDTH, g.SCR_HEIGHT⟩ ⟨0, 0, g.SCR_WIDTH, g.SCR_HEIGHT⟩
          false true false, .gBuffer, .default) ] ++
      List.replicate i.numLights (.draw (.arrays .triangles 36), .default, .default) ∧
    (exec m s (DeferredOrig.shadedPasses i g).1).readFbo = .default ∧
    (exec m s (DeferredOrig.shadedPasses i g).1).drawFbo = .default := by
  simp [DeferredOrig.shadedPasses, Deferred.lightingQuad, DeferredOrig.lightBoxes,
    DeferredOrig.depthBlit, Deferred.bindGBufferTextures, step, snapshotOf, opOf,
    exec_renderQuad, snapshots_renderQuad, deferred_exec_lightUniforms,
    snapshots_lightUniforms, deferred_exec_lightBoxLoop, snapshots_lightBoxLoop,
    GLState.setCap]

theorem deferredOrig_snapshots_geometryPass (m : ModelEffect) (s : GLState) :
    (snapshots m s Deferred.geometryPass).map (fun x => (x.op, x.readFbo, x.drawFbo)) =
      List.replicate Deferred.objectCount (.draw (.model .myModel), .gBuffer, .gBuffer) ∧
    (exec m s Deferred.geometryPass).readFbo = .default ∧
    (exec m s Deferred.geometryPass).drawFbo = .default := by
  simp [Deferred.geometryPass, step, snapshotOf, opOf, snapshots_objectDraws,
    exec_objectDraws_fields, GLState.setCap]

/-- C19: in every iteration of the render loop of the original deferred demo in
which `displayGBuffers` is not set, whatever the OpenGL state and the globals
it starts from, the draws and copies are, in order: the objects of the
geometry pass into `gBuffer`, the lighting quad into framebuffer 0, one copy
that reads from `gBuffer` and writes to framebuffer 0, has the rectangle
(0, 0, SCR_WIDTH, SCR_HEIGHT) as source and as destination and copies the depth
buffer only, and then the light boxes, each drawn with framebuffer 0 bound for
reading and for drawing.  The calls of the copy are part of the iteration, and
in whatever state they start they leave framebuffer 0 bound for reading and
for drawing. -/
theorem depth_copy_between_quad_and_boxes (m : ModelEffect) (s : GLState) (i : FrameInput)
    (g : Globals) (h : i.displayGBuffers = false) :
    (snapshots m s (DeferredOrig.frame i g).1).map (fun x => (x.op, x.readFbo, x.drawFbo)) =
      List.replicate Deferred.objectCount (.draw (.model .myModel), .gBuffer, .gBuffer) ++
      [ (.draw (.arrays .triangleStrip 4), .default, .default),
        (.blit ⟨0, 0, (deliverSizes i.sizes g).2.SCR_WIDTH, (deliverSizes i.sizes g).2.SCR_HEIGHT⟩
               ⟨0, 0, (deliverSizes i.sizes g).2.SCR_WIDTH, (deliverSizes i.sizes g).2.SCR_HEIGHT⟩
               false true false, .gBuffer, .default) ] ++
      List.replicate i.numLights (.draw (.arrays .triangles 36), .default, .default) ∧
    (∃ before after, (DeferredOrig.frame i g).1 =
        before ++ DeferredOrig.depthBlit (deliverSizes i.sizes g).2 ++ after) ∧
    ∀ s0 : GLState,
      (exec m s0 (DeferredOrig.depthBlit (deliverSizes i.sizes g).2)).readFbo = .default ∧
      (exec m s0 (DeferredOrig.depthBlit (deliverSizes i.sizes g).2)).drawFbo = .default := by
  refine ⟨?_, ?_, fun s0 => ⟨rfl, rfl⟩⟩
  · have hg := deferredOrig_snapshots_geometryPass m
    have hs := deferredOrig_snapshots_shadedPasses m
    simp only [DeferredOrig.frame, DeferredOrig.render, h, Bool.false_eq_true, if_false,
      snapshots_append, exec_append, snapshots_deliverSizes, snapshots_processInput,
      deferredOrig_snapshots_guiBlock, List.nil_append, List.map_append, hg, hs]
    have e1 : ∀ s1 : GLState, snapshots m s1 [Cmd.glfwGetTime, Cmd.glfwPollEvents] = [] :=
      fun _ => rfl
    have e2 : ∀ s1 : GLState, snapshots m s1 [Cmd.clearColor, Cmd.clear true true false] = [] :=
      fun _ => rfl
    simp only [e1, e2, List.nil_append]
    cases (deliverSizes i.sizes g).2.gui <;> simp [snapshotOf, opOf]
  · simp only [DeferredOrig.frame, DeferredOrig.render, DeferredOrig.shadedPasses, h,
      Bool.false_eq_true, if_false]
    exact ⟨[.glfwGetTime, .glfwPollEvents] ++ (deliverSizes i.sizes g).1 ++
        processInput i.escPressed ++ DeferredOrig.guiBlock i (deliverSizes i.sizes g).2 ++
        [.clearColor, .clear true true false] ++ Deferred.geometryPass ++
        [.clear true true false] ++ (Deferred.lightingQuad i (deliverSizes i.sizes g).2).1,
      (DeferredOrig.lightBoxes i (Deferred.lightingQuad i (deliverSizes i.sizes g).2).2).1 ++
        (if (deliverSizes i.sizes g).2.gui then [.imguiRenderDrawData] else []) ++
        [.glfwSwapBuffers],
      by simp only [List.append_assoc]⟩

/-- The depth copy in an iteration without events, with two lights, started in
a fresh context. -/
theorem depth_copy_between_quad_and_boxes_witness :
    (snapshots ModelEffect.id GLState.fresh
        (DeferredOrig.frame FrameInput.quiet Globals.demo).1).map
        (fun x => (x.op, x.readFbo, x.drawFbo)) =
      List.replicate 9 (.draw (.model .myModel), .gBuffer, .gBuffer) ++
      [ (.draw (.arrays .triangleStrip 4), .default, .default),
        (.blit ⟨0, 0, 1280, 720⟩ ⟨0, 0, 1280, 720⟩ false true false, .gBuffer, .default),
        (.draw (.arrays .triangles 36), .default, .default),
        (.draw (.arrays .triangles 36), .default, .default) ] :=
  (depth_copy_between_quad_and_boxes ModelEffect.id GLState.fresh FrameInput.quiet
    Globals.demo rfl).1

/-! ## Depth test and polygon mode in the post-processing demo -/

theorem polyMode_step (m : ModelEffect) (s : GLState) (c : Cmd)
    (h : setsPolygonMode c = false) : (step m s c).polyMode = s.polyMode := by
  cases c <;> first
    | rfl
    | (exfalso; exact Bool.noConfusion h)
    | (rename_i t f; cases t <;> rfl)
    | (rename_i cap; cases cap <;> rfl)
    | (simp only [step]; split <;> rfl)

theorem polyMode_exec (m : ModelEffect) (s : GLState) (cs : List Cmd)
    (h : cs.filter setsPolygonMode = []) : (exec m s cs).polyMode = s.polyMode := by
  induction cs generalizing s with
  | nil => rfl
  | cons c cs ih =>
    rw [List.filter_eq_nil_iff] at h
    have hc : setsPolygonMode c = false := by simpa using h c (by simp)
    have hcs : cs.filter setsPolygonMode = [] := by
      rw [List.filter_eq_nil_iff]
      intro a ha
      exact h a (by simp [ha])
    rw [exec_cons, ih _ hcs, polyMode_step m s c hc]

theorem filter_setsPolygonMode_deliverSizes (sizes : List (Int × Int)) (g : Globals) :
    (deliverSizes sizes g).1.filter setsPolygonMode = [] := by
  induction sizes generalizing g with
  | nil => rfl
  | cons wh rest ih =>
    simp only [deliverSizes, List.filter_append, ih, List.append_nil]
    unfold sizeLambda
    split <;> simp [setsPolygonMode]

theorem filter_setsPolygonMode_processInput (b : Bool) :
    (processInput b).filter setsPolygonMode = [] := by
  cases b <;> simp [processInput, setsPolygonMode]

theorem postprocessing_filter_setsPolygonMode_guiBlock (i : FrameInput) (g : Globals) :
    (Postprocessing.guiBlock i g).1.filter setsPolygonMode = [] := by
  unfold Postprocessing.guiBlock
  split
  · cases i.reloadClicked <;> simp [setsPolygonMode]
  · simp

theorem postprocessing_snapshots_guiBlock (m : ModelEffect) (s : GLState) (i : FrameInput)
    (g : Globals) : snapshots m s (Postprocessing.guiBlock i g).1 = [] := by
  obtain ⟨a, ha⟩ := postprocessing_phases_guiBlock i g
  apply snapshots_of_phases
  rw [ha]
  intro p hp
  rw [(List.mem_replicate.1 hp).2]
  decide

theorem postprocessing_filter_setsPolygonMode_prelude (e : InitEnv) (names : Nat → Nat) :
    (Postprocessing.prelude e names).1.filter setsPolygonMode = [] := by
  unfold Postprocessing.prelude Postprocessing.startup Postprocessing.framebufferSetup
    InitWindowAndGUI InitWindow
  cases e.windowOk <;> cases e.gladOk <;> simp [setsPolygonMode]

theorem postprocessing_snapshots_render (m : ModelEffect) (s : GLState) (i : FrameInput)
    (g : Globals) :
    (snapshots m s (Postprocessing.render i g).1).map
        (fun x => (x.op, x.drawFbo, x.depthTest, x.polyMode)) =
      [ (.draw (.model .myModel), .framebuffer, true, s.polyMode),
        (.draw (.arrays .triangleStrip 4), .default, false,
          if i.showWireframe then .line else s.polyMode) ] ∧
    (exec m s (Postprocessing.render i g).1).polyMode = .fill := by
  cases hw : i.showWireframe <;> cases hgui : g.gui <;>
    simp [Postprocessing.render, hw, hgui, step, snapshotOf, opOf, exec_renderQuad,
      snapshots_renderQuad, GLState.setCap]

theorem postprocessing_snapshots_frame (m : ModelEffect) (s : GLState) (i : FrameInput)
    (g : Globals) :
    (snapshots m s (Postprocessing.frame i g).1).map
        (fun x => (x.op, x.drawFbo, x.depthTest, x.polyMode)) =
      [ (.draw (.model .myModel), .framebuffer, true, s.polyMode),
        (.draw (.arrays .triangleStrip 4), .default, false,
          if i.showWireframe then .line else s.polyMode) ] ∧
    (exec m s (Postprocessing.frame i g).1).polyMode = .fill := by
  have hr := postprocessing_snapshots_render m
  have e1 : ∀ s1 : GLState, snapshots m s1 [Cmd.glfwGetTime, Cmd.glfwPollEvents] = [] :=
    fun _ => rfl
  have hp : (exec m s ([Cmd.glfwGetTime, Cmd.glfwPollEvents] ++ (deliverSizes i.sizes g).1 ++
      processInput i.escPressed ++
      (Postprocessing.guiBlock i (deliverSizes i.sizes g).2).1)).polyMode = s.polyMode := by
    apply polyMode_exec
    simp [List.filter_append, filter_setsPolygonMode_deliverSizes,
      filter_setsPolygonMode_processInput, postprocessing_filter_setsPolygonMode_guiBlock,
      setsPolygonMode]
  simp only [exec_append] at hp
  simp only [Postprocessing.frame, snapshots_append, exec_append, snapshots_deliverSizes,
    snapshots_processInput, postprocessing_snapshots_guiBlock, e1, List.nil_append, hr, hp]
  exact ⟨trivial, trivial⟩

theorem postprocessing_polyMode_loop (m : ModelEffect) (s : GLState) (frames : List FrameInput)
    (g : Globals) (h : s.polyMode = .fill) :
    (exec m s (Postprocessing.loop frames g).1).polyMode = .fill := by
  induction frames generalizing s g with
  | nil => exact h
  | cons i rest ih =>
    unfold Postprocessing.loop
    cases i.escPressed
    · simp only [Bool.false_eq_true, if_false, exec_append]
      exact ih _ _ (postprocessing_snapshots_frame m s i g).2
    · simp only [if_true]
      exact (postprocessing_snapshots_frame m s i g).2

theorem postprocessing_polyMode_afterFrames (m : ModelEffect) (e : InitEnv)
    (names : Nat → Nat) (frames : List FrameInput) :
    (Postprocessing.afterFrames m e names frames).1.polyMode = .fill := by
  simp only [Postprocessing.afterFrames, exec_append]
  apply postprocessing_polyMode_loop
  rw [polyMode_exec m _ _ (postprocessing_filter_setsPolygonMode_prelude e names)]
  rfl

/-- C20: in the post-processing demo started in a fresh context, in the
iteration of the render loop that follows any number of earlier iterations
with any inputs, and for every value of `showWireframe`, there are exactly two
draws: the model, drawn into the offscreen framebuffer with the depth test
enabled and polygon mode GL_FILL, and the full-screen quad, drawn into
framebuffer 0 with the depth test disabled and with polygon mode GL_LINE if
`showWireframe` is set and GL_FILL if it is not. -/
theorem pass_depth_test_and_polygon_mode (m : ModelEffect) (e : InitEnv) (names : Nat → Nat)
    (earlier : List FrameInput) (i : FrameInput) :
    (snapshots m (Postprocessing.afterFrames m e names earlier).1
        (Postprocessing.frame i (Postprocessing.afterFrames m e names earlier).2).1).map
        (fun x => (x.op, x.drawFbo, x.depthTest, x.polyMode)) =
      [ (.draw (.model .myModel), .framebuffer, true, .fill),
        (.draw (.arrays .triangleStrip 4), .default, false,
          if i.showWireframe then .line else .fill) ] := by
  have h := (postprocessing_snapshots_frame m (Postprocessing.afterFrames m e names earlier).1 i
    (Postprocessing.afterFrames m e names earlier).2).1
  rw [postprocessing_polyMode_afterFrames] at h
  exact h

end RealTime
